import Mathlib

/-!
# Godunov numerical flux (dune/gdt/localfluxes/godunov.hh)

A shallow embedding of the Godunov coupling and boundary flux evaluators and of their
Jacobian splitter, followed by the properties proved about them.

Conventions of the embedding.

* `RangeFieldType` is the field `ℚ`: all arithmetic is exact. The conversions
  `DSC::fromString(DSC::toString(m, 15))` between matrix types change no entry in exact
  arithmetic and are the identity here.
* `std::complex< RangeFieldType >` is `Cplx`, a pair of rationals.
* A failed `assert` and a `DUNE_THROW` end the computation: functions that can reach one
  return `Except Abort _`. Assertions are compiled out when `NDEBUG` is defined, which is a
  field of the build environment `Env`.
* The Eigen library (`::Eigen::EigenSolver`, `inverse()`) and `DSC::FloatCmp::eq` are not
  part of godunov.hh; they are fields of `Env`.
* The `static` data members of a class template are shared by all objects of one
  instantiation; they are the explicit state `Statics`, passed in and out.
-/

namespace Dune.GDT

/-! ## Complex numbers over the rationals -/

/-- Complex number with rational real and imaginary part. -/
@[ext]
structure Cplx where
  re : ℚ
  im : ℚ
deriving DecidableEq

namespace Cplx

instance : Zero Cplx := ⟨⟨0, 0⟩⟩
instance : One Cplx := ⟨⟨1, 0⟩⟩
instance : Add Cplx := ⟨fun a b => ⟨a.re + b.re, a.im + b.im⟩⟩
instance : Neg Cplx := ⟨fun a => ⟨-a.re, -a.im⟩⟩
instance : Mul Cplx := ⟨fun a b => ⟨a.re * b.re - a.im * b.im, a.re * b.im + a.im * b.re⟩⟩

/-- Inverse of a complex number, `conj a / |a|²` (zero at zero). -/
instance : Inv Cplx :=
  ⟨fun a => ⟨a.re / (a.re * a.re + a.im * a.im), -a.im / (a.re * a.re + a.im * a.im)⟩⟩

/-- Embedding of a real scalar. -/
def ofReal (x : ℚ) : Cplx := ⟨x, 0⟩

instance : CommRing Cplx where
  add_assoc a b c := Cplx.ext (add_assoc _ _ _) (add_assoc _ _ _)
  zero_add a := Cplx.ext (zero_add _) (zero_add _)
  add_zero a := Cplx.ext (add_zero _) (add_zero _)
  add_comm a b := Cplx.ext (add_comm _ _) (add_comm _ _)
  neg_add_cancel a := Cplx.ext (neg_add_cancel _) (neg_add_cancel _)
  left_distrib a b c := Cplx.ext
    (show a.re * (b.re + c.re) - a.im * (b.im + c.im)
      = (a.re * b.re - a.im * b.im) + (a.re * c.re - a.im * c.im) by ring)
    (show a.re * (b.im + c.im) + a.im * (b.re + c.re)
      = (a.re * b.im + a.im * b.re) + (a.re * c.im + a.im * c.re) by ring)
  right_distrib a b c := Cplx.ext
    (show (a.re + b.re) * c.re - (a.im + b.im) * c.im
      = (a.re * c.re - a.im * c.im) + (b.re * c.re - b.im * c.im) by ring)
    (show (a.re + b.re) * c.im + (a.im + b.im) * c.re
      = (a.re * c.im + a.im * c.re) + (b.re * c.im + b.im * c.re) by ring)
  zero_mul a := Cplx.ext
    (show (0 : ℚ) * a.re - 0 * a.im = 0 by ring) (show (0 : ℚ) * a.im + 0 * a.re = 0 by ring)
  mul_zero a := Cplx.ext
    (show a.re * 0 - a.im * 0 = (0 : ℚ) by ring) (show a.re * 0 + a.im * 0 = (0 : ℚ) by ring)
  mul_assoc a b c := Cplx.ext
    (show (a.re * b.re - a.im * b.im) * c.re - (a.re * b.im + a.im * b.re) * c.im
      = a.re * (b.re * c.re - b.im * c.im) - a.im * (b.re * c.im + b.im * c.re) by ring)
    (show (a.re * b.re - a.im * b.im) * c.im + (a.re * b.im + a.im * b.re) * c.re
      = a.re * (b.re * c.im + b.im * c.re) + a.im * (b.re * c.re - b.im * c.im) by ring)
  one_mul a := Cplx.ext
    (show (1 : ℚ) * a.re - 0 * a.im = a.re by ring) (show (1 : ℚ) * a.im + 0 * a.re = a.im by ring)
  mul_one a := Cplx.ext
    (show a.re * 1 - a.im * 0 = a.re by ring) (show a.re * 0 + a.im * 1 = a.im by ring)
  mul_comm a b := Cplx.ext
    (show a.re * b.re - a.im * b.im = b.re * a.re - b.im * a.im by ring)
    (show a.re * b.im + a.im * b.re = b.re * a.im + b.im * a.re by ring)
  nsmul := nsmulRec
  zsmul := zsmulRec

end Cplx

/-! ## Collaborators that godunov.hh only refers to -/

/-- Ways in which a computation ends without a result: the exception `Dune::NotImplemented`
thrown by `DUNE_THROW`, or a failed `assert` (only when `NDEBUG` is not defined). -/
inductive Abort where
  | NotImplemented
  | AssertionFailed
deriving DecidableEq

/-- Status reported by `::Eigen::EigenSolver::info()`. -/
inductive ComputationInfo where
  | Success
  | NumericalIssue
  | NoConvergence
  | InvalidInput
deriving DecidableEq

/-- Dense square matrix of `RangeFieldType`, the common reading of `EigenMatrixType` and of
`Dune::FieldMatrix< RangeFieldType, dimRange, dimRange >`. -/
abbrev RMatrix (dimRange : ℕ) := Matrix (Fin dimRange) (Fin dimRange) ℚ

/-- Dense square matrix of `std::complex< RangeFieldType >`. -/
abbrev CMatrix (dimRange : ℕ) := Matrix (Fin dimRange) (Fin dimRange) Cplx

/-- `RangeType`, a state vector. -/
abbrev RangeType (dimRange : ℕ) := Fin dimRange → ℚ

/-- What an `::Eigen::EigenSolver` object holds after construction from a matrix. -/
structure EigenSolver (dimRange : ℕ) where
  info : ComputationInfo
  eigenvalues : Fin dimRange → Cplx
  eigenvectors : CMatrix dimRange

/-- Build configuration and library functions used by godunov.hh but defined elsewhere:
the `NDEBUG` switch, `DSC::FloatCmp::eq` with its default tolerances, the constructor of
`::Eigen::EigenSolver` and `inverse()` of a complex Eigen matrix. -/
structure Env (dimRange : ℕ) where
  NDEBUG : Bool
  FloatCmp_eq : ℚ → ℚ → Bool
  eigen_solver : RMatrix dimRange → EigenSolver dimRange
  inverse : CMatrix dimRange → CMatrix dimRange

/-- `AnalyticalFluxType`: `evaluate(u)` is a `dimRange × dimDomain` matrix `f(u)[kk][coord]`,
`jacobian(u)` is one `dimRange × dimRange` matrix per axis. -/
structure AnalyticalFlux (dimDomain dimRange : ℕ) where
  evaluate : RangeType dimRange → Matrix (Fin dimRange) (Fin dimDomain) ℚ
  jacobian : RangeType dimRange → Fin dimDomain → RMatrix dimRange

/-- The part of `IntersectionType` the evaluators use. Points of the intersection and of the
adjacent entities are taken from one type `P`. -/
structure Intersection (P : Type) (dimDomain : ℕ) where
  geometryInInside_global : P → P
  geometryInOutside_global : P → P
  unitOuterNormal : P → Fin dimDomain → ℚ
  geometry_volume : ℚ

/-- Loop `for (ii = 0; ii < n; ++ii)` over a list of indices whose body may abort. -/
def for_loop {ι σ : Type} (body : σ → ι → Except Abort σ) : List ι → σ → Except Abort σ
  | [], s => .ok s
  | ii :: rest, s =>
    match body s ii with
    | .error e => .error e
    | .ok s1 => for_loop body rest s1

/-- Member `set_entry(ii, jj, value)` of a dense matrix. -/
def set_entry {n : ℕ} (M : RMatrix n) (ii jj : Fin n) (value : ℚ) : RMatrix n :=
  Matrix.of fun i j => if i = ii ∧ j = jj then value else M i j

/-- Member `real()` of a complex Eigen matrix: the entrywise real part. -/
def real {n : ℕ} (M : CMatrix n) : RMatrix n := M.map Cplx.re

/-! ## GodunovNumericalCouplingFlux, general `dimDomain` -/

/-- The `static` members of `GodunovNumericalCouplingFlux< AnalyticalFluxType, dimDomain >`
(lines 240-242, initialised at lines 246-256), shared by every object of the instantiation.
The two last fields are not in the source: they record, in call order, the arguments given
to `analytical_flux_.jacobian` and the number of `EigenSolver` objects constructed. -/
structure Statics (dimDomain dimRange : ℕ) where
  jacobian_neg_ : Fin dimDomain → RMatrix dimRange
  jacobian_pos_ : Fin dimDomain → RMatrix dimRange
  jacobians_constructed_ : Bool
  jacobian_calls : List (RangeType dimRange)
  eigen_solver_calls : ℕ

/-- Values of the static members at program start (lines 246-256). -/
def Statics.initial (dimDomain dimRange : ℕ) : Statics dimDomain dimRange :=
  ⟨fun _ => 0, fun _ => 0, false, [], 0⟩

/-- The non-static members of a `GodunovNumericalCouplingFlux` object. -/
structure GodunovNumericalCouplingFlux (dimDomain dimRange : ℕ) where
  analytical_flux_ : AnalyticalFlux dimDomain dimRange
  is_linear_ : Bool

/-- The two local matrices `diag_jacobian_pos_tmp`, `diag_jacobian_neg_tmp` of
`calculate_jacobians`. -/
structure DiagTmp (dimRange : ℕ) where
  diag_jacobian_pos_tmp : RMatrix dimRange
  diag_jacobian_neg_tmp : RMatrix dimRange

/-- Body of the loop over `jj` in `calculate_jacobians` (lines 219-227). -/
def calculate_jacobians_jj {dimRange : ℕ} (env : Env dimRange)
    (eigenvalues : Fin dimRange → Cplx) (diag : DiagTmp dimRange) (jj : Fin dimRange) :
    Except Abort (DiagTmp dimRange) :=
  if !env.NDEBUG && !decide (|(eigenvalues jj).im| < 1 / 10 ^ 15) then
    .error .AssertionFailed
  else
    let eigenvalue := (eigenvalues jj).re
    if eigenvalue < 0 then
      .ok ⟨diag.diag_jacobian_pos_tmp, set_entry diag.diag_jacobian_neg_tmp jj jj eigenvalue⟩
    else
      .ok ⟨set_entry diag.diag_jacobian_pos_tmp jj jj eigenvalue, diag.diag_jacobian_neg_tmp⟩

/-- Body of the loop over `ii` in `calculate_jacobians` (lines 209-233). The loop carries the
two temporaries and the static members. The assertion of line 218 on the number of
eigenvalues holds by the type of `eigenvalues`. -/
def calculate_jacobians_ii {dimDomain dimRange : ℕ} (env : Env dimRange)
    (jacobian : Fin dimDomain → RMatrix dimRange)
    (st : DiagTmp dimRange × Statics dimDomain dimRange) (ii : Fin dimDomain) :
    Except Abort (DiagTmp dimRange × Statics dimDomain dimRange) :=
  let diag0 : DiagTmp dimRange :=
    ⟨(0 : ℚ) • st.1.diag_jacobian_pos_tmp, (0 : ℚ) • st.1.diag_jacobian_neg_tmp⟩
  let eigen_solver := env.eigen_solver (jacobian ii)
  if !env.NDEBUG && !decide (eigen_solver.info = ComputationInfo.Success) then
    .error .AssertionFailed
  else
    let eigenvalues := eigen_solver.eigenvalues
    let eigenvectors := eigen_solver.eigenvectors
    match for_loop (calculate_jacobians_jj env eigenvalues) (List.finRange dimRange) diag0 with
    | .error e => .error e
    | .ok diag =>
      let eigenvectors_inverse := env.inverse eigenvectors
      let jacobian_neg_eigen :=
        real eigenvectors * diag.diag_jacobian_neg_tmp * real eigenvectors_inverse
      let jacobian_pos_eigen :=
        real eigenvectors * diag.diag_jacobian_pos_tmp * real eigenvectors_inverse
      .ok (diag,
        ⟨Function.update st.2.jacobian_neg_ ii jacobian_neg_eigen,
         Function.update st.2.jacobian_pos_ ii jacobian_pos_eigen,
         st.2.jacobians_constructed_, st.2.jacobian_calls, st.2.eigen_solver_calls + 1⟩)

/-- Member `calculate_jacobians` (lines 204-237). -/
def calculate_jacobians {dimDomain dimRange : ℕ} (env : Env dimRange)
    (jacobian : Fin dimDomain → RMatrix dimRange) (st : Statics dimDomain dimRange) :
    Except Abort (Statics dimDomain dimRange) :=
  match for_loop (calculate_jacobians_ii env jacobian) (List.finRange dimDomain)
      ((⟨0, 0⟩ : DiagTmp dimRange), st) with
  | .error e => .error e
  | .ok r => .ok r.2

namespace GodunovNumericalCouplingFlux

variable {P : Type} {dimDomain dimRange : ℕ}

/-- Member `initialize_jacobians` (lines 180-188). -/
def initialize_jacobians (env : Env dimRange)
    (self : GodunovNumericalCouplingFlux dimDomain dimRange)
    (st : Statics dimDomain dimRange) : Except Abort (Statics dimDomain dimRange) :=
  let zero : RangeType dimRange := fun _ => 0
  let jacobian := self.analytical_flux_.jacobian zero
  let st1 : Statics dimDomain dimRange :=
    ⟨st.jacobian_neg_, st.jacobian_pos_, st.jacobians_constructed_,
     st.jacobian_calls ++ [zero], st.eigen_solver_calls⟩
  match calculate_jacobians env jacobian st1 with
  | .error e => .error e
  | .ok st2 =>
    .ok (Statics.mk st2.jacobian_neg_ st2.jacobian_pos_ true st2.jacobian_calls
      st2.eigen_solver_calls)

/-- Member `reinitialize_jacobians` (lines 190-202). -/
def reinitialize_jacobians (env : Env dimRange)
    (self : GodunovNumericalCouplingFlux dimDomain dimRange)
    (st : Statics dimDomain dimRange) (u_i u_j : RangeType dimRange) :
    Except Abort (Statics dimDomain dimRange) :=
  let u_mean : RangeType dimRange := fun kk => (u_i kk + u_j kk) * (1 / 2)
  let jacobian := self.analytical_flux_.jacobian u_mean
  let st1 : Statics dimDomain dimRange :=
    ⟨st.jacobian_neg_, st.jacobian_pos_, st.jacobians_constructed_,
     st.jacobian_calls ++ [u_mean], st.eigen_solver_calls⟩
  calculate_jacobians env jacobian st1

/-- Constructor (lines 110-117): returns the object and the static members it leaves. -/
def construct (env : Env dimRange) (analytical_flux : AnalyticalFlux dimDomain dimRange)
    (is_linear : Bool) (st : Statics dimDomain dimRange) :
    Except Abort (GodunovNumericalCouplingFlux dimDomain dimRange × Statics dimDomain dimRange) :=
  let self : GodunovNumericalCouplingFlux dimDomain dimRange := ⟨analytical_flux, is_linear⟩
  if !st.jacobians_constructed_ && self.is_linear_ then
    match initialize_jacobians env self st with
    | .error e => .error e
    | .ok st1 => .ok (self, st1)
  else
    .ok (self, st)

/-- Lines 138-140 of `evaluate`: the split the call works with. -/
def evaluate_jacobians (env : Env dimRange)
    (self : GodunovNumericalCouplingFlux dimDomain dimRange)
    (st : Statics dimDomain dimRange) (u_i u_j : RangeType dimRange) :
    Except Abort (Statics dimDomain dimRange) :=
  if !self.is_linear_ then reinitialize_jacobians env self st u_i u_j else .ok st

/-- Body of the loop of `evaluate` that finds the direction of the unit outer normal
(lines 150-160). The loop carries `coord` and `num_zeros`; the latter only exists when
`NDEBUG` is not defined. -/
def evaluate_direction_ii (env : Env dimRange) (n_ij : Fin dimDomain → ℚ)
    (st : Fin dimDomain × ℕ) (ii : Fin dimDomain) : Except Abort (Fin dimDomain × ℕ) :=
  if env.FloatCmp_eq (n_ij ii) 1 || env.FloatCmp_eq (n_ij ii) (-1) then
    .ok (ii, st.2)
  else if env.FloatCmp_eq (n_ij ii) 0 then
    .ok (st.1, if env.NDEBUG then st.2 else st.2 + 1)
  else
    .error .NotImplemented

/-- Lines 146-161 of `evaluate`: the search for `coord` and the assertion after it. -/
def evaluate_direction [NeZero dimDomain] (env : Env dimRange) (n_ij : Fin dimDomain → ℚ) :
    Except Abort (Fin dimDomain) :=
  match for_loop (evaluate_direction_ii env n_ij) (List.finRange dimDomain)
      ((0 : Fin dimDomain), 0) with
  | .error e => .error e
  | .ok r =>
    if !env.NDEBUG && !decide (r.2 = dimDomain - 1) then .error .AssertionFailed
    else .ok r.1

/-- Lines 163-176 of `evaluate`: the return vector `ret[0]`. -/
def evaluate_ret (st : Statics dimDomain dimRange)
    (f_u_i : Matrix (Fin dimRange) (Fin dimDomain) ℚ) (delta_u : RangeType dimRange)
    (n_ij : Fin dimDomain → ℚ) (coord : Fin dimDomain) (vol_intersection : ℚ) :
    RangeType dimRange :=
  if n_ij coord > 0 then
    let negative_waves := (st.jacobian_neg_ coord).mulVec delta_u
    fun kk => (f_u_i kk coord - negative_waves kk * n_ij coord) * vol_intersection
  else
    let positive_waves := (st.jacobian_pos_ coord).mulVec delta_u
    fun kk => (-f_u_i kk coord - positive_waves kk * n_ij coord) * vol_intersection

/-- Member `evaluate` (lines 124-177). The result is `ret[0]` together with the static
members after the call. -/
def evaluate [NeZero dimDomain] (env : Env dimRange)
    (self : GodunovNumericalCouplingFlux dimDomain dimRange)
    (st : Statics dimDomain dimRange)
    (local_source_entity local_source_neighbor : P → RangeType dimRange)
    (intersection : Intersection P dimDomain) (x_intersection : P) :
    Except Abort (RangeType dimRange × Statics dimDomain dimRange) :=
  let u_i := local_source_entity (intersection.geometryInInside_global x_intersection)
  let u_j := local_source_neighbor (intersection.geometryInOutside_global x_intersection)
  let f_u_i := self.analytical_flux_.evaluate u_i
  match evaluate_jacobians env self st u_i u_j with
  | .error e => .error e
  | .ok st1 =>
    let delta_u : RangeType dimRange := u_i - u_j
    let n_ij := intersection.unitOuterNormal x_intersection
    match evaluate_direction env n_ij with
    | .error e => .error e
    | .ok coord =>
      let vol_intersection := intersection.geometry_volume
      .ok (evaluate_ret st1 f_u_i delta_u n_ij coord vol_intersection, st1)

end GodunovNumericalCouplingFlux

/-! ## GodunovNumericalBoundaryFlux, general `dimDomain` -/

/-- The non-static members of a `GodunovNumericalBoundaryFlux` object. `boundary_values_`
gives, per entity, the local function that `localFunctions` puts in the tuple. -/
structure GodunovNumericalBoundaryFlux (E P : Type) (dimDomain dimRange : ℕ) where
  analytical_flux_ : AnalyticalFlux dimDomain dimRange
  boundary_values_ : E → P → RangeType dimRange
  is_linear_ : Bool

namespace GodunovNumericalBoundaryFlux

variable {E P : Type} {dimDomain dimRange : ℕ}

/-- Member `initialize_jacobians` (lines 540-548). -/
def initialize_jacobians (env : Env dimRange)
    (self : GodunovNumericalBoundaryFlux E P dimDomain dimRange)
    (st : Statics dimDomain dimRange) : Except Abort (Statics dimDomain dimRange) :=
  let zero : RangeType dimRange := fun _ => 0
  let jacobian := self.analytical_flux_.jacobian zero
  let st1 : Statics dimDomain dimRange :=
    ⟨st.jacobian_neg_, st.jacobian_pos_, st.jacobians_constructed_,
     st.jacobian_calls ++ [zero], st.eigen_solver_calls⟩
  match calculate_jacobians env jacobian st1 with
  | .error e => .error e
  | .ok st2 =>
    .ok (Statics.mk st2.jacobian_neg_ st2.jacobian_pos_ true st2.jacobian_calls
      st2.eigen_solver_calls)

/-- Member `reinitialize_jacobians` (lines 550-562); `calculate_jacobians` of this class
(lines 564-597) has the body of lines 204-237. -/
def reinitialize_jacobians (env : Env dimRange)
    (self : GodunovNumericalBoundaryFlux E P dimDomain dimRange)
    (st : Statics dimDomain dimRange) (u_i u_j : RangeType dimRange) :
    Except Abort (Statics dimDomain dimRange) :=
  let u_mean : RangeType dimRange := fun kk => (u_i kk + u_j kk) * (1 / 2)
  let jacobian := self.analytical_flux_.jacobian u_mean
  let st1 : Statics dimDomain dimRange :=
    ⟨st.jacobian_neg_, st.jacobian_pos_, st.jacobians_constructed_,
     st.jacobian_calls ++ [u_mean], st.eigen_solver_calls⟩
  calculate_jacobians env jacobian st1

/-- Member `localFunctions` (lines 480-483). -/
def localFunctions (self : GodunovNumericalBoundaryFlux E P dimDomain dimRange) (entity : E) :
    P → RangeType dimRange :=
  self.boundary_values_ entity

/-- Lines 499-501 of `evaluate`. -/
def evaluate_jacobians (env : Env dimRange)
    (self : GodunovNumericalBoundaryFlux E P dimDomain dimRange)
    (st : Statics dimDomain dimRange) (u_i u_j : RangeType dimRange) :
    Except Abort (Statics dimDomain dimRange) :=
  if !self.is_linear_ then reinitialize_jacobians env self st u_i u_j else .ok st

/-- Member `evaluate` (lines 486-537). The identifier `localPoint` of line 505 is declared
nowhere; it is an argument here. Lines 507-522 and 525-536 repeat lines 146-161 and 164-175.
The body has no `return`: the result given here is the final value of `ret`, with the static
members after the call. -/
def evaluate [NeZero dimDomain] (env : Env dimRange)
    (self : GodunovNumericalBoundaryFlux E P dimDomain dimRange)
    (st : Statics dimDomain dimRange)
    (local_functions_tuple : P → RangeType dimRange)
    (local_source_entity : P → RangeType dimRange)
    (intersection : Intersection P dimDomain) (x_intersection localPoint : P) :
    Except Abort (RangeType dimRange × Statics dimDomain dimRange) :=
  let x_intersection_entity_coords := intersection.geometryInInside_global x_intersection
  let u_i :=
    local_source_entity (intersection.geometryInInside_global x_intersection_entity_coords)
  let u_j := local_functions_tuple x_intersection_entity_coords
  let f_u_i := self.analytical_flux_.evaluate u_i
  match evaluate_jacobians env self st u_i u_j with
  | .error e => .error e
  | .ok st1 =>
    let delta_u : RangeType dimRange := u_i - u_j
    let n_ij := intersection.unitOuterNormal localPoint
    match GodunovNumericalCouplingFlux.evaluate_direction env n_ij with
    | .error e => .error e
    | .ok coord =>
      let vol_intersection := intersection.geometry_volume
      .ok (GodunovNumericalCouplingFlux.evaluate_ret st1 f_u_i delta_u n_ij coord
        vol_intersection, st1)

end GodunovNumericalBoundaryFlux

/-! ## GodunovNumericalCouplingFlux< ..., 1 >, the specialisation for `dimDomain = 1` -/

/-- `AnalyticalFluxType` for `dimDomain = 1`: `evaluate(u)` is a vector of `dimRange`
entries (line 316: "FluxRangeType should be FieldVector< ..., dimRange >"), `jacobian(u)` is
one `dimRange × dimRange` matrix (line 348 converts it as a whole). -/
structure AnalyticalFlux_1 (dimRange : ℕ) where
  evaluate : RangeType dimRange → RangeType dimRange
  jacobian : RangeType dimRange → RMatrix dimRange

/-- `DS::Functions::Affine`, the function `x ↦ matrix · x + vector`. -/
@[ext]
structure AffineFunctionType (dimRange : ℕ) where
  matrix : RMatrix dimRange
  vector : RangeType dimRange

/-- Member `evaluate(x, ret)` of `AffineFunctionType`: the value written to `ret`. -/
def AffineFunctionType.evaluate {dimRange : ℕ} (f : AffineFunctionType dimRange)
    (x : RangeType dimRange) : RangeType dimRange :=
  f.matrix.mulVec x + f.vector

/-- The `thread_local static` members of `GodunovNumericalCouplingFlux< ..., 1 >`
(lines 411-417), as one thread sees them. The two last fields are not in the source: they
record the arguments given to `analytical_flux_.jacobian` and the number of `EigenSolver`
objects constructed. -/
@[ext]
structure Statics_1 (dimRange : ℕ) where
  jacobian_neg_ : RMatrix dimRange
  jacobian_pos_ : RMatrix dimRange
  jacobian_abs_ : RMatrix dimRange
  jacobian_neg_function_ : AffineFunctionType dimRange
  jacobian_pos_function_ : AffineFunctionType dimRange
  jacobian_abs_function_ : AffineFunctionType dimRange
  jacobians_constructed_ : Bool
  jacobian_calls : List (RangeType dimRange)
  eigen_solver_calls : ℕ

/-- Values of the static members when a thread starts (lines 421-447); the value-initialised
matrices are zero matrices. -/
def Statics_1.initial (dimRange : ℕ) : Statics_1 dimRange :=
  ⟨0, 0, 0, ⟨0, 0⟩, ⟨0, 0⟩, ⟨0, 0⟩, false, [], 0⟩

/-- The non-static members of a `GodunovNumericalCouplingFlux< ..., 1 >` object. -/
structure GodunovNumericalCouplingFlux_1 (dimRange : ℕ) where
  analytical_flux_ : AnalyticalFlux_1 dimRange
  is_linear_ : Bool

/-- Where a body without `return` statement ends (lines 342, 537, 705): the value the local
variable `ret` has at the closing brace, and the static members. The caller is handed no
value. -/
structure EndOfBody (S : Type) (dimRange : ℕ) where
  ret : RangeType dimRange
  statics : S

namespace GodunovNumericalCouplingFlux_1

variable {P : Type} {dimRange : ℕ}

/-- Lines 391-403 of `calculate_jacobians`: the assignments to the static members, for the
two values of the preprocessor switch `PAPERFLUX` (line 90 defines it as `0`). -/
def calculate_jacobians_store (PAPERFLUX : Bool) (st : Statics_1 dimRange)
    (jacobian_neg_eigen jacobian_pos_eigen : RMatrix dimRange) : Statics_1 dimRange :=
  let jacobian_neg_ := jacobian_neg_eigen
  let jacobian_pos_ := jacobian_pos_eigen
  let jacobian_abs_ := (-1 : ℚ) • jacobian_neg_ + jacobian_pos_
  if PAPERFLUX then
    ⟨jacobian_neg_, jacobian_pos_, jacobian_abs_, st.jacobian_neg_function_,
     st.jacobian_pos_function_, ⟨jacobian_abs_, 0⟩,
     st.jacobians_constructed_, st.jacobian_calls, st.eigen_solver_calls⟩
  else
    ⟨jacobian_neg_, jacobian_pos_, jacobian_abs_, ⟨jacobian_neg_, 0⟩, ⟨jacobian_pos_, 0⟩,
     st.jacobian_abs_function_,
     st.jacobians_constructed_, st.jacobian_calls, st.eigen_solver_calls⟩

/-- Body of the loop over `jj` in `calculate_jacobians` (lines 380-404): unlike the loop of
lines 219-227 it rebuilds and stores the split in every pass. -/
def calculate_jacobians_jj (env : Env dimRange) (PAPERFLUX : Bool)
    (eigenvalues : Fin dimRange → Cplx) (eigenvectors : CMatrix dimRange)
    (st : DiagTmp dimRange × Statics_1 dimRange) (jj : Fin dimRange) :
    Except Abort (DiagTmp dimRange × Statics_1 dimRange) :=
  if !env.NDEBUG && !decide (|(eigenvalues jj).im| < 1 / 10 ^ 15) then
    .error .AssertionFailed
  else
    let eigenvalue := (eigenvalues jj).re
    let diag : DiagTmp dimRange :=
      if eigenvalue < 0 then
        ⟨st.1.diag_jacobian_pos_tmp, set_entry st.1.diag_jacobian_neg_tmp jj jj eigenvalue⟩
      else
        ⟨set_entry st.1.diag_jacobian_pos_tmp jj jj eigenvalue, st.1.diag_jacobian_neg_tmp⟩
    let eigenvectors_inverse := env.inverse eigenvectors
    let jacobian_neg_eigen :=
      real eigenvectors * diag.diag_jacobian_neg_tmp * real eigenvectors_inverse
    let jacobian_pos_eigen :=
      real eigenvectors * diag.diag_jacobian_pos_tmp * real eigenvectors_inverse
    .ok (diag, calculate_jacobians_store PAPERFLUX st.2 jacobian_neg_eigen jacobian_pos_eigen)

/-- Member `calculate_jacobians` (lines 366-408). -/
def calculate_jacobians (env : Env dimRange) (PAPERFLUX : Bool) (jacobian : RMatrix dimRange)
    (st : Statics_1 dimRange) : Except Abort (Statics_1 dimRange) :=
  let diag0 : DiagTmp dimRange := ⟨(0 : ℚ) • 0, (0 : ℚ) • 0⟩
  let eigen_solver := env.eigen_solver jacobian
  let st1 : Statics_1 dimRange :=
    ⟨st.jacobian_neg_, st.jacobian_pos_, st.jacobian_abs_, st.jacobian_neg_function_,
     st.jacobian_pos_function_, st.jacobian_abs_function_, st.jacobians_constructed_,
     st.jacobian_calls, st.eigen_solver_calls + 1⟩
  if !env.NDEBUG && !decide (eigen_solver.info = ComputationInfo.Success) then
    .error .AssertionFailed
  else
    match for_loop
        (calculate_jacobians_jj env PAPERFLUX eigen_solver.eigenvalues eigen_solver.eigenvectors)
        (List.finRange dimRange) (diag0, st1) with
    | .error e => .error e
    | .ok r => .ok r.2

/-- Member `initialize_jacobians` (lines 345-351). -/
def initialize_jacobians (env : Env dimRange) (PAPERFLUX : Bool)
    (self : GodunovNumericalCouplingFlux_1 dimRange) (st : Statics_1 dimRange) :
    Except Abort (Statics_1 dimRange) :=
  let zero : RangeType dimRange := fun _ => 0
  let jacobian := self.analytical_flux_.jacobian zero
  let st1 : Statics_1 dimRange :=
    ⟨st.jacobian_neg_, st.jacobian_pos_, st.jacobian_abs_, st.jacobian_neg_function_,
     st.jacobian_pos_function_, st.jacobian_abs_function_, st.jacobians_constructed_,
     st.jacobian_calls ++ [zero], st.eigen_solver_calls⟩
  match calculate_jacobians env PAPERFLUX jacobian st1 with
  | .error e => .error e
  | .ok st2 =>
    .ok (Statics_1.mk st2.jacobian_neg_ st2.jacobian_pos_ st2.jacobian_abs_
      st2.jacobian_neg_function_ st2.jacobian_pos_function_ st2.jacobian_abs_function_ true
      st2.jacobian_calls st2.eigen_solver_calls)

/-- Member `reinitialize_jacobians` (lines 353-364). -/
def reinitialize_jacobians (env : Env dimRange) (PAPERFLUX : Bool)
    (self : GodunovNumericalCouplingFlux_1 dimRange) (st : Statics_1 dimRange)
    (u_i u_j : RangeType dimRange) : Except Abort (Statics_1 dimRange) :=
  let u_mean : RangeType dimRange := fun kk => (u_i kk + u_j kk) * (1 / 2)
  let jacobian := self.analytical_flux_.jacobian u_mean
  let st1 : Statics_1 dimRange :=
    ⟨st.jacobian_neg_, st.jacobian_pos_, st.jacobian_abs_, st.jacobian_neg_function_,
     st.jacobian_pos_function_, st.jacobian_abs_function_, st.jacobians_constructed_,
     st.jacobian_calls ++ [u_mean], st.eigen_solver_calls⟩
  calculate_jacobians env PAPERFLUX jacobian st1

/-- The guarded initialisation `if (!jacobians_constructed_ && is_linear_)
initialize_jacobians();` of lines 284-285 and 305-306. -/
def initialize_guard (env : Env dimRange) (PAPERFLUX : Bool)
    (self : GodunovNumericalCouplingFlux_1 dimRange) (st : Statics_1 dimRange) :
    Except Abort (Statics_1 dimRange) :=
  if !st.jacobians_constructed_ && self.is_linear_ then
    initialize_jacobians env PAPERFLUX self st
  else
    .ok st

/-- Constructor (lines 279-286): returns the object and the static members it leaves. -/
def construct (env : Env dimRange) (PAPERFLUX : Bool)
    (analytical_flux : AnalyticalFlux_1 dimRange) (is_linear : Bool)
    (st : Statics_1 dimRange) :
    Except Abort (GodunovNumericalCouplingFlux_1 dimRange × Statics_1 dimRange) :=
  let self : GodunovNumericalCouplingFlux_1 dimRange := ⟨analytical_flux, is_linear⟩
  match initialize_guard env PAPERFLUX self st with
  | .error e => .error e
  | .ok st1 => .ok (self, st1)

/-- Lines 305-310 of `evaluate`: the static members the call works with. -/
def evaluate_jacobians (env : Env dimRange) (PAPERFLUX : Bool)
    (self : GodunovNumericalCouplingFlux_1 dimRange) (st : Statics_1 dimRange)
    (u_i u_j : RangeType dimRange) : Except Abort (Statics_1 dimRange) :=
  match initialize_guard env PAPERFLUX self st with
  | .error e => .error e
  | .ok st1 =>
    if !self.is_linear_ then reinitialize_jacobians env PAPERFLUX self st1 u_i u_j
    else .ok st1

/-- Lines 314-341 of `evaluate`: the vector `ret` at the end of the body. A
default-constructed `ret` (line 314; `ResultType` is declared outside godunov.hh) is taken to
be the zero vector, to which `axpy` adds. -/
def evaluate_ret (PAPERFLUX : Bool) (self : GodunovNumericalCouplingFlux_1 dimRange)
    (st : Statics_1 dimRange) (u_i u_j : RangeType dimRange) (n_ij : ℚ) :
    RangeType dimRange :=
  let ret : RangeType dimRange := 0
  if PAPERFLUX then
    let f_u_i_plus_f_u_j :=
      if self.is_linear_ then self.analytical_flux_.evaluate (u_i + u_j)
      else self.analytical_flux_.evaluate u_i + self.analytical_flux_.evaluate u_j
    if n_ij > 0 then
      let waves := st.jacobian_abs_function_.evaluate (u_i - u_j)
      ret + (1 / 2 : ℚ) • (f_u_i_plus_f_u_j + waves)
    else
      let waves := st.jacobian_abs_function_.evaluate (u_j - u_i)
      ret + (-(1 / 2) : ℚ) • (f_u_i_plus_f_u_j + waves)
  else
    let f_u_i := self.analytical_flux_.evaluate u_i
    if n_ij > 0 then
      let negative_waves := st.jacobian_neg_function_.evaluate (u_j - u_i)
      f_u_i + negative_waves
    else
      let positive_waves := st.jacobian_pos_function_.evaluate (u_i - u_j)
      positive_waves - f_u_i

/-- Lines 305-341 of `evaluate`, from the two sampled states and the normal component on. -/
def evaluate_flux (env : Env dimRange) (PAPERFLUX : Bool)
    (self : GodunovNumericalCouplingFlux_1 dimRange) (st : Statics_1 dimRange)
    (u_i u_j : RangeType dimRange) (n_ij : ℚ) :
    Except Abort (EndOfBody (Statics_1 dimRange) dimRange) :=
  match evaluate_jacobians env PAPERFLUX self st u_i u_j with
  | .error e => .error e
  | .ok st1 => .ok ⟨evaluate_ret PAPERFLUX self st1 u_i u_j n_ij, st1⟩

/-- Member `evaluate` (lines 293-342). The body ends without a `return` statement. -/
def evaluate (env : Env dimRange) (PAPERFLUX : Bool)
    (self : GodunovNumericalCouplingFlux_1 dimRange) (st : Statics_1 dimRange)
    (local_source_entity local_source_neighbor : P → RangeType dimRange)
    (intersection : Intersection P 1) (x_intersection : P) :
    Except Abort (EndOfBody (Statics_1 dimRange) dimRange) :=
  let u_i := local_source_entity (intersection.geometryInInside_global x_intersection)
  let u_j := local_source_neighbor (intersection.geometryInOutside_global x_intersection)
  let n_ij := intersection.unitOuterNormal x_intersection 0
  evaluate_flux env PAPERFLUX self st u_i u_j n_ij

end GodunovNumericalCouplingFlux_1

/-! ## GodunovNumericalBoundaryFlux< ..., 1 > -/

/-- The non-static members of a `GodunovNumericalBoundaryFlux< ..., 1 >` object. -/
structure GodunovNumericalBoundaryFlux_1 (E P : Type) (dimRange : ℕ) where
  analytical_flux_ : AnalyticalFlux_1 dimRange
  boundary_values_ : E → P → RangeType dimRange
  is_linear_ : Bool

namespace GodunovNumericalBoundaryFlux_1

variable {E P : Type} {dimRange : ℕ}

/-- Member `evaluate` (lines 657-705). Lines 668-704 repeat lines 305-341, with `ret[0]` for
`ret`, on static members of the class's own (lines 775-781); the private members they call
(lines 708-771) repeat lines 345-408. `localPoint` (line 675) is declared nowhere and is an
argument here. The body ends without a `return` statement. -/
def evaluate (env : Env dimRange) (PAPERFLUX : Bool)
    (self : GodunovNumericalBoundaryFlux_1 E P dimRange) (st : Statics_1 dimRange)
    (local_functions_tuple : P → RangeType dimRange)
    (local_source_entity : P → RangeType dimRange)
    (intersection : Intersection P 1) (x_intersection localPoint : P) :
    Except Abort (EndOfBody (Statics_1 dimRange) dimRange) :=
  let x_intersection_entity_coords := intersection.geometryInInside_global x_intersection
  let u_i :=
    local_source_entity (intersection.geometryInInside_global x_intersection_entity_coords)
  let u_j := local_functions_tuple x_intersection_entity_coords
  let n_ij := intersection.unitOuterNormal localPoint 0
  GodunovNumericalCouplingFlux_1.evaluate_flux env PAPERFLUX
    ⟨self.analytical_flux_, self.is_linear_⟩ st u_i u_j n_ij

end GodunovNumericalBoundaryFlux_1

/-! ## Notions used to state the properties -/

/-- A component of the normal that the direction search takes for `1` or `-1`. -/
def is_axis {dimRange : ℕ} (env : Env dimRange) (x : ℚ) : Bool :=
  env.FloatCmp_eq x 1 || env.FloatCmp_eq x (-1)

/-- The comparison recognises each of `0`, `1`, `-1` and does not take `0` for `1` or `-1`. -/
structure FloatCmp_exact {dimRange : ℕ} (env : Env dimRange) : Prop where
  one_one : env.FloatCmp_eq 1 1 = true
  neg_neg : env.FloatCmp_eq (-1) (-1) = true
  zero_zero : env.FloatCmp_eq 0 0 = true
  zero_one : env.FloatCmp_eq 0 1 = false
  zero_neg : env.FloatCmp_eq 0 (-1) = false

/-- The value `coord` has after the direction search over the indices `l`, started from
`c0`, when no component aborts the search: the last index taken for `1` or `-1`. -/
def last_axis {dimDomain dimRange : ℕ} (env : Env dimRange) (n_ij : Fin dimDomain → ℚ) :
    List (Fin dimDomain) → Fin dimDomain → Fin dimDomain
  | [], c0 => c0
  | ii :: rest, c0 => last_axis env n_ij rest (if is_axis env (n_ij ii) then ii else c0)

/-- Diagonal matrix of the negative eigenvalues: `D_neg[j,j] = λ_j` if `λ_j < 0`, else `0`,
with `λ_j` the real part the splitter reads. -/
def D_neg {dimRange : ℕ} (eigenvalues : Fin dimRange → Cplx) : RMatrix dimRange :=
  Matrix.diagonal fun j => if (eigenvalues j).re < 0 then (eigenvalues j).re else 0

/-- Diagonal matrix of the other eigenvalues: `D_pos[j,j] = λ_j` if `λ_j ≥ 0`, else `0`. -/
def D_pos {dimRange : ℕ} (eigenvalues : Fin dimRange → Cplx) : RMatrix dimRange :=
  Matrix.diagonal fun j => if 0 ≤ (eigenvalues j).re then (eigenvalues j).re else 0

/-- Negative part of the split of one matrix: `Re(V) · D_neg · Re(V⁻¹)`. -/
def split_neg {dimRange : ℕ} (env : Env dimRange) (J : RMatrix dimRange) : RMatrix dimRange :=
  real (env.eigen_solver J).eigenvectors * D_neg (env.eigen_solver J).eigenvalues
    * real (env.inverse (env.eigen_solver J).eigenvectors)

/-- Positive part of the split of one matrix: `Re(V) · D_pos · Re(V⁻¹)`. -/
def split_pos {dimRange : ℕ} (env : Env dimRange) (J : RMatrix dimRange) : RMatrix dimRange :=
  real (env.eigen_solver J).eigenvectors * D_pos (env.eigen_solver J).eigenvalues
    * real (env.inverse (env.eigen_solver J).eigenvectors)

/-- The two conditions `calculate_jacobians` asserts for one matrix: the solver reports
success and every eigenvalue has an imaginary part below `1e-15` in absolute value. -/
def solver_accepts {dimRange : ℕ} (env : Env dimRange) (J : RMatrix dimRange) : Prop :=
  (env.eigen_solver J).info = ComputationInfo.Success ∧
    ∀ jj, |((env.eigen_solver J).eigenvalues jj).im| < 1 / 10 ^ 15

instance {dimRange : ℕ} (env : Env dimRange) (J : RMatrix dimRange) :
    Decidable (solver_accepts env J) := by
  unfold solver_accepts
  infer_instance


/-- The arguments of one call of `evaluate` of an interior evaluator. -/
structure EvaluateArgs (P : Type) (dimDomain dimRange : ℕ) where
  local_source_entity : P → RangeType dimRange
  local_source_neighbor : P → RangeType dimRange
  intersection : Intersection P dimDomain
  x_intersection : P

/-- Calls made one after the other, each on the static members the previous one left. The
result lists what the calls computed, in call order. -/
def call_sequence {S A R : Type} (call : S → A → Except Abort (R × S)) :
    List A → S → Except Abort (List R × S)
  | [], st => .ok ([], st)
  | a :: rest, st =>
    match call st a with
    | .error e => .error e
    | .ok (r, st1) =>
      match call_sequence call rest st1 with
      | .error e => .error e
      | .ok (rs, st2) => .ok (r :: rs, st2)

/-- A sequence of `evaluate` calls on one evaluator of general `dimDomain`. -/
def GodunovNumericalCouplingFlux.evaluate_calls {P : Type} {dimDomain dimRange : ℕ}
    [NeZero dimDomain] (env : Env dimRange)
    (self : GodunovNumericalCouplingFlux dimDomain dimRange) :
    List (EvaluateArgs P dimDomain dimRange) → Statics dimDomain dimRange →
      Except Abort (List (RangeType dimRange) × Statics dimDomain dimRange) :=
  call_sequence fun st a =>
    GodunovNumericalCouplingFlux.evaluate env self st a.local_source_entity
      a.local_source_neighbor a.intersection a.x_intersection

/-- A sequence of `evaluate` calls on one evaluator for `dimDomain = 1`; the list holds the
vectors `ret` the calls computed. -/
def GodunovNumericalCouplingFlux_1.evaluate_calls {P : Type} {dimRange : ℕ}
    (env : Env dimRange) (PAPERFLUX : Bool) (self : GodunovNumericalCouplingFlux_1 dimRange) :
    List (EvaluateArgs P 1 dimRange) → Statics_1 dimRange →
      Except Abort (List (RangeType dimRange) × Statics_1 dimRange) :=
  call_sequence fun st a =>
    match GodunovNumericalCouplingFlux_1.evaluate env PAPERFLUX self st a.local_source_entity
      a.local_source_neighbor a.intersection a.x_intersection with
    | .error e => .error e
    | .ok r => .ok (r.ret, r.statics)

/-- The analytical flux of a one-dimensional problem in the form the evaluator of general
`dimDomain` reads, with `dimDomain = 1`: `f(u)[kk][0]` and one Jacobian for axis 0. -/
def AnalyticalFlux_1.general {dimRange : ℕ} (F : AnalyticalFlux_1 dimRange) :
    AnalyticalFlux 1 dimRange :=
  ⟨fun u => Matrix.of fun kk _ => F.evaluate u kk, fun u _ => F.jacobian u⟩

/-- The cache of the general evaluator (with `dimDomain = 1`) and the cache of the
specialisation hold the same split: the two functions the specialisation applies are the
products with `jacobian_neg_[0]` and `jacobian_pos_[0]`. -/
def same_split {dimRange : ℕ} (st : Statics 1 dimRange) (st_1 : Statics_1 dimRange) : Prop :=
  st_1.jacobian_neg_function_ = ⟨st.jacobian_neg_ 0, 0⟩ ∧
    st_1.jacobian_pos_function_ = ⟨st.jacobian_pos_ 0, 0⟩

/-! ## Storage duration of the static data members -/

/-- The objects behind the static data members of the four classes, in a program whose
threads are the elements of `T`. The classes for general `dimDomain` declare their members
`static` (lines 240-242, 601-603): one object per class, whichever thread names it. The
specialisations for `dimDomain = 1` declare theirs `thread_local static` (lines 411-417,
775-781): one object per class and thread. -/
structure Storage (T : Type) (dimDomain dimRange : ℕ) where
  coupling : Statics dimDomain dimRange
  boundary : Statics dimDomain dimRange
  coupling_1 : T → Statics_1 dimRange
  boundary_1 : T → Statics_1 dimRange

/-- A call of `GodunovNumericalCouplingFlux::evaluate` made by the thread `t`. -/
def GodunovNumericalCouplingFlux.evaluate_on_thread {T P : Type} {dimDomain dimRange : ℕ}
    [NeZero dimDomain] (env : Env dimRange)
    (self : GodunovNumericalCouplingFlux dimDomain dimRange)
    (s : Storage T dimDomain dimRange) (_t : T) (a : EvaluateArgs P dimDomain dimRange) :
    Except Abort (RangeType dimRange × Storage T dimDomain dimRange) :=
  match GodunovNumericalCouplingFlux.evaluate env self s.coupling a.local_source_entity
      a.local_source_neighbor a.intersection a.x_intersection with
  | .error e => .error e
  | .ok (ret, st1) => .ok (ret, ⟨st1, s.boundary, s.coupling_1, s.boundary_1⟩)

/-- A call of `GodunovNumericalBoundaryFlux::evaluate` made by the thread `t`. -/
def GodunovNumericalBoundaryFlux.evaluate_on_thread {T E P : Type} {dimDomain dimRange : ℕ}
    [NeZero dimDomain] (env : Env dimRange)
    (self : GodunovNumericalBoundaryFlux E P dimDomain dimRange)
    (s : Storage T dimDomain dimRange) (_t : T)
    (local_functions_tuple local_source_entity : P → RangeType dimRange)
    (intersection : Intersection P dimDomain) (x_intersection localPoint : P) :
    Except Abort (RangeType dimRange × Storage T dimDomain dimRange) :=
  match GodunovNumericalBoundaryFlux.evaluate env self s.boundary local_functions_tuple
      local_source_entity intersection x_intersection localPoint with
  | .error e => .error e
  | .ok (ret, st1) => .ok (ret, ⟨s.coupling, st1, s.coupling_1, s.boundary_1⟩)

/-- A call of `GodunovNumericalCouplingFlux< ..., 1 >::evaluate` made by the thread `t`; the
first component is the vector `ret` the call computed. -/
def GodunovNumericalCouplingFlux_1.evaluate_on_thread {T P : Type} {dimDomain dimRange : ℕ}
    [DecidableEq T] (env : Env dimRange) (PAPERFLUX : Bool)
    (self : GodunovNumericalCouplingFlux_1 dimRange)
    (s : Storage T dimDomain dimRange) (t : T) (a : EvaluateArgs P 1 dimRange) :
    Except Abort (RangeType dimRange × Storage T dimDomain dimRange) :=
  match GodunovNumericalCouplingFlux_1.evaluate env PAPERFLUX self (s.coupling_1 t)
      a.local_source_entity a.local_source_neighbor a.intersection a.x_intersection with
  | .error e => .error e
  | .ok r =>
    .ok (r.ret, ⟨s.coupling, s.boundary, Function.update s.coupling_1 t r.statics,
      s.boundary_1⟩)

/-- A call of `GodunovNumericalBoundaryFlux< ..., 1 >::evaluate` made by the thread `t`; the
first component is the vector `ret` the call computed. -/
def GodunovNumericalBoundaryFlux_1.evaluate_on_thread {T E P : Type} {dimDomain dimRange : ℕ}
    [DecidableEq T] (env : Env dimRange) (PAPERFLUX : Bool)
    (self : GodunovNumericalBoundaryFlux_1 E P dimRange)
    (s : Storage T dimDomain dimRange) (t : T)
    (local_functions_tuple local_source_entity : P → RangeType dimRange)
    (intersection : Intersection P 1) (x_intersection localPoint : P) :
    Except Abort (RangeType dimRange × Storage T dimDomain dimRange) :=
  match GodunovNumericalBoundaryFlux_1.evaluate env PAPERFLUX self (s.boundary_1 t)
      local_functions_tuple local_source_entity intersection x_intersection localPoint with
  | .error e => .error e
  | .ok r =>
    .ok (r.ret, ⟨s.coupling, s.boundary, s.coupling_1,
      Function.update s.boundary_1 t r.statics⟩)

/-! ## Programs: sequences of constructor and `evaluate` calls -/

/-- One call of a program that uses the evaluators of one instantiation of
`GodunovNumericalCouplingFlux`: the construction of an evaluator, or `evaluate` on the
`k`-th evaluator constructed so far. -/
inductive Call (P : Type) (dimDomain dimRange : ℕ) where
  | construct (analytical_flux : AnalyticalFlux dimDomain dimRange) (is_linear : Bool)
  | evaluate (k : ℕ) (a : EvaluateArgs P dimDomain dimRange)

/-- The static members of the class and the evaluators constructed so far. -/
structure ProgramState (dimDomain dimRange : ℕ) where
  statics : Statics dimDomain dimRange
  objects : List (GodunovNumericalCouplingFlux dimDomain dimRange)

/-- The effect of one call on the state of the program. A call of `evaluate` that names no
constructed evaluator is not a call the program can make and changes nothing. -/
def run_call {P : Type} {dimDomain dimRange : ℕ} [NeZero dimDomain] (env : Env dimRange)
    (s : ProgramState dimDomain dimRange) :
    Call P dimDomain dimRange → Except Abort (ProgramState dimDomain dimRange)
  | .construct analytical_flux is_linear =>
    match GodunovNumericalCouplingFlux.construct env analytical_flux is_linear s.statics with
    | .error e => .error e
    | .ok (self, st1) => .ok ⟨st1, s.objects ++ [self]⟩
  | .evaluate k a =>
    match s.objects.get? k with
    | none => .ok s
    | some self =>
      match GodunovNumericalCouplingFlux.evaluate env self s.statics a.local_source_entity
          a.local_source_neighbor a.intersection a.x_intersection with
      | .error e => .error e
      | .ok r => .ok ⟨r.2, s.objects⟩

/-- A program run from the start: the static members have their initial values and no
evaluator exists. -/
def run_calls {P : Type} {dimDomain dimRange : ℕ} [NeZero dimDomain] (env : Env dimRange)
    (calls : List (Call P dimDomain dimRange)) :
    Except Abort (ProgramState dimDomain dimRange) :=
  for_loop (run_call env) calls ⟨Statics.initial dimDomain dimRange, []⟩

/-- One call made by a thread of a program that uses the evaluators of one instantiation of
`GodunovNumericalCouplingFlux< ..., 1 >`: the construction of an evaluator, or `evaluate` on
an evaluator, which this thread or another one constructed. -/
inductive Call_1 (P : Type) (dimRange : ℕ) where
  | construct (analytical_flux : AnalyticalFlux_1 dimRange) (is_linear : Bool)
  | evaluate (self : GodunovNumericalCouplingFlux_1 dimRange) (a : EvaluateArgs P 1 dimRange)

/-- The effect of one call on the static members of the calling thread. -/
def run_call_1 {P : Type} {dimRange : ℕ} (env : Env dimRange) (PAPERFLUX : Bool)
    (st : Statics_1 dimRange) : Call_1 P dimRange → Except Abort (Statics_1 dimRange)
  | .construct analytical_flux is_linear =>
    match GodunovNumericalCouplingFlux_1.construct env PAPERFLUX analytical_flux is_linear
        st with
    | .error e => .error e
    | .ok r => .ok r.2
  | .evaluate self a =>
    match GodunovNumericalCouplingFlux_1.evaluate env PAPERFLUX self st a.local_source_entity
        a.local_source_neighbor a.intersection a.x_intersection with
    | .error e => .error e
    | .ok r => .ok r.statics

/-- The calls of one thread from its start, when its static members have their initial
values. -/
def run_calls_1 {P : Type} {dimRange : ℕ} (env : Env dimRange) (PAPERFLUX : Bool)
    (calls : List (Call_1 P dimRange)) : Except Abort (Statics_1 dimRange) :=
  for_loop (run_call_1 env PAPERFLUX) calls (Statics_1.initial dimRange)

/-- The cache holds a split that `calculate_jacobians` stored: at least one solver was
constructed, and the matrices are the split of some list of Jacobians. -/
def populated {dimDomain dimRange : ℕ} (env : Env dimRange)
    (st : Statics dimDomain dimRange) : Prop :=
  0 < st.eigen_solver_calls ∧
    ∃ J : Fin dimDomain → RMatrix dimRange,
      st.jacobian_neg_ = (fun ii => split_neg env (J ii)) ∧
        st.jacobian_pos_ = fun ii => split_pos env (J ii)

/-- The cache of the specialisation holds a split that `calculate_jacobians` stored: at
least one solver was constructed, the matrices are the split of some Jacobian, and the
functions the build applies are the products with them. -/
def populated_1 {dimRange : ℕ} (env : Env dimRange) (PAPERFLUX : Bool)
    (st : Statics_1 dimRange) : Prop :=
  0 < st.eigen_solver_calls ∧
    (∃ J : RMatrix dimRange,
      st.jacobian_neg_ = split_neg env J ∧ st.jacobian_pos_ = split_pos env J) ∧
    (PAPERFLUX = true →
      st.jacobian_abs_function_ = ⟨st.jacobian_pos_ - st.jacobian_neg_, 0⟩) ∧
    (PAPERFLUX = false → st.jacobian_neg_function_ = ⟨st.jacobian_neg_, 0⟩ ∧
      st.jacobian_pos_function_ = ⟨st.jacobian_pos_, 0⟩)

/-! ## Sample data -/

/-- `DSC::FloatCmp::eq` in its numpy style, `|x - y| ≤ atol + |y| · rtol`. -/
def FloatCmp_numpy (rtol atol x y : ℚ) : Bool :=
  decide (|x - y| ≤ atol + |y| * rtol)

/-- An eigen-solver that is exact on diagonal matrices: the eigenvalues are the diagonal
entries, the eigenvectors the unit vectors. -/
def diagonal_eigen_solver {n : ℕ} (J : RMatrix n) : EigenSolver n :=
  ⟨ComputationInfo.Success, fun j => Cplx.ofReal (J j j), 1⟩

/-- Exact inverse of a complex matrix through its adjugate. -/
def adjugate_inverse {n : ℕ} (M : CMatrix n) : CMatrix n :=
  (M.det)⁻¹ • M.adjugate

/-- Environment for scalar problems (`dimRange = 1`), where every matrix is diagonal. -/
def sample_env (NDEBUG : Bool) : Env 1 :=
  ⟨NDEBUG, FloatCmp_numpy (1 / 10 ^ 8) (1 / 10 ^ 8), diagonal_eigen_solver, adjugate_inverse⟩

/-- Scalar flux on a two-dimensional domain: `u³` along axis 0 and `2·u` along axis 1. -/
def sample_flux : AnalyticalFlux 2 1 :=
  ⟨fun u => Matrix.of fun _ coord => if coord = 0 then u 0 ^ 3 else 2 * u 0,
   fun u coord => Matrix.of fun _ _ => if coord = 0 then 3 * u 0 ^ 2 else 2⟩

/-- Local function with the constant value `u`. -/
def sample_source (u : ℚ) : Unit → RangeType 1 :=
  fun _ _ => u

/-- Intersection with unit outer normal `(n0, n1)` and volume `vol`. -/
def sample_intersection (n0 n1 vol : ℚ) : Intersection Unit 2 :=
  ⟨id, id, fun _ => ![n0, n1], vol⟩

/-- The static members after `reinitialize_jacobians` at the states `u_i`, `u_j`, started
from the initial values, in the sample environment. -/
def sample_statics (NDEBUG : Bool) (u_i u_j : ℚ) : Statics 2 1 :=
  ⟨fun ii => split_neg (sample_env NDEBUG)
      (sample_flux.jacobian (fun _ => (u_i + u_j) * (1 / 2)) ii),
   fun ii => split_pos (sample_env NDEBUG)
      (sample_flux.jacobian (fun _ => (u_i + u_j) * (1 / 2)) ii),
   false, [fun _ => (u_i + u_j) * (1 / 2)], 2⟩

/-- A normal with a component that is taken for none of `1`, `-1`, `0`. -/
def oblique {dimDomain dimRange : ℕ} (env : Env dimRange) (n_ij : Fin dimDomain → ℚ) : Prop :=
  ∃ ii, env.FloatCmp_eq (n_ij ii) 1 = false ∧ env.FloatCmp_eq (n_ij ii) (-1) = false ∧
    env.FloatCmp_eq (n_ij ii) 0 = false

/-- Boundary flux object of the sample: boundary value `1` on every entity, nonlinear mode. -/
def sample_boundary_flux : GodunovNumericalBoundaryFlux Unit Unit 2 1 :=
  ⟨sample_flux, fun _ => sample_source 1, false⟩

/-- Scalar environment whose solver reports the status `info` and gives the eigenvalue an
imaginary part `im`. -/
def faulty_env (NDEBUG : Bool) (info : ComputationInfo) (im : ℚ) : Env 1 :=
  ⟨NDEBUG, FloatCmp_numpy (1 / 10 ^ 8) (1 / 10 ^ 8),
   fun J => ⟨info, fun j => ⟨J j j, im⟩, 1⟩, adjugate_inverse⟩

/-- A second scalar flux on a two-dimensional domain: `-u` along axis 0 and `5·u` along
axis 1. -/
def sample_flux_b : AnalyticalFlux 2 1 :=
  ⟨fun u => Matrix.of fun _ coord => if coord = 0 then -u 0 else 5 * u 0,
   fun _ coord => Matrix.of fun _ _ => if coord = 0 then -1 else 5⟩

/-- The static members after the construction of a linear evaluator for `sample_flux`,
started from the initial values, in the sample environment. -/
def sample_statics_linear (NDEBUG : Bool) : Statics 2 1 :=
  ⟨fun ii => split_neg (sample_env NDEBUG) (sample_flux.jacobian (fun _ => 0) ii),
   fun ii => split_pos (sample_env NDEBUG) (sample_flux.jacobian (fun _ => 0) ii),
   true, [fun _ => 0], 2⟩

/-- Scalar advection flux for `dimDomain = 1`: `f(u) = a·u`, with Jacobian `a`. -/
def advection_flux (a : ℚ) : AnalyticalFlux_1 1 :=
  ⟨fun u => a • u, fun _ => Matrix.of fun _ _ => a⟩

/-- Intersection of a one-dimensional grid with normal component `n` and volume `vol`. -/
def sample_intersection_1 (n vol : ℚ) : Intersection Unit 1 :=
  ⟨id, id, fun _ _ => n, vol⟩

/-- Arguments of a call on the two-dimensional sample: states `u_i`, `u_j`, normal
`(n0, n1)`, volume `1`. -/
def sample_args (u_i u_j n0 n1 : ℚ) : EvaluateArgs Unit 2 1 :=
  ⟨sample_source u_i, sample_source u_j, sample_intersection n0 n1 1, ()⟩

/-- Arguments of a call on the one-dimensional sample: states `u_i`, `u_j`, normal `n`. -/
def sample_args_1 (u_i u_j n : ℚ) : EvaluateArgs Unit 1 1 :=
  ⟨sample_source u_i, sample_source u_j, sample_intersection_1 n 1, ()⟩

/-- The static members after the construction of a linear evaluator for the advection
flux with speed `a`, started from the initial values, in the sample environment with
`PAPERFLUX` not set. -/
def sample_statics_1 (a : ℚ) : Statics_1 1 :=
  ⟨Matrix.of fun _ _ => if a < 0 then a else 0, Matrix.of fun _ _ => if 0 ≤ a then a else 0,
   Matrix.of fun _ _ => |a|,
   ⟨Matrix.of fun _ _ => if a < 0 then a else 0, 0⟩,
   ⟨Matrix.of fun _ _ => if 0 ≤ a then a else 0, 0⟩, ⟨0, 0⟩, true, [fun _ => 0], 1⟩

/-- Intersection whose points are rationals: the map into the inside entity moves a point
by one; normal `(1, 0)`, volume `1`. -/
def shifted_intersection : Intersection ℚ 2 :=
  ⟨fun p => p + 1, id, fun _ => ![1, 0], 1⟩

/-- Local function whose value at a point is the coordinate of the point. -/
def coordinate_source : ℚ → RangeType 1 :=
  fun p _ => p

/-- Boundary flux object over rational points: flux `sample_flux`, boundary value `1`,
nonlinear mode. -/
def sample_boundary_flux_q : GodunovNumericalBoundaryFlux Unit ℚ 2 1 :=
  ⟨sample_flux, fun _ _ _ => 1, false⟩

/-- Boundary flux object of the sample with boundary value `0` on every entity. -/
def sample_boundary (is_linear : Bool) : GodunovNumericalBoundaryFlux Unit Unit 2 1 :=
  ⟨sample_flux, fun _ => sample_source 0, is_linear⟩

/-- Storage of a program with two threads, `false` and `true`: the static members of the
two classes for general `dimDomain` hold the split of `sample_flux` at the zero state, with
the flag set; those of the specialisations hold their initial values on both threads. -/
def sample_storage : Storage Bool 2 1 :=
  ⟨sample_statics_linear false, sample_statics_linear false, fun _ => Statics_1.initial 1,
   fun _ => Statics_1.initial 1⟩

/-- Environment for problems with `n` components whose Jacobians are diagonal matrices. -/
def sample_env_n (n : ℕ) (NDEBUG : Bool) : Env n :=
  ⟨NDEBUG, FloatCmp_numpy (1 / 10 ^ 8) (1 / 10 ^ 8), diagonal_eigen_solver, adjugate_inverse⟩

/-- An eigen-solver that is exact on diagonal `2 × 2` matrices and returns the eigenpairs
in the other order, with eigenvectors of lengths `2` and `3`. -/
def swapped_eigen_solver (J : RMatrix 2) : EigenSolver 2 :=
  ⟨ComputationInfo.Success,
   fun j => Cplx.ofReal (J (Equiv.swap 0 1 j) (Equiv.swap 0 1 j)),
   Matrix.of fun i j => (1 : CMatrix 2) i (Equiv.swap 0 1 j) * Cplx.ofReal (![2, 3] j)⟩

/-- The sample environment for two components with `swapped_eigen_solver` for solver. -/
def sample_env_swapped : Env 2 :=
  ⟨false, FloatCmp_numpy (1 / 10 ^ 8) (1 / 10 ^ 8), swapped_eigen_solver, adjugate_inverse⟩

/-! # Properties -/

/-! ## Complex numbers -/

namespace Cplx

@[simp] theorem zero_re : (0 : Cplx).re = 0 := rfl
@[simp] theorem zero_im : (0 : Cplx).im = 0 := rfl
@[simp] theorem one_re : (1 : Cplx).re = 1 := rfl
@[simp] theorem one_im : (1 : Cplx).im = 0 := rfl
@[simp] theorem add_re (a b : Cplx) : (a + b).re = a.re + b.re := rfl
@[simp] theorem add_im (a b : Cplx) : (a + b).im = a.im + b.im := rfl
@[simp] theorem neg_re (a : Cplx) : (-a).re = -a.re := rfl
@[simp] theorem neg_im (a : Cplx) : (-a).im = -a.im := rfl
@[simp] theorem mul_re (a b : Cplx) : (a * b).re = a.re * b.re - a.im * b.im := rfl
@[simp] theorem mul_im (a b : Cplx) : (a * b).im = a.re * b.im + a.im * b.re := rfl
@[simp] theorem ofReal_re (x : ℚ) : (ofReal x).re = x := rfl
@[simp] theorem ofReal_im (x : ℚ) : (ofReal x).im = 0 := rfl

end Cplx

/-! ## The direction search -/

theorem for_loop_direction {dimDomain dimRange : ℕ} (env : Env dimRange)
    (n_ij : Fin dimDomain → ℚ) (l : List (Fin dimDomain))
    (hl : ∀ ii ∈ l, is_axis env (n_ij ii) = true ∨ env.FloatCmp_eq (n_ij ii) 0 = true)
    (c0 : Fin dimDomain) (z0 : ℕ) :
    for_loop (GodunovNumericalCouplingFlux.evaluate_direction_ii env n_ij) l (c0, z0) =
      .ok (last_axis env n_ij l c0,
        if env.NDEBUG then z0
        else z0 + l.countP (fun ii => !is_axis env (n_ij ii))) := by
  induction l generalizing c0 z0 with
  | nil => simp [for_loop, last_axis]
  | cons ii rest ih =>
    have hrest : ∀ jj ∈ rest,
        is_axis env (n_ij jj) = true ∨ env.FloatCmp_eq (n_ij jj) 0 = true :=
      fun jj hjj => hl jj (List.mem_cons_of_mem _ hjj)
    by_cases hax : is_axis env (n_ij ii) = true
    · have hstep : GodunovNumericalCouplingFlux.evaluate_direction_ii env n_ij (c0, z0) ii
          = .ok (ii, z0) := by
        unfold is_axis at hax
        simp [GodunovNumericalCouplingFlux.evaluate_direction_ii, hax]
      simp only [for_loop, hstep, last_axis, hax, if_true]
      rw [ih hrest]
      simp [List.countP_cons, hax]
    · have hz : env.FloatCmp_eq (n_ij ii) 0 = true := by
        rcases hl ii (List.mem_cons_self _ _) with h | h
        · exact absurd h hax
        · exact h
      have hstep : GodunovNumericalCouplingFlux.evaluate_direction_ii env n_ij (c0, z0) ii
          = .ok (c0, if env.NDEBUG then z0 else z0 + 1) := by
        unfold is_axis at hax
        simp only [GodunovNumericalCouplingFlux.evaluate_direction_ii]
        rw [if_neg hax, if_pos hz]
      simp only [for_loop, hstep, last_axis, hax]
      rw [ih hrest]
      cases hN : env.NDEBUG <;> simp [List.countP_cons, hax]
      omega

/-! ## The splitter -/

theorem calculate_jacobians_jj_ok {dimRange : ℕ} (env : Env dimRange)
    (eigenvalues : Fin dimRange → Cplx) (diag : DiagTmp dimRange) (jj : Fin dimRange)
    (h : env.NDEBUG = true ∨ |(eigenvalues jj).im| < 1 / 10 ^ 15) :
    calculate_jacobians_jj env eigenvalues diag jj =
      if (eigenvalues jj).re < 0 then
        .ok ⟨diag.diag_jacobian_pos_tmp,
          set_entry diag.diag_jacobian_neg_tmp jj jj (eigenvalues jj).re⟩
      else
        .ok ⟨set_entry diag.diag_jacobian_pos_tmp jj jj (eigenvalues jj).re,
          diag.diag_jacobian_neg_tmp⟩ := by
  have hc : (!env.NDEBUG && !decide (|(eigenvalues jj).im| < 1 / 10 ^ 15)) = false := by
    rcases h with h | h
    · rw [h]; rfl
    · rw [decide_eq_true h]; simp
  unfold calculate_jacobians_jj
  simp only [hc, Bool.false_eq_true, if_false]

theorem calculate_jacobians_jj_fail {dimRange : ℕ} (env : Env dimRange)
    (eigenvalues : Fin dimRange → Cplx) (diag : DiagTmp dimRange) (jj : Fin dimRange)
    (hN : env.NDEBUG = false) (h : ¬ |(eigenvalues jj).im| < 1 / 10 ^ 15) :
    calculate_jacobians_jj env eigenvalues diag jj = .error .AssertionFailed := by
  have hc : (!env.NDEBUG && !decide (|(eigenvalues jj).im| < 1 / 10 ^ 15)) = true := by
    rw [hN, decide_eq_false h]; rfl
  unfold calculate_jacobians_jj
  simp only [hc, if_true]

theorem for_loop_jj_ok {dimRange : ℕ} (env : Env dimRange)
    (eigenvalues : Fin dimRange → Cplx) (l : List (Fin dimRange))
    (h : env.NDEBUG = true ∨ ∀ jj ∈ l, |(eigenvalues jj).im| < 1 / 10 ^ 15)
    (diag : DiagTmp dimRange) :
    for_loop (calculate_jacobians_jj env eigenvalues) l diag =
      .ok ⟨Matrix.of fun i j =>
            if i = j ∧ i ∈ l ∧ ¬ (eigenvalues i).re < 0 then (eigenvalues i).re
            else diag.diag_jacobian_pos_tmp i j,
          Matrix.of fun i j =>
            if i = j ∧ i ∈ l ∧ (eigenvalues i).re < 0 then (eigenvalues i).re
            else diag.diag_jacobian_neg_tmp i j⟩ := by
  induction l generalizing diag with
  | nil =>
    simp [for_loop]
    rfl
  | cons jj rest ih =>
    have hjj : env.NDEBUG = true ∨ |(eigenvalues jj).im| < 1 / 10 ^ 15 :=
      h.imp id fun h => h jj (List.mem_cons_self _ _)
    have hrest : env.NDEBUG = true ∨ ∀ kk ∈ rest, |(eigenvalues kk).im| < 1 / 10 ^ 15 :=
      h.imp id fun h kk hkk => h kk (List.mem_cons_of_mem _ hkk)
    simp only [for_loop]
    rw [calculate_jacobians_jj_ok env eigenvalues diag jj hjj]
    by_cases hneg : (eigenvalues jj).re < 0
    · rw [if_pos hneg]
      simp only []
      rw [ih hrest]
      congr 2
      · ext i j
        simp only [Matrix.of_apply, List.mem_cons]
        by_cases hi : i = jj
        · subst hi
          by_cases hr : i = j ∧ i ∈ rest ∧ ¬ (eigenvalues i).re < 0
          · exact absurd hneg hr.2.2
          · rw [if_neg hr, if_neg]
            rintro ⟨-, -, h3⟩
            exact h3 hneg
        · simp [hi]
      · ext i j
        simp only [Matrix.of_apply, List.mem_cons, set_entry]
        by_cases hi : i = jj
        · subst hi
          by_cases hij : i = j
          · subst hij
            simp [hneg]
          · have hji : ¬ j = i := fun h => hij h.symm
            simp [hij, hji]
        · simp [hi]
    · rw [if_neg hneg]
      simp only []
      rw [ih hrest]
      congr 2
      · ext i j
        simp only [Matrix.of_apply, List.mem_cons, set_entry]
        by_cases hi : i = jj
        · subst hi
          by_cases hij : i = j
          · subst hij
            simp [hneg]
          · have hji : ¬ j = i := fun h => hij h.symm
            simp [hij, hji]
        · simp [hi]
      · ext i j
        simp only [Matrix.of_apply, List.mem_cons]
        by_cases hi : i = jj
        · subst hi
          by_cases hr : i = j ∧ i ∈ rest ∧ (eigenvalues i).re < 0
          · exact absurd hr.2.2 hneg
          · rw [if_neg hr, if_neg]
            rintro ⟨-, -, h3⟩
            exact hneg h3
        · simp [hi]

theorem for_loop_jj_fail {dimRange : ℕ} (env : Env dimRange)
    (eigenvalues : Fin dimRange → Cplx) (l : List (Fin dimRange))
    (hN : env.NDEBUG = false) (h : ∃ jj ∈ l, ¬ |(eigenvalues jj).im| < 1 / 10 ^ 15)
    (diag : DiagTmp dimRange) :
    for_loop (calculate_jacobians_jj env eigenvalues) l diag = .error .AssertionFailed := by
  induction l generalizing diag with
  | nil =>
    obtain ⟨jj, hjj, -⟩ := h
    exact absurd hjj (List.not_mem_nil _)
  | cons jj rest ih =>
    simp only [for_loop]
    by_cases hjj : |(eigenvalues jj).im| < 1 / 10 ^ 15
    · have hrest : ∃ kk ∈ rest, ¬ |(eigenvalues kk).im| < 1 / 10 ^ 15 := by
        obtain ⟨kk, hkk, hbad⟩ := h
        rcases List.mem_cons.1 hkk with rfl | hkk
        · exact absurd hjj hbad
        · exact ⟨kk, hkk, hbad⟩
      rw [calculate_jacobians_jj_ok env eigenvalues diag jj (Or.inr hjj)]
      by_cases hneg : (eigenvalues jj).re < 0
      · rw [if_pos hneg]
        exact ih hrest _
      · rw [if_neg hneg]
        exact ih hrest _
    · rw [calculate_jacobians_jj_fail env eigenvalues diag jj hN hjj]

theorem for_loop_jj_finRange {dimRange : ℕ} (env : Env dimRange)
    (eigenvalues : Fin dimRange → Cplx)
    (h : env.NDEBUG = true ∨ ∀ jj, |(eigenvalues jj).im| < 1 / 10 ^ 15)
    (X Y : RMatrix dimRange) :
    for_loop (calculate_jacobians_jj env eigenvalues) (List.finRange dimRange)
        ⟨(0 : ℚ) • X, (0 : ℚ) • Y⟩ =
      .ok ⟨D_pos eigenvalues, D_neg eigenvalues⟩ := by
  rw [for_loop_jj_ok env eigenvalues _ (h.imp id fun h jj _ => h jj)]
  congr 2
  · ext i j
    simp only [Matrix.of_apply, List.mem_finRange, true_and, D_pos, Matrix.diagonal_apply,
      zero_smul, Matrix.zero_apply, not_lt]
    by_cases hij : i = j
    · subst hij
      simp
    · simp [hij]
  · ext i j
    simp only [Matrix.of_apply, List.mem_finRange, true_and, D_neg, Matrix.diagonal_apply,
      zero_smul, Matrix.zero_apply]
    by_cases hij : i = j
    · subst hij
      simp
    · simp [hij]

theorem calculate_jacobians_ii_ok {dimDomain dimRange : ℕ} (env : Env dimRange)
    (jacobian : Fin dimDomain → RMatrix dimRange)
    (st : DiagTmp dimRange × Statics dimDomain dimRange) (ii : Fin dimDomain)
    (h : env.NDEBUG = true ∨ solver_accepts env (jacobian ii)) :
    calculate_jacobians_ii env jacobian st ii =
      .ok (⟨D_pos (env.eigen_solver (jacobian ii)).eigenvalues,
            D_neg (env.eigen_solver (jacobian ii)).eigenvalues⟩,
        ⟨Function.update st.2.jacobian_neg_ ii (split_neg env (jacobian ii)),
         Function.update st.2.jacobian_pos_ ii (split_pos env (jacobian ii)),
         st.2.jacobians_constructed_, st.2.jacobian_calls, st.2.eigen_solver_calls + 1⟩) := by
  have hc : (!env.NDEBUG &&
      !decide ((env.eigen_solver (jacobian ii)).info = ComputationInfo.Success)) = false := by
    rcases h with h | h
    · rw [h]; rfl
    · rw [decide_eq_true h.1]; simp
  have hev : env.NDEBUG = true ∨
      ∀ jj, |((env.eigen_solver (jacobian ii)).eigenvalues jj).im| < 1 / 10 ^ 15 :=
    h.imp id fun h => h.2
  unfold calculate_jacobians_ii
  simp only [hc, Bool.false_eq_true, if_false]
  rw [for_loop_jj_finRange env _ hev]
  rfl

theorem calculate_jacobians_ii_fail {dimDomain dimRange : ℕ} (env : Env dimRange)
    (jacobian : Fin dimDomain → RMatrix dimRange)
    (st : DiagTmp dimRange × Statics dimDomain dimRange) (ii : Fin dimDomain)
    (hN : env.NDEBUG = false) (h : ¬ solver_accepts env (jacobian ii)) :
    calculate_jacobians_ii env jacobian st ii = .error .AssertionFailed := by
  unfold calculate_jacobians_ii
  by_cases hinfo : (env.eigen_solver (jacobian ii)).info = ComputationInfo.Success
  · have hc : (!env.NDEBUG &&
        !decide ((env.eigen_solver (jacobian ii)).info = ComputationInfo.Success)) = false := by
      rw [decide_eq_true hinfo]; simp
    have hbad : ∃ jj ∈ List.finRange dimRange,
        ¬ |((env.eigen_solver (jacobian ii)).eigenvalues jj).im| < 1 / 10 ^ 15 := by
      by_contra hcon
      push_neg at hcon
      exact h ⟨hinfo, fun jj => hcon jj (List.mem_finRange jj)⟩
    simp only [hc, Bool.false_eq_true, if_false]
    rw [for_loop_jj_fail env _ _ hN hbad]
  · have hc : (!env.NDEBUG &&
        !decide ((env.eigen_solver (jacobian ii)).info = ComputationInfo.Success)) = true := by
      rw [hN, decide_eq_false hinfo]; rfl
    simp only [hc, if_true]

theorem for_loop_ii_ok {dimDomain dimRange : ℕ} (env : Env dimRange)
    (jacobian : Fin dimDomain → RMatrix dimRange) (l : List (Fin dimDomain))
    (h : env.NDEBUG = true ∨ ∀ ii ∈ l, solver_accepts env (jacobian ii))
    (st : DiagTmp dimRange × Statics dimDomain dimRange) :
    ∃ diag, for_loop (calculate_jacobians_ii env jacobian) l st =
      .ok (diag,
        ⟨fun k => if k ∈ l then split_neg env (jacobian k) else st.2.jacobian_neg_ k,
         fun k => if k ∈ l then split_pos env (jacobian k) else st.2.jacobian_pos_ k,
         st.2.jacobians_constructed_, st.2.jacobian_calls,
         st.2.eigen_solver_calls + l.length⟩) := by
  induction l generalizing st with
  | nil => exact ⟨st.1, by simp [for_loop]⟩
  | cons ii rest ih =>
    have hii : env.NDEBUG = true ∨ solver_accepts env (jacobian ii) :=
      h.imp id fun h => h ii (List.mem_cons_self _ _)
    have hrest : env.NDEBUG = true ∨ ∀ kk ∈ rest, solver_accepts env (jacobian kk) :=
      h.imp id fun h kk hkk => h kk (List.mem_cons_of_mem _ hkk)
    simp only [for_loop]
    rw [calculate_jacobians_ii_ok env jacobian st ii hii]
    obtain ⟨diag, hd⟩ := ih hrest
      (⟨D_pos (env.eigen_solver (jacobian ii)).eigenvalues,
            D_neg (env.eigen_solver (jacobian ii)).eigenvalues⟩,
        ⟨Function.update st.2.jacobian_neg_ ii (split_neg env (jacobian ii)),
         Function.update st.2.jacobian_pos_ ii (split_pos env (jacobian ii)),
         st.2.jacobians_constructed_, st.2.jacobian_calls, st.2.eigen_solver_calls + 1⟩)
    refine ⟨diag, ?_⟩
    simp only []
    rw [hd]
    congr 3
    · funext k
      by_cases hk : k = ii
      · subst hk
        simp
      · by_cases hkr : k ∈ rest
        · simp [hkr]
        · simp [hk, hkr, Function.update_noteq hk]
    · funext k
      by_cases hk : k = ii
      · subst hk
        simp
      · by_cases hkr : k ∈ rest
        · simp [hkr]
        · simp [hk, hkr, Function.update_noteq hk]
    · simp only [List.length_cons]
      omega

theorem for_loop_ii_fail {dimDomain dimRange : ℕ} (env : Env dimRange)
    (jacobian : Fin dimDomain → RMatrix dimRange) (l : List (Fin dimDomain))
    (hN : env.NDEBUG = false) (h : ∃ ii ∈ l, ¬ solver_accepts env (jacobian ii))
    (st : DiagTmp dimRange × Statics dimDomain dimRange) :
    for_loop (calculate_jacobians_ii env jacobian) l st = .error .AssertionFailed := by
  induction l generalizing st with
  | nil =>
    obtain ⟨ii, hii, -⟩ := h
    exact absurd hii (List.not_mem_nil _)
  | cons ii rest ih =>
    simp only [for_loop]
    by_cases hii : solver_accepts env (jacobian ii)
    · have hrest : ∃ kk ∈ rest, ¬ solver_accepts env (jacobian kk) := by
        obtain ⟨kk, hkk, hbad⟩ := h
        rcases List.mem_cons.1 hkk with rfl | hkk
        · exact absurd hii hbad
        · exact ⟨kk, hkk, hbad⟩
      rw [calculate_jacobians_ii_ok env jacobian st ii (Or.inr hii)]
      exact ih hrest _
    · rw [calculate_jacobians_ii_fail env jacobian st ii hN hii]

theorem calculate_jacobians_ok {dimDomain dimRange : ℕ} (env : Env dimRange)
    (jacobian : Fin dimDomain → RMatrix dimRange) (st : Statics dimDomain dimRange)
    (h : env.NDEBUG = true ∨ ∀ ii, solver_accepts env (jacobian ii)) :
    calculate_jacobians env jacobian st =
      .ok ⟨fun ii => split_neg env (jacobian ii), fun ii => split_pos env (jacobian ii),
        st.jacobians_constructed_, st.jacobian_calls, st.eigen_solver_calls + dimDomain⟩ := by
  obtain ⟨diag, hd⟩ := for_loop_ii_ok env jacobian (List.finRange dimDomain)
    (h.imp id fun h ii _ => h ii) ((⟨0, 0⟩ : DiagTmp dimRange), st)
  unfold calculate_jacobians
  rw [hd]
  simp [List.mem_finRange, List.length_finRange]

theorem calculate_jacobians_fail {dimDomain dimRange : ℕ} (env : Env dimRange)
    (jacobian : Fin dimDomain → RMatrix dimRange) (st : Statics dimDomain dimRange)
    (hN : env.NDEBUG = false) (h : ∃ ii, ¬ solver_accepts env (jacobian ii)) :
    calculate_jacobians env jacobian st = .error .AssertionFailed := by
  obtain ⟨ii, hii⟩ := h
  unfold calculate_jacobians
  rw [for_loop_ii_fail env jacobian _ hN ⟨ii, List.mem_finRange ii, hii⟩]

/-! ## The direction search on the whole normal -/

theorem countP_not_is_axis {dimDomain dimRange : ℕ} (env : Env dimRange)
    (n_ij : Fin dimDomain → ℚ) (l : List (Fin dimDomain)) :
    l.countP (fun ii => is_axis env (n_ij ii)) + l.countP (fun ii => !is_axis env (n_ij ii))
      = l.length := by
  rw [List.length_eq_countP_add_countP (fun ii => is_axis env (n_ij ii)) l]
  congr 1
  apply List.countP_congr
  intro x _
  simp

theorem evaluate_direction_classified {dimDomain dimRange : ℕ} [NeZero dimDomain]
    (env : Env dimRange) (n_ij : Fin dimDomain → ℚ)
    (h : ∀ ii, is_axis env (n_ij ii) = true ∨ env.FloatCmp_eq (n_ij ii) 0 = true) :
    GodunovNumericalCouplingFlux.evaluate_direction env n_ij =
      if env.NDEBUG = false ∧
          (List.finRange dimDomain).countP (fun ii => is_axis env (n_ij ii)) ≠ 1 then
        .error .AssertionFailed
      else .ok (last_axis env n_ij (List.finRange dimDomain) 0) := by
  have hcount := countP_not_is_axis env n_ij (List.finRange dimDomain)
  rw [List.length_finRange] at hcount
  have hpos : 0 < dimDomain := Nat.pos_of_ne_zero (NeZero.ne dimDomain)
  unfold GodunovNumericalCouplingFlux.evaluate_direction
  rw [for_loop_direction env n_ij _ (fun ii _ => h ii)]
  cases hN : env.NDEBUG
  · by_cases h1 : (List.finRange dimDomain).countP (fun ii => is_axis env (n_ij ii)) = 1
    · have hz : 0 + (List.finRange dimDomain).countP (fun ii => !is_axis env (n_ij ii))
          = dimDomain - 1 := by omega
      simp [h1, hz]
    · have hz : ¬ (List.finRange dimDomain).countP (fun ii => !is_axis env (n_ij ii))
          = dimDomain - 1 := by omega
      simp [h1, hz]
  · simp

theorem last_axis_self {dimDomain dimRange : ℕ} (env : Env dimRange)
    (n_ij : Fin dimDomain → ℚ) (c : Fin dimDomain) (l : List (Fin dimDomain))
    (h : ∀ ii ∈ l, ii ≠ c → is_axis env (n_ij ii) = false) :
    last_axis env n_ij l c = c := by
  induction l with
  | nil => rfl
  | cons ii rest ih =>
    have hrest : ∀ jj ∈ rest, jj ≠ c → is_axis env (n_ij jj) = false :=
      fun jj hjj => h jj (List.mem_cons_of_mem _ hjj)
    simp only [last_axis]
    by_cases hii : ii = c
    · subst hii
      simp only [ite_self]
      exact ih hrest
    · rw [h ii (List.mem_cons_self _ _) hii]
      simp only [Bool.false_eq_true, if_false]
      exact ih hrest

theorem last_axis_unique {dimDomain dimRange : ℕ} (env : Env dimRange)
    (n_ij : Fin dimDomain → ℚ) (c : Fin dimDomain) (l : List (Fin dimDomain))
    (hc : c ∈ l) (hax : is_axis env (n_ij c) = true)
    (h : ∀ ii ∈ l, ii ≠ c → is_axis env (n_ij ii) = false) (c0 : Fin dimDomain) :
    last_axis env n_ij l c0 = c := by
  induction l generalizing c0 with
  | nil => exact absurd hc (List.not_mem_nil _)
  | cons ii rest ih =>
    have hrest : ∀ jj ∈ rest, jj ≠ c → is_axis env (n_ij jj) = false :=
      fun jj hjj => h jj (List.mem_cons_of_mem _ hjj)
    simp only [last_axis]
    by_cases hii : ii = c
    · subst hii
      rw [hax]
      simp only [if_true]
      exact last_axis_self env n_ij ii rest hrest
    · rw [h ii (List.mem_cons_self _ _) hii]
      simp only [Bool.false_eq_true, if_false]
      rcases List.mem_cons.1 hc with hc | hc
      · exact absurd hc.symm hii
      · exact ih hc hrest c0

theorem countP_is_axis_unique {dimDomain dimRange : ℕ} (env : Env dimRange)
    (n_ij : Fin dimDomain → ℚ) (c : Fin dimDomain) (hax : is_axis env (n_ij c) = true)
    (h : ∀ ii, ii ≠ c → is_axis env (n_ij ii) = false) :
    (List.finRange dimDomain).countP (fun ii => is_axis env (n_ij ii)) = 1 := by
  have h1 : (List.finRange dimDomain).countP (fun ii => is_axis env (n_ij ii))
      = (List.finRange dimDomain).countP (fun ii => ii == c) := by
    apply List.countP_congr
    intro x _
    by_cases hx : x = c
    · subst hx
      simp [hax]
    · simp [hx, h x hx]
  rw [h1, ← List.count_eq_countP]
  exact List.count_eq_one_of_mem (List.nodup_finRange dimDomain) (List.mem_finRange c)

/-- The direction search on a normal whose component `c` is taken for `±1` and whose other
components are taken for `0` and not for `±1`: it ends with `coord = c`. -/
theorem evaluate_direction_aligned {dimDomain dimRange : ℕ} [NeZero dimDomain]
    (env : Env dimRange) (n_ij : Fin dimDomain → ℚ) (c : Fin dimDomain)
    (hax : is_axis env (n_ij c) = true)
    (h0 : ∀ ii, ii ≠ c → env.FloatCmp_eq (n_ij ii) 0 = true)
    (h1 : ∀ ii, ii ≠ c → is_axis env (n_ij ii) = false) :
    GodunovNumericalCouplingFlux.evaluate_direction env n_ij = .ok c := by
  have hcl : ∀ ii, is_axis env (n_ij ii) = true ∨ env.FloatCmp_eq (n_ij ii) 0 = true := by
    intro ii
    by_cases hii : ii = c
    · subst hii
      exact Or.inl hax
    · exact Or.inr (h0 ii hii)
  rw [evaluate_direction_classified env n_ij hcl,
    countP_is_axis_unique env n_ij c hax h1,
    last_axis_unique env n_ij c _ (List.mem_finRange c) hax (fun ii _ => h1 ii) 0]
  simp

theorem is_axis_of_exact {dimRange : ℕ} (env : Env dimRange) (hcmp : FloatCmp_exact env)
    (x : ℚ) (hx : x = 0 ∨ x = 1 ∨ x = -1) :
    (is_axis env x = true ↔ x = 1 ∨ x = -1) ∧
      (is_axis env x = true ∨ env.FloatCmp_eq x 0 = true) := by
  rcases hx with rfl | rfl | rfl
  · simp [is_axis, hcmp.zero_one, hcmp.zero_neg, hcmp.zero_zero]
  · simp [is_axis, hcmp.one_one]
  · simp [is_axis, hcmp.neg_neg]

/-- The direction search on an axis-aligned normal, exact components. -/
theorem evaluate_direction_exact {dimDomain dimRange : ℕ} [NeZero dimDomain]
    (env : Env dimRange) (hcmp : FloatCmp_exact env) (n_ij : Fin dimDomain → ℚ)
    (c : Fin dimDomain) (hc : n_ij c = 1 ∨ n_ij c = -1) (h0 : ∀ ii, ii ≠ c → n_ij ii = 0) :
    GodunovNumericalCouplingFlux.evaluate_direction env n_ij = .ok c := by
  apply evaluate_direction_aligned env n_ij c
  · exact ((is_axis_of_exact env hcmp _ (Or.inr hc)).1).2 hc
  · intro ii hii
    rw [h0 ii hii]
    exact hcmp.zero_zero
  · intro ii hii
    rw [h0 ii hii]
    simp [is_axis, hcmp.zero_one, hcmp.zero_neg]

/-! ## The flux evaluation -/

theorem calculate_jacobians_accepts {dimDomain dimRange : ℕ} (env : Env dimRange)
    (jacobian : Fin dimDomain → RMatrix dimRange) (st st1 : Statics dimDomain dimRange)
    (h : calculate_jacobians env jacobian st = .ok st1) :
    env.NDEBUG = true ∨ ∀ ii, solver_accepts env (jacobian ii) := by
  by_contra hcon
  push_neg at hcon
  obtain ⟨hN, ii, hii⟩ := hcon
  have hN1 : env.NDEBUG = false := by simpa using hN
  rw [calculate_jacobians_fail env jacobian st hN1 ⟨ii, hii⟩] at h
  exact Except.noConfusion h

namespace GodunovNumericalCouplingFlux

variable {P : Type} {dimDomain dimRange : ℕ}

theorem evaluate_eq [NeZero dimDomain] (env : Env dimRange)
    (self : GodunovNumericalCouplingFlux dimDomain dimRange)
    (st st1 : Statics dimDomain dimRange)
    (local_source_entity local_source_neighbor : P → RangeType dimRange)
    (intersection : Intersection P dimDomain) (x_intersection : P) (coord : Fin dimDomain)
    (hsplit : evaluate_jacobians env self st
      (local_source_entity (intersection.geometryInInside_global x_intersection))
      (local_source_neighbor (intersection.geometryInOutside_global x_intersection))
        = .ok st1)
    (hdir : evaluate_direction env (intersection.unitOuterNormal x_intersection) = .ok coord) :
    evaluate env self st local_source_entity local_source_neighbor intersection x_intersection
      = .ok (evaluate_ret st1
          (self.analytical_flux_.evaluate
            (local_source_entity (intersection.geometryInInside_global x_intersection)))
          (local_source_entity (intersection.geometryInInside_global x_intersection)
            - local_source_neighbor (intersection.geometryInOutside_global x_intersection))
          (intersection.unitOuterNormal x_intersection) coord intersection.geometry_volume,
        st1) := by
  unfold evaluate
  simp only [hsplit, hdir]

theorem evaluate_direction_error [NeZero dimDomain] (env : Env dimRange)
    (self : GodunovNumericalCouplingFlux dimDomain dimRange)
    (st st1 : Statics dimDomain dimRange)
    (local_source_entity local_source_neighbor : P → RangeType dimRange)
    (intersection : Intersection P dimDomain) (x_intersection : P) (e : Abort)
    (hsplit : evaluate_jacobians env self st
      (local_source_entity (intersection.geometryInInside_global x_intersection))
      (local_source_neighbor (intersection.geometryInOutside_global x_intersection))
        = .ok st1)
    (hdir : evaluate_direction env (intersection.unitOuterNormal x_intersection) = .error e) :
    evaluate env self st local_source_entity local_source_neighbor intersection x_intersection
      = .error e := by
  unfold evaluate
  simp only [hsplit, hdir]

theorem evaluate_jacobians_error [NeZero dimDomain] (env : Env dimRange)
    (self : GodunovNumericalCouplingFlux dimDomain dimRange)
    (st : Statics dimDomain dimRange)
    (local_source_entity local_source_neighbor : P → RangeType dimRange)
    (intersection : Intersection P dimDomain) (x_intersection : P) (e : Abort)
    (hsplit : evaluate_jacobians env self st
      (local_source_entity (intersection.geometryInInside_global x_intersection))
      (local_source_neighbor (intersection.geometryInOutside_global x_intersection))
        = .error e) :
    evaluate env self st local_source_entity local_source_neighbor intersection x_intersection
      = .error e := by
  unfold evaluate
  simp only [hsplit]

theorem evaluate_ret_of_pos (st : Statics dimDomain dimRange)
    (f_u_i : Matrix (Fin dimRange) (Fin dimDomain) ℚ) (delta_u : RangeType dimRange)
    (n_ij : Fin dimDomain → ℚ) (coord : Fin dimDomain) (vol : ℚ) (hn : n_ij coord = 1) :
    evaluate_ret st f_u_i delta_u n_ij coord vol =
      fun kk => (f_u_i kk coord - (st.jacobian_neg_ coord).mulVec delta_u kk) * vol := by
  unfold evaluate_ret
  rw [if_pos (by rw [hn]; exact one_pos)]
  funext kk
  simp [hn]

theorem evaluate_ret_of_neg (st : Statics dimDomain dimRange)
    (f_u_i : Matrix (Fin dimRange) (Fin dimDomain) ℚ) (delta_u : RangeType dimRange)
    (n_ij : Fin dimDomain → ℚ) (coord : Fin dimDomain) (vol : ℚ) (hn : n_ij coord = -1) :
    evaluate_ret st f_u_i delta_u n_ij coord vol =
      fun kk => (-f_u_i kk coord + (st.jacobian_pos_ coord).mulVec delta_u kk) * vol := by
  unfold evaluate_ret
  rw [if_neg (by rw [hn]; norm_num)]
  funext kk
  simp [hn]

end GodunovNumericalCouplingFlux

namespace GodunovNumericalBoundaryFlux

variable {E P : Type} {dimDomain dimRange : ℕ}

theorem boundary_evaluate_direction_error [NeZero dimDomain] (env : Env dimRange)
    (self : GodunovNumericalBoundaryFlux E P dimDomain dimRange)
    (st st1 : Statics dimDomain dimRange)
    (local_functions_tuple local_source_entity : P → RangeType dimRange)
    (intersection : Intersection P dimDomain) (x_intersection localPoint : P) (e : Abort)
    (hsplit : evaluate_jacobians env self st
      (local_source_entity (intersection.geometryInInside_global
        (intersection.geometryInInside_global x_intersection)))
      (local_functions_tuple (intersection.geometryInInside_global x_intersection))
        = .ok st1)
    (hdir : GodunovNumericalCouplingFlux.evaluate_direction env
      (intersection.unitOuterNormal localPoint) = .error e) :
    evaluate env self st local_functions_tuple local_source_entity intersection x_intersection
      localPoint = .error e := by
  unfold evaluate
  simp only [hsplit, hdir]

theorem boundary_evaluate_jacobians_error [NeZero dimDomain] (env : Env dimRange)
    (self : GodunovNumericalBoundaryFlux E P dimDomain dimRange)
    (st : Statics dimDomain dimRange)
    (local_functions_tuple local_source_entity : P → RangeType dimRange)
    (intersection : Intersection P dimDomain) (x_intersection localPoint : P) (e : Abort)
    (hsplit : evaluate_jacobians env self st
      (local_source_entity (intersection.geometryInInside_global
        (intersection.geometryInInside_global x_intersection)))
      (local_functions_tuple (intersection.geometryInInside_global x_intersection))
        = .error e) :
    evaluate env self st local_functions_tuple local_source_entity intersection x_intersection
      localPoint = .error e := by
  unfold evaluate
  simp only [hsplit]

end GodunovNumericalBoundaryFlux

/-- A component that is taken for none of `1`, `-1`, `0` ends the direction search with
`Dune::NotImplemented`, wherever it stands in the normal. -/
theorem for_loop_direction_oblique {dimDomain dimRange : ℕ} (env : Env dimRange)
    (n_ij : Fin dimDomain → ℚ) (l : List (Fin dimDomain))
    (h : ∃ ii ∈ l, is_axis env (n_ij ii) = false ∧ env.FloatCmp_eq (n_ij ii) 0 = false)
    (st : Fin dimDomain × ℕ) :
    for_loop (GodunovNumericalCouplingFlux.evaluate_direction_ii env n_ij) l st =
      .error .NotImplemented := by
  induction l generalizing st with
  | nil =>
    obtain ⟨ii, hii, -⟩ := h
    exact absurd hii (List.not_mem_nil _)
  | cons ii rest ih =>
    simp only [for_loop]
    by_cases hax : is_axis env (n_ij ii) = true
    · have hrest : ∃ kk ∈ rest,
          is_axis env (n_ij kk) = false ∧ env.FloatCmp_eq (n_ij kk) 0 = false := by
        obtain ⟨kk, hkk, hbad⟩ := h
        rcases List.mem_cons.1 hkk with rfl | hkk
        · rw [hax] at hbad
          exact absurd hbad.1 (by simp)
        · exact ⟨kk, hkk, hbad⟩
      have hstep : GodunovNumericalCouplingFlux.evaluate_direction_ii env n_ij st ii
          = .ok (ii, st.2) := by
        unfold is_axis at hax
        simp [GodunovNumericalCouplingFlux.evaluate_direction_ii, hax]
      rw [hstep]
      exact ih hrest _
    · by_cases hz : env.FloatCmp_eq (n_ij ii) 0 = true
      · have hrest : ∃ kk ∈ rest,
            is_axis env (n_ij kk) = false ∧ env.FloatCmp_eq (n_ij kk) 0 = false := by
          obtain ⟨kk, hkk, hbad⟩ := h
          rcases List.mem_cons.1 hkk with rfl | hkk
          · rw [hz] at hbad
            exact absurd hbad.2 (by simp)
          · exact ⟨kk, hkk, hbad⟩
        have hstep : GodunovNumericalCouplingFlux.evaluate_direction_ii env n_ij st ii
            = .ok (st.1, if env.NDEBUG then st.2 else st.2 + 1) := by
          unfold is_axis at hax
          simp only [GodunovNumericalCouplingFlux.evaluate_direction_ii]
          rw [if_neg hax, if_pos hz]
        rw [hstep]
        exact ih hrest _
      · have hstep : GodunovNumericalCouplingFlux.evaluate_direction_ii env n_ij st ii
            = .error .NotImplemented := by
          unfold is_axis at hax
          simp only [GodunovNumericalCouplingFlux.evaluate_direction_ii]
          rw [if_neg hax, if_neg hz]
        rw [hstep]

theorem evaluate_direction_oblique {dimDomain dimRange : ℕ} [NeZero dimDomain]
    (env : Env dimRange) (n_ij : Fin dimDomain → ℚ)
    (h : ∃ ii, is_axis env (n_ij ii) = false ∧ env.FloatCmp_eq (n_ij ii) 0 = false) :
    GodunovNumericalCouplingFlux.evaluate_direction env n_ij = .error .NotImplemented := by
  obtain ⟨ii, hii⟩ := h
  unfold GodunovNumericalCouplingFlux.evaluate_direction
  rw [for_loop_direction_oblique env n_ij _ ⟨ii, List.mem_finRange ii, hii⟩]

/-! ## The sample data -/

theorem Cplx.inv_one_eq : (1 : Cplx)⁻¹ = 1 := by
  apply Cplx.ext
  · show (1 : ℚ) / (1 * 1 + 0 * 0) = 1
    norm_num
  · show -(0 : ℚ) / (1 * 1 + 0 * 0) = 0
    norm_num

theorem real_one {n : ℕ} : real (1 : CMatrix n) = 1 := by
  ext i j
  by_cases hij : i = j
  · subst hij
    simp [real]
  · simp [real, hij]

theorem adjugate_inverse_one {n : ℕ} : adjugate_inverse (1 : CMatrix n) = 1 := by
  simp [adjugate_inverse, Cplx.inv_one_eq]

theorem sample_env_exact (NDEBUG : Bool) : FloatCmp_exact (sample_env NDEBUG) := by
  constructor <;> simp [sample_env, FloatCmp_numpy] <;> norm_num

theorem sample_env_accepts (NDEBUG : Bool) (J : RMatrix 1) :
    solver_accepts (sample_env NDEBUG) J := by
  constructor
  · rfl
  · intro jj
    simp [sample_env, diagonal_eigen_solver]

theorem sample_split_neg (NDEBUG : Bool) (J : RMatrix 1) :
    split_neg (sample_env NDEBUG) J = Matrix.of fun _ _ => if J 0 0 < 0 then J 0 0 else 0 := by
  ext i j
  have hi : i = 0 := Subsingleton.elim _ _
  have hj : j = 0 := Subsingleton.elim _ _
  subst hi hj
  simp [split_neg, sample_env, diagonal_eigen_solver, real_one, adjugate_inverse_one, D_neg]

theorem sample_split_pos (NDEBUG : Bool) (J : RMatrix 1) :
    split_pos (sample_env NDEBUG) J = Matrix.of fun _ _ => if 0 ≤ J 0 0 then J 0 0 else 0 := by
  ext i j
  have hi : i = 0 := Subsingleton.elim _ _
  have hj : j = 0 := Subsingleton.elim _ _
  subst hi hj
  simp [split_pos, sample_env, diagonal_eigen_solver, real_one, adjugate_inverse_one, D_pos]

theorem reinitialize_jacobians_ok {dimDomain dimRange : ℕ} (env : Env dimRange)
    (self : GodunovNumericalCouplingFlux dimDomain dimRange)
    (st : Statics dimDomain dimRange) (u_i u_j : RangeType dimRange)
    (h : env.NDEBUG = true ∨ ∀ ii, solver_accepts env
      (self.analytical_flux_.jacobian (fun kk => (u_i kk + u_j kk) * (1 / 2)) ii)) :
    GodunovNumericalCouplingFlux.reinitialize_jacobians env self st u_i u_j =
      .ok ⟨fun ii => split_neg env
            (self.analytical_flux_.jacobian (fun kk => (u_i kk + u_j kk) * (1 / 2)) ii),
          fun ii => split_pos env
            (self.analytical_flux_.jacobian (fun kk => (u_i kk + u_j kk) * (1 / 2)) ii),
          st.jacobians_constructed_,
          st.jacobian_calls ++ [fun kk => (u_i kk + u_j kk) * (1 / 2)],
          st.eigen_solver_calls + dimDomain⟩ := by
  unfold GodunovNumericalCouplingFlux.reinitialize_jacobians
  simp only []
  rw [calculate_jacobians_ok env _ _ h]

theorem sample_evaluate_jacobians_from (NDEBUG : Bool) (st : Statics 2 1) (u_i u_j : ℚ) :
    GodunovNumericalCouplingFlux.evaluate_jacobians (sample_env NDEBUG) ⟨sample_flux, false⟩
      st (fun _ => u_i) (fun _ => u_j) =
      .ok ⟨fun ii => split_neg (sample_env NDEBUG)
            (sample_flux.jacobian (fun _ => (u_i + u_j) * (1 / 2)) ii),
          fun ii => split_pos (sample_env NDEBUG)
            (sample_flux.jacobian (fun _ => (u_i + u_j) * (1 / 2)) ii),
          st.jacobians_constructed_, st.jacobian_calls ++ [fun _ => (u_i + u_j) * (1 / 2)],
          st.eigen_solver_calls + 2⟩ := by
  unfold GodunovNumericalCouplingFlux.evaluate_jacobians
  simp only [Bool.not_false, if_true]
  rw [reinitialize_jacobians_ok _ _ _ _ _ (Or.inr fun ii => sample_env_accepts NDEBUG _)]

theorem sample_evaluate_jacobians (NDEBUG : Bool) (u_i u_j : ℚ) :
    GodunovNumericalCouplingFlux.evaluate_jacobians (sample_env NDEBUG) ⟨sample_flux, false⟩
      (Statics.initial 2 1) (fun _ => u_i) (fun _ => u_j) = .ok (sample_statics NDEBUG u_i u_j) := by
  rw [sample_evaluate_jacobians_from]
  rfl

theorem sample_normal_zero (n0 n1 vol : ℚ) (c : Fin 2)
    (h : c = 0 ∧ n1 = 0 ∨ c = 1 ∧ n0 = 0) :
    ∀ ii, ii ≠ c → (sample_intersection n0 n1 vol).unitOuterNormal () ii = 0 := by
  intro ii hii
  rcases h with ⟨rfl, rfl⟩ | ⟨rfl, rfl⟩ <;> fin_cases ii <;>
    simp [sample_intersection] at hii ⊢

/-- The split a call of `evaluate` works with is the same when the two states are
exchanged, also when the second call starts from the static members the first one left. -/
theorem evaluate_jacobians_swap {dimDomain dimRange : ℕ} (env : Env dimRange)
    (self : GodunovNumericalCouplingFlux dimDomain dimRange)
    (st st1 : Statics dimDomain dimRange) (u_i u_j : RangeType dimRange)
    (hsplit : GodunovNumericalCouplingFlux.evaluate_jacobians env self st u_i u_j = .ok st1) :
    ∃ st2, GodunovNumericalCouplingFlux.evaluate_jacobians env self st1 u_j u_i = .ok st2 ∧
      st2.jacobian_neg_ = st1.jacobian_neg_ ∧ st2.jacobian_pos_ = st1.jacobian_pos_ := by
  unfold GodunovNumericalCouplingFlux.evaluate_jacobians at hsplit ⊢
  cases hlin : self.is_linear_
  · rw [hlin] at hsplit
    simp only [Bool.not_false, if_true] at hsplit ⊢
    have hmean : (fun kk => (u_j kk + u_i kk) * (1 / 2 : ℚ))
        = fun kk => (u_i kk + u_j kk) * (1 / 2 : ℚ) := by
      funext kk
      rw [add_comm]
    have hacc := calculate_jacobians_accepts env _ _ _ hsplit
    rw [reinitialize_jacobians_ok env self st u_i u_j hacc] at hsplit
    have hacc2 : env.NDEBUG = true ∨ ∀ ii, solver_accepts env
        (self.analytical_flux_.jacobian (fun kk => (u_j kk + u_i kk) * (1 / 2)) ii) := by
      rw [hmean]
      exact hacc
    rw [reinitialize_jacobians_ok env self st1 u_j u_i hacc2]
    refine ⟨_, rfl, ?_, ?_⟩
    · simp only [hmean]
      injection hsplit with hst
      rw [← hst]
    · simp only [hmean]
      injection hsplit with hst
      rw [← hst]
  · rw [hlin] at hsplit
    simp only [Bool.not_true, Bool.false_eq_true, if_false] at hsplit ⊢
    exact ⟨st1, rfl, rfl, rfl⟩

/-! ## Claims C1 to C7: the interior evaluator on a given normal -/

namespace GodunovNumericalCouplingFlux

variable {P : Type} {dimDomain dimRange : ℕ}

/-- C1. Interior evaluator, general `dimDomain`: for states `u_i`, `u_j`, any face measure
and an axis-aligned normal with `normal[coord] = +1`, `evaluate` returns, for every
component `kk`, `(f(u_i)[kk][coord] - (jacobian_neg_[coord] · (u_i - u_j))[kk])` times the
face measure, where `jacobian_neg_` is the negative part of the split in use (`st1`: the
cached one in linear mode, the one recomputed by this call otherwise). -/
theorem evaluate_positive_normal [NeZero dimDomain] (env : Env dimRange)
    (hcmp : FloatCmp_exact env) (self : GodunovNumericalCouplingFlux dimDomain dimRange)
    (st st1 : Statics dimDomain dimRange)
    (local_source_entity local_source_neighbor : P → RangeType dimRange)
    (intersection : Intersection P dimDomain) (x_intersection : P)
    (u_i u_j : RangeType dimRange) (coord : Fin dimDomain)
    (hu_i : local_source_entity (intersection.geometryInInside_global x_intersection) = u_i)
    (hu_j : local_source_neighbor (intersection.geometryInOutside_global x_intersection) = u_j)
    (hsplit : evaluate_jacobians env self st u_i u_j = .ok st1)
    (hn : intersection.unitOuterNormal x_intersection coord = 1)
    (h0 : ∀ ii, ii ≠ coord → intersection.unitOuterNormal x_intersection ii = 0) :
    evaluate env self st local_source_entity local_source_neighbor intersection x_intersection
      = .ok (fun kk => (self.analytical_flux_.evaluate u_i kk coord
            - (st1.jacobian_neg_ coord).mulVec (u_i - u_j) kk) * intersection.geometry_volume,
          st1) := by
  subst hu_i hu_j
  rw [evaluate_eq env self st st1 _ _ _ _ coord hsplit
    (evaluate_direction_exact env hcmp _ coord (Or.inl hn) h0),
    evaluate_ret_of_pos _ _ _ _ _ _ hn]

/-- Instance of C1 on the sample data: states `2` and `1`, normal `(1, 0)`, volume `1`. -/
theorem evaluate_positive_normal_witness :
    evaluate (sample_env false) ⟨sample_flux, false⟩ (Statics.initial 2 1)
        (sample_source 2) (sample_source 1) (sample_intersection 1 0 1) ()
      = .ok (fun kk => (sample_flux.evaluate (fun _ => 2) kk 0
            - ((sample_statics false 2 1).jacobian_neg_ 0).mulVec
                ((fun _ => 2) - (fun _ => 1)) kk) * 1,
          sample_statics false 2 1) :=
  evaluate_positive_normal (sample_env false) (sample_env_exact false) ⟨sample_flux, false⟩
    (Statics.initial 2 1) (sample_statics false 2 1) (sample_source 2) (sample_source 1)
    (sample_intersection 1 0 1) () (fun _ => 2) (fun _ => 1) 0 rfl rfl
    (sample_evaluate_jacobians false 2 1) rfl
    (by intro ii hii; fin_cases ii <;> simp [sample_intersection] at hii ⊢)

/-- C2, as the code has it. For an axis-aligned normal with `normal[coord] = -1`, `evaluate`
returns, for every component `kk`,
`(-f(u_i)[kk][coord] + (jacobian_pos_[coord] · (u_i - u_j))[kk])` times the face measure:
line 174 multiplies the positive waves by `n_ij[coord] = -1`, so they are added. -/
theorem evaluate_negative_normal [NeZero dimDomain] (env : Env dimRange)
    (hcmp : FloatCmp_exact env) (self : GodunovNumericalCouplingFlux dimDomain dimRange)
    (st st1 : Statics dimDomain dimRange)
    (local_source_entity local_source_neighbor : P → RangeType dimRange)
    (intersection : Intersection P dimDomain) (x_intersection : P)
    (u_i u_j : RangeType dimRange) (coord : Fin dimDomain)
    (hu_i : local_source_entity (intersection.geometryInInside_global x_intersection) = u_i)
    (hu_j : local_source_neighbor (intersection.geometryInOutside_global x_intersection) = u_j)
    (hsplit : evaluate_jacobians env self st u_i u_j = .ok st1)
    (hn : intersection.unitOuterNormal x_intersection coord = -1)
    (h0 : ∀ ii, ii ≠ coord → intersection.unitOuterNormal x_intersection ii = 0) :
    evaluate env self st local_source_entity local_source_neighbor intersection x_intersection
      = .ok (fun kk => (-self.analytical_flux_.evaluate u_i kk coord
            + (st1.jacobian_pos_ coord).mulVec (u_i - u_j) kk) * intersection.geometry_volume,
          st1) := by
  subst hu_i hu_j
  rw [evaluate_eq env self st st1 _ _ _ _ coord hsplit
    (evaluate_direction_exact env hcmp _ coord (Or.inr hn) h0),
    evaluate_ret_of_neg _ _ _ _ _ _ hn]

/-- Instance of the amended C2 on the sample data: states `2` and `1`, normal `(0, -1)`. -/
theorem evaluate_negative_normal_witness :
    evaluate (sample_env false) ⟨sample_flux, false⟩ (Statics.initial 2 1)
        (sample_source 2) (sample_source 1) (sample_intersection 0 (-1) 1) ()
      = .ok (fun kk => (-sample_flux.evaluate (fun _ => 2) kk 1
            + ((sample_statics false 2 1).jacobian_pos_ 1).mulVec
                ((fun _ => 2) - (fun _ => 1)) kk) * 1,
          sample_statics false 2 1) :=
  evaluate_negative_normal (sample_env false) (sample_env_exact false) ⟨sample_flux, false⟩
    (Statics.initial 2 1) (sample_statics false 2 1) (sample_source 2) (sample_source 1)
    (sample_intersection 0 (-1) 1) () (fun _ => 2) (fun _ => 1) 1 rfl rfl
    (sample_evaluate_jacobians false 2 1) rfl
    (by intro ii hii; fin_cases ii <;> simp [sample_intersection] at hii ⊢)

/-- C2 fails as stated. Flux `2·u` along axis 1, `u_i = 2`, `u_j = 1`, normal `(0, -1)`,
volume `1`, nonlinear mode: the split at the mean state has `jacobian_pos_[1] = 2`, the code
returns `-4 + 2 = -2`, the claimed value `-f(u_i) - jacobian_pos_·(u_i - u_j)` is `-6`. -/
theorem evaluate_negative_normal_counterexample :
    ∃ ret st1,
      evaluate (sample_env false) ⟨sample_flux, false⟩ (Statics.initial 2 1)
        (sample_source 2) (sample_source 1) (sample_intersection 0 (-1) 1) () = .ok (ret, st1)
      ∧ ret 0 = -2
      ∧ (-sample_flux.evaluate (fun _ => 2) 0 1
          - (st1.jacobian_pos_ 1).mulVec ((fun _ => 2) - (fun _ => 1)) 0) * 1 = -6 := by
  refine ⟨_, _, evaluate_eq (sample_env false) ⟨sample_flux, false⟩ (Statics.initial 2 1)
    (sample_statics false 2 1) (sample_source 2) (sample_source 1)
    (sample_intersection 0 (-1) 1) () 1 (sample_evaluate_jacobians false 2 1)
    (evaluate_direction_exact _ (sample_env_exact false) _ 1 (Or.inr rfl)
      (by intro ii hii; fin_cases ii <;> simp [sample_intersection] at hii ⊢)), ?_, ?_⟩
  · rw [evaluate_ret_of_neg _ _ _ _ _ _ rfl]
    simp [sample_statics, sample_split_pos, sample_flux, sample_source, Matrix.mulVec,
      Matrix.dotProduct, sample_intersection]
    norm_num
  · simp [sample_statics, sample_split_pos, sample_flux, Matrix.mulVec, Matrix.dotProduct]
    norm_num

end GodunovNumericalCouplingFlux

namespace GodunovNumericalCouplingFlux

variable {P : Type} {dimDomain dimRange : ℕ}

/-- C3, as the code has it. Take a face with axis-aligned normal `n` (aligned index `coord`)
and nonzero measure, and evaluate it from both sides: `evaluate(u_i, u_j, n)` and then
`evaluate(u_j, u_i, -n)`. Both calls work with the same split (`st1`), in linear and in
nonlinear mode, and the two results are opposite, `ret = -ret'` in every component, if and
only if `f(u_i)[kk][coord] - f(u_j)[kk][coord]
  = ((jacobian_neg_[coord] + jacobian_pos_[coord]) · (u_i - u_j))[kk]` for every `kk`. -/
theorem evaluate_upwind_symmetry_iff [NeZero dimDomain] (env : Env dimRange)
    (hcmp : FloatCmp_exact env) (self : GodunovNumericalCouplingFlux dimDomain dimRange)
    (st st1 : Statics dimDomain dimRange)
    (local_source_entity local_source_neighbor : P → RangeType dimRange)
    (intersection : Intersection P dimDomain) (x_intersection : P)
    (local_source_entity2 local_source_neighbor2 : P → RangeType dimRange)
    (intersection2 : Intersection P dimDomain) (x_intersection2 : P)
    (u_i u_j : RangeType dimRange) (coord : Fin dimDomain)
    (hu_i : local_source_entity (intersection.geometryInInside_global x_intersection) = u_i)
    (hu_j : local_source_neighbor (intersection.geometryInOutside_global x_intersection) = u_j)
    (hu_i2 : local_source_entity2 (intersection2.geometryInInside_global x_intersection2)
      = u_j)
    (hu_j2 : local_source_neighbor2 (intersection2.geometryInOutside_global x_intersection2)
      = u_i)
    (hsplit : evaluate_jacobians env self st u_i u_j = .ok st1)
    (hn : intersection.unitOuterNormal x_intersection coord = 1 ∨
      intersection.unitOuterNormal x_intersection coord = -1)
    (h0 : ∀ ii, ii ≠ coord → intersection.unitOuterNormal x_intersection ii = 0)
    (hn2 : ∀ ii, intersection2.unitOuterNormal x_intersection2 ii
      = -intersection.unitOuterNormal x_intersection ii)
    (hvol : intersection2.geometry_volume = intersection.geometry_volume)
    (hvol0 : intersection.geometry_volume ≠ 0) :
    ∃ ret ret2 st2,
      evaluate env self st local_source_entity local_source_neighbor intersection
        x_intersection = .ok (ret, st1) ∧
      evaluate env self st1 local_source_entity2 local_source_neighbor2 intersection2
        x_intersection2 = .ok (ret2, st2) ∧
      st2.jacobian_neg_ = st1.jacobian_neg_ ∧ st2.jacobian_pos_ = st1.jacobian_pos_ ∧
      ((∀ kk, ret kk = -ret2 kk) ↔
        ∀ kk, self.analytical_flux_.evaluate u_i kk coord
            - self.analytical_flux_.evaluate u_j kk coord
          = (st1.jacobian_neg_ coord + st1.jacobian_pos_ coord).mulVec (u_i - u_j) kk) := by
  subst hu_i hu_j
  obtain ⟨st2, hsplit2, hneg2, hpos2⟩ := evaluate_jacobians_swap env self st st1 _ _ hsplit
  have h02 : ∀ ii, ii ≠ coord → intersection2.unitOuterNormal x_intersection2 ii = 0 := by
    intro ii hii
    rw [hn2 ii, h0 ii hii, neg_zero]
  have hmv : ∀ (M : RMatrix dimRange) (kk : Fin dimRange),
      M.mulVec (local_source_neighbor (intersection.geometryInOutside_global x_intersection)
        - local_source_entity (intersection.geometryInInside_global x_intersection)) kk
      = -(M.mulVec (local_source_entity (intersection.geometryInInside_global x_intersection)
        - local_source_neighbor (intersection.geometryInOutside_global x_intersection)) kk) := by
    intro M kk
    rw [← neg_sub, Matrix.mulVec_neg]
    rfl
  rw [← hu_i2, ← hu_j2] at hsplit2
  rcases hn with hn | hn
  · have hn2c : intersection2.unitOuterNormal x_intersection2 coord = -1 := by
      rw [hn2 coord, hn]
    refine ⟨_, _, st2,
      evaluate_eq env self st st1 _ _ _ _ coord hsplit
        (evaluate_direction_exact env hcmp _ coord (Or.inl hn) h0),
      evaluate_eq env self st1 st2 _ _ _ _ coord hsplit2
        (evaluate_direction_exact env hcmp _ coord (Or.inr hn2c) h02),
      hneg2, hpos2, ?_⟩
    rw [evaluate_ret_of_pos _ _ _ _ _ _ hn, evaluate_ret_of_neg _ _ _ _ _ _ hn2c,
      hu_i2, hu_j2, hpos2, hvol]
    simp only [hmv, Matrix.add_mulVec, Pi.add_apply]
    constructor
    · intro h kk
      have := h kk
      have h3 := mul_right_cancel₀ hvol0 (this.trans (neg_mul _ _).symm)
      linarith
    · intro h kk
      have := h kk
      rw [← neg_mul]
      congr 1
      linarith
  · have hn2c : intersection2.unitOuterNormal x_intersection2 coord = 1 := by
      rw [hn2 coord, hn, neg_neg]
    refine ⟨_, _, st2,
      evaluate_eq env self st st1 _ _ _ _ coord hsplit
        (evaluate_direction_exact env hcmp _ coord (Or.inr hn) h0),
      evaluate_eq env self st1 st2 _ _ _ _ coord hsplit2
        (evaluate_direction_exact env hcmp _ coord (Or.inl hn2c) h02),
      hneg2, hpos2, ?_⟩
    rw [evaluate_ret_of_neg _ _ _ _ _ _ hn, evaluate_ret_of_pos _ _ _ _ _ _ hn2c,
      hu_i2, hu_j2, hneg2, hvol]
    simp only [hmv, Matrix.add_mulVec, Pi.add_apply]
    constructor
    · intro h kk
      have := h kk
      have h3 := mul_right_cancel₀ hvol0 (this.trans (neg_mul _ _).symm)
      linarith
    · intro h kk
      have := h kk
      rw [← neg_mul]
      congr 1
      linarith

end GodunovNumericalCouplingFlux

namespace GodunovNumericalCouplingFlux

variable {P : Type} {dimDomain dimRange : ℕ}

/-- Instance of the amended C3 on the sample data: flux `2·u` along axis 1, states `2` and
`1`, normal `(0, 1)` and then `(0, -1)`, volume `1`. -/
theorem evaluate_upwind_symmetry_iff_witness :
    ∃ ret ret2 st2,
      evaluate (sample_env false) ⟨sample_flux, false⟩ (Statics.initial 2 1)
        (sample_source 2) (sample_source 1) (sample_intersection 0 1 1) ()
          = .ok (ret, sample_statics false 2 1) ∧
      evaluate (sample_env false) ⟨sample_flux, false⟩ (sample_statics false 2 1)
        (sample_source 1) (sample_source 2) (sample_intersection 0 (-1) 1) ()
          = .ok (ret2, st2) ∧
      st2.jacobian_neg_ = (sample_statics false 2 1).jacobian_neg_ ∧
      st2.jacobian_pos_ = (sample_statics false 2 1).jacobian_pos_ ∧
      ((∀ kk, ret kk = -ret2 kk) ↔
        ∀ kk, sample_flux.evaluate (fun _ => 2) kk 1 - sample_flux.evaluate (fun _ => 1) kk 1
          = ((sample_statics false 2 1).jacobian_neg_ 1
              + (sample_statics false 2 1).jacobian_pos_ 1).mulVec
                ((fun _ => 2) - (fun _ => 1)) kk) :=
  evaluate_upwind_symmetry_iff (sample_env false) (sample_env_exact false)
    ⟨sample_flux, false⟩ (Statics.initial 2 1) (sample_statics false 2 1)
    (sample_source 2) (sample_source 1) (sample_intersection 0 1 1) ()
    (sample_source 1) (sample_source 2) (sample_intersection 0 (-1) 1) ()
    (fun _ => 2) (fun _ => 1) 1 rfl rfl rfl rfl (sample_evaluate_jacobians false 2 1)
    (Or.inl rfl) (sample_normal_zero 0 1 1 1 (Or.inr ⟨rfl, rfl⟩))
    (by intro ii; fin_cases ii <;> simp [sample_intersection])
    rfl (by simp [sample_intersection])

/-- C3 fails as stated. Flux `u³` along axis 0, nonlinear mode, `u_i = 2`, `u_j = 0`, volume
`1`: the split at the mean state `1` has `jacobian_neg_[0] = 0`, `jacobian_pos_[0] = 3`.
`evaluate(u_i, u_j, (1, 0))` returns `8`, `evaluate(u_j, u_i, (-1, 0))` returns `-6`. -/
theorem evaluate_upwind_symmetry_counterexample :
    ∃ ret ret2 st1 st2,
      evaluate (sample_env false) ⟨sample_flux, false⟩ (Statics.initial 2 1)
        (sample_source 2) (sample_source 0) (sample_intersection 1 0 1) () = .ok (ret, st1) ∧
      evaluate (sample_env false) ⟨sample_flux, false⟩ st1
        (sample_source 0) (sample_source 2) (sample_intersection (-1) 0 1) ()
          = .ok (ret2, st2) ∧
      ret 0 = 8 ∧ -ret2 0 = 6 := by
  refine ⟨_, _, _, _,
    evaluate_eq (sample_env false) ⟨sample_flux, false⟩ (Statics.initial 2 1)
      (sample_statics false 2 0) (sample_source 2) (sample_source 0)
      (sample_intersection 1 0 1) () 0 (sample_evaluate_jacobians false 2 0)
      (evaluate_direction_exact _ (sample_env_exact false) _ 0 (Or.inl rfl)
        (sample_normal_zero 1 0 1 0 (Or.inl ⟨rfl, rfl⟩))),
    evaluate_eq (sample_env false) ⟨sample_flux, false⟩ (sample_statics false 2 0) _
      (sample_source 0) (sample_source 2)
      (sample_intersection (-1) 0 1) () 0
      (sample_evaluate_jacobians_from false (sample_statics false 2 0) 0 2)
      (evaluate_direction_exact _ (sample_env_exact false) _ 0 (Or.inr rfl)
        (sample_normal_zero (-1) 0 1 0 (Or.inl ⟨rfl, rfl⟩))), ?_, ?_⟩
  · rw [evaluate_ret_of_pos _ _ _ _ _ _ rfl]
    simp [sample_statics, sample_split_neg, sample_flux, sample_source, Matrix.mulVec,
      Matrix.dotProduct, sample_intersection]
    norm_num
  · rw [evaluate_ret_of_neg _ _ _ _ _ _ rfl]
    simp [sample_split_pos, sample_flux, sample_source, Matrix.mulVec,
      Matrix.dotProduct, sample_intersection]
    norm_num

/-- C4. Consistency: with `u_i = u_j = u` and an axis-aligned normal with aligned index
`coord`, `evaluate` returns `normal[coord] · f(u)[kk][coord] · face measure` for every
component `kk`, on the branch `normal[coord] = +1` and on the branch `normal[coord] = -1`,
whatever the split `st1` in use. -/
theorem evaluate_consistency [NeZero dimDomain] (env : Env dimRange)
    (hcmp : FloatCmp_exact env) (self : GodunovNumericalCouplingFlux dimDomain dimRange)
    (st st1 : Statics dimDomain dimRange)
    (local_source_entity local_source_neighbor : P → RangeType dimRange)
    (intersection : Intersection P dimDomain) (x_intersection : P)
    (u : RangeType dimRange) (coord : Fin dimDomain)
    (hu_i : local_source_entity (intersection.geometryInInside_global x_intersection) = u)
    (hu_j : local_source_neighbor (intersection.geometryInOutside_global x_intersection) = u)
    (hsplit : evaluate_jacobians env self st u u = .ok st1)
    (hn : intersection.unitOuterNormal x_intersection coord = 1 ∨
      intersection.unitOuterNormal x_intersection coord = -1)
    (h0 : ∀ ii, ii ≠ coord → intersection.unitOuterNormal x_intersection ii = 0) :
    evaluate env self st local_source_entity local_source_neighbor intersection x_intersection
      = .ok (fun kk => intersection.unitOuterNormal x_intersection coord
            * self.analytical_flux_.evaluate u kk coord * intersection.geometry_volume,
          st1) := by
  have hsplit2 : evaluate_jacobians env self st
      (local_source_entity (intersection.geometryInInside_global x_intersection))
      (local_source_neighbor (intersection.geometryInOutside_global x_intersection))
        = .ok st1 := by
    rw [hu_i, hu_j]
    exact hsplit
  rw [evaluate_eq env self st st1 _ _ _ _ coord hsplit2
    (evaluate_direction_exact env hcmp _ coord hn h0), hu_i, hu_j]
  rcases hn with hn | hn
  · rw [evaluate_ret_of_pos _ _ _ _ _ _ hn, hn]
    simp
  · rw [evaluate_ret_of_neg _ _ _ _ _ _ hn, hn]
    simp

/-- Instance of C4 on the sample data: both states `2`, normal `(-1, 0)`, volume `1`. -/
theorem evaluate_consistency_witness :
    evaluate (sample_env false) ⟨sample_flux, false⟩ (Statics.initial 2 1)
        (sample_source 2) (sample_source 2) (sample_intersection (-1) 0 1) ()
      = .ok (fun kk => (-1) * sample_flux.evaluate (fun _ => 2) kk 0 * 1,
          sample_statics false 2 2) :=
  evaluate_consistency (sample_env false) (sample_env_exact false) ⟨sample_flux, false⟩
    (Statics.initial 2 1) (sample_statics false 2 2) (sample_source 2) (sample_source 2)
    (sample_intersection (-1) 0 1) () (fun _ => 2) 0 rfl rfl
    (sample_evaluate_jacobians false 2 2) (Or.inr rfl)
    (sample_normal_zero (-1) 0 1 0 (Or.inl ⟨rfl, rfl⟩))

end GodunovNumericalCouplingFlux

theorem oblique_is_axis {dimDomain dimRange : ℕ} (env : Env dimRange)
    (n_ij : Fin dimDomain → ℚ) (h : oblique env n_ij) :
    ∃ ii, is_axis env (n_ij ii) = false ∧ env.FloatCmp_eq (n_ij ii) 0 = false := by
  obtain ⟨ii, h1, h2, h3⟩ := h
  exact ⟨ii, by simp [is_axis, h1, h2], h3⟩

theorem evaluate_ret_aligned {dimDomain dimRange : ℕ} (st : Statics dimDomain dimRange)
    (f_u_i : Matrix (Fin dimRange) (Fin dimDomain) ℚ) (delta_u : RangeType dimRange)
    (n_ij : Fin dimDomain → ℚ) (coord : Fin dimDomain) (vol : ℚ) :
    GodunovNumericalCouplingFlux.evaluate_ret st f_u_i delta_u n_ij coord vol =
      fun kk => ((if n_ij coord > 0 then f_u_i kk coord else -f_u_i kk coord)
        - (if n_ij coord > 0 then st.jacobian_neg_ coord else st.jacobian_pos_ coord).mulVec
            delta_u kk * n_ij coord) * vol := by
  unfold GodunovNumericalCouplingFlux.evaluate_ret
  by_cases h : n_ij coord > 0
  · simp only [if_pos h]
  · simp only [if_neg h]

namespace GodunovNumericalCouplingFlux

variable {P : Type} {dimDomain dimRange : ℕ}

/-- C5. Axis selection: for every `dimDomain` and every normal with exactly one component
`c` equal to `+1` or `-1` and all others `0`, the direction search ends with `coord = c`, and
the flux is built from column `c` of `f(u_i)` and from the split along axis `c` only. -/
theorem evaluate_axis_selection [NeZero dimDomain] (env : Env dimRange)
    (hcmp : FloatCmp_exact env) (self : GodunovNumericalCouplingFlux dimDomain dimRange)
    (st st1 : Statics dimDomain dimRange)
    (local_source_entity local_source_neighbor : P → RangeType dimRange)
    (intersection : Intersection P dimDomain) (x_intersection : P)
    (u_i u_j : RangeType dimRange) (c : Fin dimDomain)
    (hu_i : local_source_entity (intersection.geometryInInside_global x_intersection) = u_i)
    (hu_j : local_source_neighbor (intersection.geometryInOutside_global x_intersection) = u_j)
    (hsplit : evaluate_jacobians env self st u_i u_j = .ok st1)
    (hn : intersection.unitOuterNormal x_intersection c = 1 ∨
      intersection.unitOuterNormal x_intersection c = -1)
    (h0 : ∀ ii, ii ≠ c → intersection.unitOuterNormal x_intersection ii = 0) :
    evaluate_direction env (intersection.unitOuterNormal x_intersection) = .ok c ∧
    evaluate env self st local_source_entity local_source_neighbor intersection x_intersection
      = .ok (fun kk =>
          ((if intersection.unitOuterNormal x_intersection c > 0
              then self.analytical_flux_.evaluate u_i kk c
              else -self.analytical_flux_.evaluate u_i kk c)
            - (if intersection.unitOuterNormal x_intersection c > 0
                then st1.jacobian_neg_ c else st1.jacobian_pos_ c).mulVec (u_i - u_j) kk
              * intersection.unitOuterNormal x_intersection c)
            * intersection.geometry_volume,
          st1) := by
  subst hu_i hu_j
  have hdir := evaluate_direction_exact env hcmp _ c hn h0
  refine ⟨hdir, ?_⟩
  rw [evaluate_eq env self st st1 _ _ _ _ c hsplit hdir, evaluate_ret_aligned]

/-- Instance of C5 on the sample data: normal `(0, -1)`, so `c = 1`. -/
theorem evaluate_axis_selection_witness :
    evaluate_direction (sample_env false)
        ((sample_intersection 0 (-1) 1).unitOuterNormal ()) = .ok 1 ∧
    evaluate (sample_env false) ⟨sample_flux, false⟩ (Statics.initial 2 1)
        (sample_source 2) (sample_source 1) (sample_intersection 0 (-1) 1) ()
      = .ok (fun kk =>
          ((if (sample_intersection 0 (-1) 1).unitOuterNormal () 1 > 0
              then sample_flux.evaluate (fun _ => 2) kk 1
              else -sample_flux.evaluate (fun _ => 2) kk 1)
            - (if (sample_intersection 0 (-1) 1).unitOuterNormal () 1 > 0
                then (sample_statics false 2 1).jacobian_neg_ 1
                else (sample_statics false 2 1).jacobian_pos_ 1).mulVec
                  ((fun _ => 2) - (fun _ => 1)) kk
              * (sample_intersection 0 (-1) 1).unitOuterNormal () 1)
            * 1,
          sample_statics false 2 1) :=
  evaluate_axis_selection (sample_env false) (sample_env_exact false) ⟨sample_flux, false⟩
    (Statics.initial 2 1) (sample_statics false 2 1) (sample_source 2) (sample_source 1)
    (sample_intersection 0 (-1) 1) () (fun _ => 2) (fun _ => 1) 1 rfl rfl
    (sample_evaluate_jacobians false 2 1) (Or.inr rfl)
    (sample_normal_zero 0 (-1) 1 1 (Or.inr ⟨rfl, rfl⟩))

end GodunovNumericalCouplingFlux

/-- C6, as the code has it. When the normal has a component that is none of `0`, `+1`, `-1`
within the comparison tolerance, `evaluate` of the interior and of the boundary evaluator of
general `dimDomain` returns no flux. The split is recomputed (lines 138-140, 499-501) before
the normal is looked at. The call ends with the exception `Dune::NotImplemented` whenever it
reaches the direction search: always in linear mode, and in nonlinear mode when the
assertions of the recomputation pass or are compiled out. In nonlinear mode with assertions
enabled and a solver output that fails one of them, the call ends on that failed assertion.
The boundary evaluator reads the normal at `localPoint` (line 505). -/
theorem evaluate_oblique_normal {E P : Type} {dimDomain dimRange : ℕ} [NeZero dimDomain]
    (env : Env dimRange)
    (self : GodunovNumericalCouplingFlux dimDomain dimRange)
    (selfB : GodunovNumericalBoundaryFlux E P dimDomain dimRange)
    (st stB : Statics dimDomain dimRange)
    (local_source_entity local_source_neighbor local_functions_tuple : P → RangeType dimRange)
    (intersection : Intersection P dimDomain) (x_intersection localPoint : P)
    (hob : oblique env (intersection.unitOuterNormal x_intersection))
    (hobB : oblique env (intersection.unitOuterNormal localPoint)) :
    (∀ r, GodunovNumericalCouplingFlux.evaluate env self st local_source_entity
        local_source_neighbor intersection x_intersection ≠ .ok r) ∧
    (∀ r, GodunovNumericalBoundaryFlux.evaluate env selfB stB local_functions_tuple
        local_source_entity intersection x_intersection localPoint ≠ .ok r) ∧
    ((∃ st1, GodunovNumericalCouplingFlux.evaluate_jacobians env self st
        (local_source_entity (intersection.geometryInInside_global x_intersection))
        (local_source_neighbor (intersection.geometryInOutside_global x_intersection))
          = .ok st1) →
      GodunovNumericalCouplingFlux.evaluate env self st local_source_entity
        local_source_neighbor intersection x_intersection = .error .NotImplemented) ∧
    ((∃ st1, GodunovNumericalBoundaryFlux.evaluate_jacobians env selfB stB
        (local_source_entity (intersection.geometryInInside_global
          (intersection.geometryInInside_global x_intersection)))
        (local_functions_tuple (intersection.geometryInInside_global x_intersection))
          = .ok st1) →
      GodunovNumericalBoundaryFlux.evaluate env selfB stB local_functions_tuple
        local_source_entity intersection x_intersection localPoint
          = .error .NotImplemented) ∧
    ((self.is_linear_ = true ∨ env.NDEBUG = true ∨
        ∀ ii, solver_accepts env (self.analytical_flux_.jacobian (fun kk =>
          (local_source_entity (intersection.geometryInInside_global x_intersection) kk
            + local_source_neighbor (intersection.geometryInOutside_global x_intersection) kk)
            * (1 / 2)) ii)) →
      GodunovNumericalCouplingFlux.evaluate env self st local_source_entity
        local_source_neighbor intersection x_intersection = .error .NotImplemented) ∧
    (self.is_linear_ = false → env.NDEBUG = false →
      (∃ ii, ¬ solver_accepts env (self.analytical_flux_.jacobian (fun kk =>
          (local_source_entity (intersection.geometryInInside_global x_intersection) kk
            + local_source_neighbor (intersection.geometryInOutside_global x_intersection) kk)
            * (1 / 2)) ii)) →
      GodunovNumericalCouplingFlux.evaluate env self st local_source_entity
        local_source_neighbor intersection x_intersection = .error .AssertionFailed) ∧
    ((selfB.is_linear_ = true ∨ env.NDEBUG = true ∨
        ∀ ii, solver_accepts env (selfB.analytical_flux_.jacobian (fun kk =>
          (local_source_entity (intersection.geometryInInside_global
              (intersection.geometryInInside_global x_intersection)) kk
            + local_functions_tuple (intersection.geometryInInside_global x_intersection) kk)
            * (1 / 2)) ii)) →
      GodunovNumericalBoundaryFlux.evaluate env selfB stB local_functions_tuple
        local_source_entity intersection x_intersection localPoint
          = .error .NotImplemented) ∧
    (selfB.is_linear_ = false → env.NDEBUG = false →
      (∃ ii, ¬ solver_accepts env (selfB.analytical_flux_.jacobian (fun kk =>
          (local_source_entity (intersection.geometryInInside_global
              (intersection.geometryInInside_global x_intersection)) kk
            + local_functions_tuple (intersection.geometryInInside_global x_intersection) kk)
            * (1 / 2)) ii)) →
      GodunovNumericalBoundaryFlux.evaluate env selfB stB local_functions_tuple
        local_source_entity intersection x_intersection localPoint
          = .error .AssertionFailed) := by
  have hdir := evaluate_direction_oblique env _ (oblique_is_axis env _ hob)
  have hdirB := evaluate_direction_oblique env _ (oblique_is_axis env _ hobB)
  have h3 : (∃ st1, GodunovNumericalCouplingFlux.evaluate_jacobians env self st
        (local_source_entity (intersection.geometryInInside_global x_intersection))
        (local_source_neighbor (intersection.geometryInOutside_global x_intersection))
          = .ok st1) →
      GodunovNumericalCouplingFlux.evaluate env self st local_source_entity
        local_source_neighbor intersection x_intersection = .error .NotImplemented :=
    fun ⟨st1, hsplit⟩ =>
      GodunovNumericalCouplingFlux.evaluate_direction_error env self st st1 _ _ _ _ _
        hsplit hdir
  have h4 : (∃ st1, GodunovNumericalBoundaryFlux.evaluate_jacobians env selfB stB
        (local_source_entity (intersection.geometryInInside_global
          (intersection.geometryInInside_global x_intersection)))
        (local_functions_tuple (intersection.geometryInInside_global x_intersection))
          = .ok st1) →
      GodunovNumericalBoundaryFlux.evaluate env selfB stB local_functions_tuple
        local_source_entity intersection x_intersection localPoint
          = .error .NotImplemented :=
    fun ⟨st1, hsplit⟩ =>
      GodunovNumericalBoundaryFlux.boundary_evaluate_direction_error env selfB stB st1 _ _ _ _ _ _
        hsplit hdirB
  refine ⟨?_, ?_, h3, h4, ?_, ?_, ?_, ?_⟩
  · intro r hr
    cases hj : GodunovNumericalCouplingFlux.evaluate_jacobians env self st
        (local_source_entity (intersection.geometryInInside_global x_intersection))
        (local_source_neighbor (intersection.geometryInOutside_global x_intersection)) with
    | error e =>
      rw [GodunovNumericalCouplingFlux.evaluate_jacobians_error env self st _ _ _ _ e hj] at hr
      exact Except.noConfusion hr
    | ok st1 =>
      rw [h3 ⟨st1, hj⟩] at hr
      exact Except.noConfusion hr
  · intro r hr
    cases hj : GodunovNumericalBoundaryFlux.evaluate_jacobians env selfB stB
        (local_source_entity (intersection.geometryInInside_global
          (intersection.geometryInInside_global x_intersection)))
        (local_functions_tuple (intersection.geometryInInside_global x_intersection)) with
    | error e =>
      rw [GodunovNumericalBoundaryFlux.boundary_evaluate_jacobians_error env selfB stB _ _ _ _
        _ e hj] at hr
      exact Except.noConfusion hr
    | ok st1 =>
      rw [h4 ⟨st1, hj⟩] at hr
      exact Except.noConfusion hr
  · intro hacc
    apply h3
    unfold GodunovNumericalCouplingFlux.evaluate_jacobians
    cases hlin : self.is_linear_
    · simp only [Bool.not_false, if_true]
      have h : env.NDEBUG = true ∨ ∀ ii, solver_accepts env
          (self.analytical_flux_.jacobian (fun kk =>
            (local_source_entity (intersection.geometryInInside_global x_intersection) kk
              + local_source_neighbor
                  (intersection.geometryInOutside_global x_intersection) kk)
              * (1 / 2)) ii) := by
        rcases hacc with h | h
        · rw [hlin] at h
          exact absurd h (by simp)
        · exact h
      exact ⟨_, reinitialize_jacobians_ok env self st _ _ h⟩
    · simp only [Bool.not_true, Bool.false_eq_true, if_false]
      exact ⟨st, rfl⟩
  · intro hlin hN hbad
    apply GodunovNumericalCouplingFlux.evaluate_jacobians_error
    unfold GodunovNumericalCouplingFlux.evaluate_jacobians
      GodunovNumericalCouplingFlux.reinitialize_jacobians
    simp only [hlin, Bool.not_false, if_true]
    exact calculate_jacobians_fail env _ _ hN hbad
  · intro hacc
    apply h4
    unfold GodunovNumericalBoundaryFlux.evaluate_jacobians
    cases hlin : selfB.is_linear_
    · simp only [Bool.not_false, if_true]
      have h : env.NDEBUG = true ∨ ∀ ii, solver_accepts env
          (selfB.analytical_flux_.jacobian (fun kk =>
            (local_source_entity (intersection.geometryInInside_global
                (intersection.geometryInInside_global x_intersection)) kk
              + local_functions_tuple
                  (intersection.geometryInInside_global x_intersection) kk)
              * (1 / 2)) ii) := by
        rcases hacc with h | h
        · rw [hlin] at h
          exact absurd h (by simp)
        · exact h
      unfold GodunovNumericalBoundaryFlux.reinitialize_jacobians
      exact ⟨_, calculate_jacobians_ok env _ _ h⟩
    · simp only [Bool.not_true, Bool.false_eq_true, if_false]
      exact ⟨stB, rfl⟩
  · intro hlin hN hbad
    apply GodunovNumericalBoundaryFlux.boundary_evaluate_jacobians_error
    unfold GodunovNumericalBoundaryFlux.evaluate_jacobians
      GodunovNumericalBoundaryFlux.reinitialize_jacobians
    simp only [hlin, Bool.not_false, if_true]
    exact calculate_jacobians_fail env _ _ hN hbad

theorem sample_oblique (NDEBUG : Bool) (n1 vol : ℚ) :
    oblique (sample_env NDEBUG) ((sample_intersection (1 / 2) n1 vol).unitOuterNormal ()) := by
  refine ⟨0, ?_, ?_, ?_⟩ <;> simp [sample_env, FloatCmp_numpy, sample_intersection] <;>
    norm_num [abs_of_nonneg, abs_of_neg]

theorem sample_boundary_evaluate_jacobians (NDEBUG : Bool) (u_i u_j : RangeType 1) :
    ∃ st1, GodunovNumericalBoundaryFlux.evaluate_jacobians (sample_env NDEBUG)
      sample_boundary_flux (Statics.initial 2 1) u_i u_j = .ok st1 := by
  unfold GodunovNumericalBoundaryFlux.evaluate_jacobians
    GodunovNumericalBoundaryFlux.reinitialize_jacobians
  simp only [sample_boundary_flux, Bool.not_false, if_true]
  rw [calculate_jacobians_ok _ _ _ (Or.inr fun ii => sample_env_accepts NDEBUG _)]
  exact ⟨_, rfl⟩

/-- Instance of the amended C6 on the sample data: normal `(1/2, 0)`, nonlinear mode, a
solver whose output passes the assertions. -/
theorem evaluate_oblique_normal_witness :
    GodunovNumericalCouplingFlux.evaluate (sample_env false) ⟨sample_flux, false⟩
        (Statics.initial 2 1) (sample_source 2) (sample_source 1)
        (sample_intersection (1 / 2) 0 1) () = .error .NotImplemented ∧
    GodunovNumericalBoundaryFlux.evaluate (sample_env false) sample_boundary_flux
        (Statics.initial 2 1) (sample_boundary_flux.localFunctions ()) (sample_source 2)
        (sample_intersection (1 / 2) 0 1) () () = .error .NotImplemented :=
  ⟨(evaluate_oblique_normal (sample_env false) ⟨sample_flux, false⟩ sample_boundary_flux
      (Statics.initial 2 1) (Statics.initial 2 1) (sample_source 2) (sample_source 1)
      (sample_boundary_flux.localFunctions ()) (sample_intersection (1 / 2) 0 1) () ()
      (sample_oblique false 0 1) (sample_oblique false 0 1)).2.2.2.2.1
        (Or.inr (Or.inr fun _ => sample_env_accepts false _)),
   (evaluate_oblique_normal (sample_env false) ⟨sample_flux, false⟩ sample_boundary_flux
      (Statics.initial 2 1) (Statics.initial 2 1) (sample_source 2) (sample_source 1)
      (sample_boundary_flux.localFunctions ()) (sample_intersection (1 / 2) 0 1) () ()
      (sample_oblique false 0 1) (sample_oblique false 0 1)).2.2.2.2.2.2.1
        (Or.inr (Or.inr fun _ => sample_env_accepts false _))⟩

theorem countP_is_axis_exact {dimDomain dimRange : ℕ} (env : Env dimRange)
    (hcmp : FloatCmp_exact env) (n_ij : Fin dimDomain → ℚ)
    (hcomp : ∀ ii, n_ij ii = 0 ∨ n_ij ii = 1 ∨ n_ij ii = -1) :
    (List.finRange dimDomain).countP (fun ii => is_axis env (n_ij ii)) =
      (List.finRange dimDomain).countP (fun ii => decide (n_ij ii = 1 ∨ n_ij ii = -1)) := by
  apply List.countP_congr
  intro ii _
  rw [(is_axis_of_exact env hcmp _ (hcomp ii)).1]
  simp

namespace GodunovNumericalCouplingFlux

variable {P : Type} {dimDomain dimRange : ℕ}

/-- C7, as the code has it. For a normal whose components are all `0`, `+1` or `-1` but
which is not axis-aligned (the number of components equal to `±1` is not one), the direction
search throws nothing. With assertions enabled `evaluate` ends on the failed assertion
`num_zeros == dimDomain - 1`; with `NDEBUG` defined it returns a flux, computed along the
last component equal to `±1` (along axis 0 when there is none). -/
theorem evaluate_degenerate_normal [NeZero dimDomain] (env : Env dimRange)
    (hcmp : FloatCmp_exact env) (self : GodunovNumericalCouplingFlux dimDomain dimRange)
    (st st1 : Statics dimDomain dimRange)
    (local_source_entity local_source_neighbor : P → RangeType dimRange)
    (intersection : Intersection P dimDomain) (x_intersection : P)
    (u_i u_j : RangeType dimRange)
    (hu_i : local_source_entity (intersection.geometryInInside_global x_intersection) = u_i)
    (hu_j : local_source_neighbor (intersection.geometryInOutside_global x_intersection) = u_j)
    (hsplit : evaluate_jacobians env self st u_i u_j = .ok st1)
    (hcomp : ∀ ii, intersection.unitOuterNormal x_intersection ii = 0 ∨
      intersection.unitOuterNormal x_intersection ii = 1 ∨
      intersection.unitOuterNormal x_intersection ii = -1)
    (hdeg : (List.finRange dimDomain).countP (fun ii =>
      decide (intersection.unitOuterNormal x_intersection ii = 1 ∨
        intersection.unitOuterNormal x_intersection ii = -1)) ≠ 1) :
    (env.NDEBUG = false →
      evaluate env self st local_source_entity local_source_neighbor intersection
        x_intersection = .error .AssertionFailed) ∧
    (env.NDEBUG = true →
      evaluate env self st local_source_entity local_source_neighbor intersection
        x_intersection
        = .ok (evaluate_ret st1 (self.analytical_flux_.evaluate u_i) (u_i - u_j)
            (intersection.unitOuterNormal x_intersection)
            (last_axis env (intersection.unitOuterNormal x_intersection)
              (List.finRange dimDomain) 0)
            intersection.geometry_volume, st1)) := by
  subst hu_i hu_j
  have hcl : ∀ ii, is_axis env (intersection.unitOuterNormal x_intersection ii) = true ∨
      env.FloatCmp_eq (intersection.unitOuterNormal x_intersection ii) 0 = true :=
    fun ii => (is_axis_of_exact env hcmp _ (hcomp ii)).2
  have hdir := evaluate_direction_classified env _ hcl
  rw [countP_is_axis_exact env hcmp _ hcomp] at hdir
  constructor
  · intro hN
    rw [if_pos ⟨hN, hdeg⟩] at hdir
    exact evaluate_direction_error env self st st1 _ _ _ _ _ hsplit hdir
  · intro hN
    rw [if_neg (by simp [hN])] at hdir
    exact evaluate_eq env self st st1 _ _ _ _ _ hsplit hdir

end GodunovNumericalCouplingFlux

theorem sample_is_axis (NDEBUG : Bool) :
    is_axis (sample_env NDEBUG) 1 = true ∧ is_axis (sample_env NDEBUG) (-1) = true ∧
      is_axis (sample_env NDEBUG) 0 = false := by
  have h := sample_env_exact NDEBUG
  refine ⟨?_, ?_, ?_⟩
  · simp [is_axis, h.one_one]
  · simp [is_axis, h.neg_neg]
  · simp [is_axis, h.zero_one, h.zero_neg]

theorem sample_direction_one_one (NDEBUG : Bool) (vol : ℚ) :
    GodunovNumericalCouplingFlux.evaluate_direction (sample_env NDEBUG)
      ((sample_intersection 1 1 vol).unitOuterNormal ()) =
      if NDEBUG = false then .error .AssertionFailed else .ok 1 := by
  rw [evaluate_direction_classified]
  · have hl : List.finRange 2 = [0, 1] := rfl
    have hN : (sample_env NDEBUG).NDEBUG = NDEBUG := rfl
    have ha := (sample_is_axis NDEBUG).1
    rw [hN, hl]
    cases NDEBUG <;> simp [last_axis, sample_intersection, ha]
  · intro ii
    fin_cases ii <;> simp [sample_intersection, (sample_is_axis NDEBUG).1]

namespace GodunovNumericalCouplingFlux

/-- Instance of the amended C7 on the sample data: the zero normal `(0, 0)`. -/
theorem evaluate_degenerate_normal_witness :
    evaluate (sample_env false) ⟨sample_flux, false⟩ (Statics.initial 2 1)
        (sample_source 2) (sample_source 1) (sample_intersection 0 0 1) ()
      = .error .AssertionFailed ∧
    evaluate (sample_env true) ⟨sample_flux, false⟩ (Statics.initial 2 1)
        (sample_source 2) (sample_source 1) (sample_intersection 0 0 1) ()
      = .ok (evaluate_ret (sample_statics true 2 1) (sample_flux.evaluate (fun _ => 2))
          ((fun _ => 2) - (fun _ => 1)) ((sample_intersection 0 0 1).unitOuterNormal ())
          (last_axis (sample_env true) ((sample_intersection 0 0 1).unitOuterNormal ())
            (List.finRange 2) 0) 1, sample_statics true 2 1) :=
  ⟨(evaluate_degenerate_normal (sample_env false) (sample_env_exact false)
      ⟨sample_flux, false⟩ (Statics.initial 2 1) (sample_statics false 2 1)
      (sample_source 2) (sample_source 1) (sample_intersection 0 0 1) ()
      (fun _ => 2) (fun _ => 1) rfl rfl (sample_evaluate_jacobians false 2 1)
      (by intro ii; fin_cases ii <;> simp [sample_intersection])
      (by
        have hl : List.finRange 2 = [0, 1] := rfl
        simp [hl, sample_intersection])).1 rfl,
   (evaluate_degenerate_normal (sample_env true) (sample_env_exact true)
      ⟨sample_flux, false⟩ (Statics.initial 2 1) (sample_statics true 2 1)
      (sample_source 2) (sample_source 1) (sample_intersection 0 0 1) ()
      (fun _ => 2) (fun _ => 1) rfl rfl (sample_evaluate_jacobians true 2 1)
      (by intro ii; fin_cases ii <;> simp [sample_intersection])
      (by
        have hl : List.finRange 2 = [0, 1] := rfl
        simp [hl, sample_intersection])).2 rfl⟩

/-- C7 fails as stated. Normal `(1, 1)`, flux `2·u` along axis 1, `u_i = 2`, `u_j = 1`,
volume `1`, nonlinear mode. With assertions enabled `evaluate` ends on the failed assertion,
not on `Dune::NotImplemented`; with `NDEBUG` defined it returns the flux `4`, computed along
axis 1. -/
theorem evaluate_degenerate_normal_counterexample :
    evaluate (sample_env false) ⟨sample_flux, false⟩ (Statics.initial 2 1)
        (sample_source 2) (sample_source 1) (sample_intersection 1 1 1) ()
      = .error .AssertionFailed ∧
    ∃ ret st1,
      evaluate (sample_env true) ⟨sample_flux, false⟩ (Statics.initial 2 1)
        (sample_source 2) (sample_source 1) (sample_intersection 1 1 1) () = .ok (ret, st1)
      ∧ ret 0 = 4 := by
  constructor
  · exact evaluate_direction_error (sample_env false) ⟨sample_flux, false⟩
      (Statics.initial 2 1) (sample_statics false 2 1) (sample_source 2) (sample_source 1)
      (sample_intersection 1 1 1) () _ (sample_evaluate_jacobians false 2 1)
      (sample_direction_one_one false 1)
  · refine ⟨_, _, evaluate_eq (sample_env true) ⟨sample_flux, false⟩
      (Statics.initial 2 1) (sample_statics true 2 1) (sample_source 2) (sample_source 1)
      (sample_intersection 1 1 1) () 1 (sample_evaluate_jacobians true 2 1)
      (sample_direction_one_one true 1), ?_⟩
    rw [evaluate_ret_of_pos _ _ _ _ _ _ rfl]
    simp [sample_statics, sample_split_neg, sample_flux, sample_source, Matrix.mulVec,
      Matrix.dotProduct, sample_intersection]
    norm_num

end GodunovNumericalCouplingFlux

/-! ## Claims C8 to C10: the splitter -/

theorem Cplx.re_sum {ι : Type} (s : Finset ι) (f : ι → Cplx) :
    (∑ i in s, f i).re = ∑ i in s, (f i).re :=
  map_sum (AddMonoidHom.mk' Cplx.re fun _ _ => rfl) f s

theorem Cplx.im_sum {ι : Type} (s : Finset ι) (f : ι → Cplx) :
    (∑ i in s, f i).im = ∑ i in s, (f i).im :=
  map_sum (AddMonoidHom.mk' Cplx.im fun _ _ => rfl) f s

theorem real_mul_of_real {n : ℕ} (A B : CMatrix n) (hA : ∀ i j, (A i j).im = 0) :
    real (A * B) = real A * real B := by
  ext i j
  simp [real, Matrix.mul_apply, Cplx.re_sum, hA]

theorem im_mul_of_real {n : ℕ} (A B : CMatrix n) (hA : ∀ i j, (A i j).im = 0)
    (hB : ∀ i j, (B i j).im = 0) (i j : Fin n) : ((A * B) i j).im = 0 := by
  simp [Matrix.mul_apply, Cplx.im_sum, hA, hB]

theorem real_diagonal {n : ℕ} (d : Fin n → Cplx) :
    real (Matrix.diagonal d) = Matrix.diagonal fun j => (d j).re := by
  ext i j
  by_cases hij : i = j
  · subst hij
    simp [real]
  · simp [real, hij]

theorem real_map_ofReal {n : ℕ} (J : RMatrix n) : real (J.map Cplx.ofReal) = J := by
  ext i j
  simp [real]

theorem D_neg_add_D_pos {n : ℕ} (eigenvalues : Fin n → Cplx) :
    D_neg eigenvalues + D_pos eigenvalues = Matrix.diagonal fun j => (eigenvalues j).re := by
  have hsum : (fun j => (if (eigenvalues j).re < 0 then (eigenvalues j).re else 0)
      + if 0 ≤ (eigenvalues j).re then (eigenvalues j).re else 0)
      = fun j => (eigenvalues j).re := by
    funext j
    by_cases h : (eigenvalues j).re < 0
    · rw [if_pos h, if_neg (not_le.2 h), add_zero]
    · rw [if_neg h, if_pos (not_lt.1 h), zero_add]
  unfold D_neg D_pos
  rw [Matrix.diagonal_add, hsum]

/-- The two parts of the split of a matrix add up to it when the solver's output is an
exact eigen-decomposition with real eigenvalues and real eigenvectors. -/
theorem split_neg_add_split_pos {n : ℕ} (env : Env n) (J : RMatrix n)
    (hreal : ∀ jj, ((env.eigen_solver J).eigenvalues jj).im = 0)
    (hvec : ∀ i j, ((env.eigen_solver J).eigenvectors i j).im = 0)
    (hdec : J.map Cplx.ofReal = (env.eigen_solver J).eigenvectors
      * Matrix.diagonal (env.eigen_solver J).eigenvalues
      * env.inverse (env.eigen_solver J).eigenvectors) :
    split_neg env J + split_pos env J = J := by
  have hdiag : ∀ i j, (Matrix.diagonal (env.eigen_solver J).eigenvalues i j).im = 0 := by
    intro i j
    by_cases hij : i = j
    · subst hij
      simp [hreal]
    · simp [hij]
  unfold split_neg split_pos
  rw [← Matrix.add_mul, ← Matrix.mul_add, D_neg_add_D_pos, ← real_diagonal,
    ← real_mul_of_real _ _ hvec,
    ← real_mul_of_real _ _ (im_mul_of_real _ _ hvec hdiag), ← hdec, real_map_ofReal]

/-- C8. Decomposition round trip: when, for every axis, the solver reports success and its
output is an exact eigen-decomposition `J = V · Λ · V⁻¹` of the Jacobian with real
eigenvalues (and the real eigenvectors that belong to them), the pair computed by
`calculate_jacobians` satisfies `jacobian_neg_[ii] + jacobian_pos_[ii] = J[ii]`. -/
theorem calculate_jacobians_round_trip {dimDomain dimRange : ℕ} (env : Env dimRange)
    (jacobian : Fin dimDomain → RMatrix dimRange) (st : Statics dimDomain dimRange)
    (hinfo : ∀ ii, (env.eigen_solver (jacobian ii)).info = ComputationInfo.Success)
    (hreal : ∀ ii jj, ((env.eigen_solver (jacobian ii)).eigenvalues jj).im = 0)
    (hvec : ∀ ii i j, ((env.eigen_solver (jacobian ii)).eigenvectors i j).im = 0)
    (hdec : ∀ ii, (jacobian ii).map Cplx.ofReal = (env.eigen_solver (jacobian ii)).eigenvectors
      * Matrix.diagonal (env.eigen_solver (jacobian ii)).eigenvalues
      * env.inverse (env.eigen_solver (jacobian ii)).eigenvectors) :
    ∃ st1, calculate_jacobians env jacobian st = .ok st1 ∧
      ∀ ii, st1.jacobian_neg_ ii + st1.jacobian_pos_ ii = jacobian ii := by
  have hacc : ∀ ii, solver_accepts env (jacobian ii) := by
    intro ii
    refine ⟨hinfo ii, fun jj => ?_⟩
    rw [hreal ii jj]
    norm_num
  refine ⟨_, calculate_jacobians_ok env jacobian st (Or.inr hacc), fun ii => ?_⟩
  exact split_neg_add_split_pos env (jacobian ii) (hreal ii) (hvec ii) (hdec ii)

/-- Instance of C8 on the sample data: the Jacobians `3` and `2` of the sample flux at the
state `1`. -/
theorem calculate_jacobians_round_trip_witness :
    ∃ st1, calculate_jacobians (sample_env false) (sample_flux.jacobian fun _ => 1)
        (Statics.initial 2 1) = .ok st1 ∧
      ∀ ii, st1.jacobian_neg_ ii + st1.jacobian_pos_ ii = sample_flux.jacobian (fun _ => 1) ii :=
  calculate_jacobians_round_trip (sample_env false) (sample_flux.jacobian fun _ => 1)
    (Statics.initial 2 1) (fun _ => rfl) (fun _ _ => rfl)
    (by intro ii i j; simp [sample_env, diagonal_eigen_solver, Matrix.one_apply]; split <;> rfl)
    (by
      intro ii
      ext i j
      · simp [sample_env, diagonal_eigen_solver, adjugate_inverse_one, Matrix.diagonal,
          Subsingleton.elim i j, Subsingleton.elim j 0]
      · simp [sample_env, diagonal_eigen_solver, adjugate_inverse_one, Matrix.diagonal,
          Subsingleton.elim i j])

/-- C9. Splitter definition: when the solver's output passes the assertions (or they are
compiled out), `calculate_jacobians` stores for every axis `ii`
`jacobian_neg_[ii] = Re(V) · D_neg · Re(V⁻¹)` and `jacobian_pos_[ii] = Re(V) · D_pos · Re(V⁻¹)`
(`split_neg`, `split_pos`), with `V` and `λ` the eigenvectors and eigenvalues returned for
`jacobian[ii]`, `D_neg[j,j] = λ_j` if `λ_j < 0` else `0` and `D_pos[j,j] = λ_j` if `λ_j ≥ 0`
else `0`. Every eigenvalue is in exactly one of the two diagonals, and the loop body puts an
eigenvalue equal to `0` into `diag_jacobian_pos_tmp`. -/
theorem calculate_jacobians_split {dimDomain dimRange : ℕ} (env : Env dimRange)
    (jacobian : Fin dimDomain → RMatrix dimRange) (st : Statics dimDomain dimRange)
    (h : env.NDEBUG = true ∨ ∀ ii, solver_accepts env (jacobian ii)) :
    calculate_jacobians env jacobian st =
      .ok ⟨fun ii =>
            real (env.eigen_solver (jacobian ii)).eigenvectors
              * D_neg (env.eigen_solver (jacobian ii)).eigenvalues
              * real (env.inverse (env.eigen_solver (jacobian ii)).eigenvectors),
          fun ii =>
            real (env.eigen_solver (jacobian ii)).eigenvectors
              * D_pos (env.eigen_solver (jacobian ii)).eigenvalues
              * real (env.inverse (env.eigen_solver (jacobian ii)).eigenvectors),
          st.jacobians_constructed_, st.jacobian_calls, st.eigen_solver_calls + dimDomain⟩ ∧
    (∀ (eigenvalues : Fin dimRange → Cplx) (j : Fin dimRange),
      ((eigenvalues j).re < 0 ∧ D_neg eigenvalues j j = (eigenvalues j).re ∧
          D_pos eigenvalues j j = 0) ∨
      (0 ≤ (eigenvalues j).re ∧ D_neg eigenvalues j j = 0 ∧
          D_pos eigenvalues j j = (eigenvalues j).re)) ∧
    (∀ (eigenvalues : Fin dimRange → Cplx) (diag : DiagTmp dimRange) (jj : Fin dimRange),
      (env.NDEBUG = true ∨ |(eigenvalues jj).im| < 1 / 10 ^ 15) → (eigenvalues jj).re = 0 →
      calculate_jacobians_jj env eigenvalues diag jj =
        .ok ⟨set_entry diag.diag_jacobian_pos_tmp jj jj 0, diag.diag_jacobian_neg_tmp⟩) := by
  refine ⟨calculate_jacobians_ok env jacobian st h, ?_, ?_⟩
  · intro eigenvalues j
    by_cases hneg : (eigenvalues j).re < 0
    · left
      simp [D_neg, D_pos, hneg, not_le.2 hneg]
    · right
      simp [D_neg, D_pos, hneg, not_lt.1 hneg]
  · intro eigenvalues diag jj hjj hzero
    rw [calculate_jacobians_jj_ok env eigenvalues diag jj hjj, hzero, if_neg (lt_irrefl 0)]

/-- Instance of C9 on the sample data: the Jacobians of the sample flux at the state `1`. -/
theorem calculate_jacobians_split_witness :
    calculate_jacobians (sample_env false) (sample_flux.jacobian fun _ => 1)
        (Statics.initial 2 1) =
      .ok ⟨fun ii =>
            real ((sample_env false).eigen_solver
                (sample_flux.jacobian (fun _ => 1) ii)).eigenvectors
              * D_neg ((sample_env false).eigen_solver
                  (sample_flux.jacobian (fun _ => 1) ii)).eigenvalues
              * real ((sample_env false).inverse ((sample_env false).eigen_solver
                  (sample_flux.jacobian (fun _ => 1) ii)).eigenvectors),
          fun ii =>
            real ((sample_env false).eigen_solver
                (sample_flux.jacobian (fun _ => 1) ii)).eigenvectors
              * D_pos ((sample_env false).eigen_solver
                  (sample_flux.jacobian (fun _ => 1) ii)).eigenvalues
              * real ((sample_env false).inverse ((sample_env false).eigen_solver
                  (sample_flux.jacobian (fun _ => 1) ii)).eigenvectors),
          false, [], 0 + 2⟩ :=
  (calculate_jacobians_split (sample_env false) (sample_flux.jacobian fun _ => 1)
    (Statics.initial 2 1) (Or.inr fun _ => sample_env_accepts false _)).1

/-- C10, as the code has it. With assertions enabled (`NDEBUG` not defined),
`calculate_jacobians` ends on a failed assertion, storing nothing, exactly when for some axis
the solver does not report success or some eigenvalue has an imaginary part that is not
below `1e-15` in absolute value; otherwise it succeeds and stores the split of every axis. -/
theorem calculate_jacobians_assertions {dimDomain dimRange : ℕ} (env : Env dimRange)
    (jacobian : Fin dimDomain → RMatrix dimRange) (st : Statics dimDomain dimRange)
    (hN : env.NDEBUG = false) :
    ((∃ ii, (env.eigen_solver (jacobian ii)).info ≠ ComputationInfo.Success ∨
        ∃ jj, ¬ |((env.eigen_solver (jacobian ii)).eigenvalues jj).im| < 1 / 10 ^ 15) →
      calculate_jacobians env jacobian st = .error .AssertionFailed) ∧
    ((∀ ii, (env.eigen_solver (jacobian ii)).info = ComputationInfo.Success ∧
        ∀ jj, |((env.eigen_solver (jacobian ii)).eigenvalues jj).im| < 1 / 10 ^ 15) →
      calculate_jacobians env jacobian st =
        .ok ⟨fun ii => split_neg env (jacobian ii), fun ii => split_pos env (jacobian ii),
          st.jacobians_constructed_, st.jacobian_calls, st.eigen_solver_calls + dimDomain⟩) := by
  constructor
  · rintro ⟨ii, hbad⟩
    apply calculate_jacobians_fail env jacobian st hN ⟨ii, ?_⟩
    rintro ⟨hinfo, him⟩
    rcases hbad with hbad | ⟨jj, hjj⟩
    · exact hbad hinfo
    · exact hjj (him jj)
  · intro hall
    exact calculate_jacobians_ok env jacobian st (Or.inr hall)

theorem faulty_env_not_accepts (NDEBUG : Bool) (info : ComputationInfo) (im : ℚ)
    (J : RMatrix 1) (h : info ≠ ComputationInfo.Success ∨ ¬ |im| < 1 / 10 ^ 15) :
    ((faulty_env NDEBUG info im).eigen_solver J).info ≠ ComputationInfo.Success ∨
      ∃ jj, ¬ |(((faulty_env NDEBUG info im).eigen_solver J).eigenvalues jj).im|
        < 1 / 10 ^ 15 := by
  rcases h with h | h
  · exact Or.inl h
  · exact Or.inr ⟨0, h⟩

/-- Instance of the amended C10: with assertions enabled, a solver that reports
`NoConvergence` and a solver that returns the eigenvalue `3 + i` make `calculate_jacobians`
end on a failed assertion; the solver of the sample environment makes it succeed. -/
theorem calculate_jacobians_assertions_witness :
    calculate_jacobians (faulty_env false ComputationInfo.NoConvergence 0)
        (sample_flux.jacobian fun _ => 1) (Statics.initial 2 1) = .error .AssertionFailed ∧
    calculate_jacobians (faulty_env false ComputationInfo.Success 1)
        (sample_flux.jacobian fun _ => 1) (Statics.initial 2 1) = .error .AssertionFailed ∧
    calculate_jacobians (sample_env false) (sample_flux.jacobian fun _ => 1)
        (Statics.initial 2 1) =
      .ok ⟨fun ii => split_neg (sample_env false) (sample_flux.jacobian (fun _ => 1) ii),
        fun ii => split_pos (sample_env false) (sample_flux.jacobian (fun _ => 1) ii),
        false, [], 0 + 2⟩ :=
  ⟨(calculate_jacobians_assertions (faulty_env false ComputationInfo.NoConvergence 0)
      (sample_flux.jacobian fun _ => 1) (Statics.initial 2 1) rfl).1
      ⟨0, faulty_env_not_accepts false _ _ _ (Or.inl (by decide))⟩,
   (calculate_jacobians_assertions (faulty_env false ComputationInfo.Success 1)
      (sample_flux.jacobian fun _ => 1) (Statics.initial 2 1) rfl).1
      ⟨0, faulty_env_not_accepts false _ _ _ (Or.inr (by norm_num))⟩,
   (calculate_jacobians_assertions (sample_env false)
      (sample_flux.jacobian fun _ => 1) (Statics.initial 2 1) rfl).2
      (fun _ => sample_env_accepts false _)⟩

/-- C10 fails as stated. With `NDEBUG` defined the assertions are compiled out: for a solver
that reports `NoConvergence` and for a solver that returns the eigenvalue `3 + i`,
`calculate_jacobians` completes and stores a split. -/
theorem calculate_jacobians_assertions_counterexample :
    (∃ st1, calculate_jacobians (faulty_env true ComputationInfo.NoConvergence 0)
        (sample_flux.jacobian fun _ => 1) (Statics.initial 2 1) = .ok st1) ∧
    (∃ st1, calculate_jacobians (faulty_env true ComputationInfo.Success 1)
        (sample_flux.jacobian fun _ => 1) (Statics.initial 2 1) = .ok st1 ∧
        st1.jacobian_pos_ 0 = Matrix.of fun _ _ => 3) := by
  refine ⟨⟨_, calculate_jacobians_ok _ _ _ (Or.inl rfl)⟩,
    ⟨_, calculate_jacobians_ok _ _ _ (Or.inl rfl), ?_⟩⟩
  ext i j
  have hij : i = j := Subsingleton.elim _ _
  subst hij
  simp [split_pos, faulty_env, real_one, adjugate_inverse_one, D_pos, sample_flux]

/-! ### The splitter of the specialisation for `dimDomain = 1` -/

namespace GodunovNumericalCouplingFlux_1

variable {P : Type} {dimRange : ℕ}

theorem calculate_jacobians_store_store (PAPERFLUX : Bool) (st : Statics_1 dimRange)
    (A B C D : RMatrix dimRange) :
    calculate_jacobians_store PAPERFLUX (calculate_jacobians_store PAPERFLUX st A B) C D
      = calculate_jacobians_store PAPERFLUX st C D := by
  cases PAPERFLUX <;> rfl

theorem calculate_jacobians_store_empty (PAPERFLUX : Bool) (st : Statics_1 dimRange)
    (A B : RMatrix dimRange) (h : dimRange = 0) :
    calculate_jacobians_store PAPERFLUX st A B = st := by
  subst h
  cases PAPERFLUX <;>
    (ext <;> first | rfl | exact Subsingleton.elim _ _ | exact (Fin.elim0 ‹Fin 0›))

/-- A pass of the loop of lines 380-404 updates the two diagonal temporaries as a pass of
the loop of lines 219-227 does, and stores the split built from them. -/
theorem calculate_jacobians_jj_eq (env : Env dimRange) (PAPERFLUX : Bool)
    (eigenvalues : Fin dimRange → Cplx) (eigenvectors : CMatrix dimRange)
    (diag : DiagTmp dimRange) (st : Statics_1 dimRange) (jj : Fin dimRange) :
    calculate_jacobians_jj env PAPERFLUX eigenvalues eigenvectors (diag, st) jj =
      match Dune.GDT.calculate_jacobians_jj env eigenvalues diag jj with
      | .error e => .error e
      | .ok diag1 =>
        .ok (diag1, calculate_jacobians_store PAPERFLUX st
          (real eigenvectors * diag1.diag_jacobian_neg_tmp * real (env.inverse eigenvectors))
          (real eigenvectors * diag1.diag_jacobian_pos_tmp * real (env.inverse eigenvectors))) := by
  unfold calculate_jacobians_jj Dune.GDT.calculate_jacobians_jj
  by_cases hc : (!env.NDEBUG && !decide (|(eigenvalues jj).im| < 1 / 10 ^ 15)) = true
  · simp only [hc, if_true]
  · simp only [hc, Bool.false_eq_true, if_false]
    by_cases hneg : (eigenvalues jj).re < 0
    · simp only [hneg, if_true]
    · simp only [hneg, if_false]

theorem for_loop_jj_eq (env : Env dimRange) (PAPERFLUX : Bool)
    (eigenvalues : Fin dimRange → Cplx) (eigenvectors : CMatrix dimRange)
    (l : List (Fin dimRange)) (diag : DiagTmp dimRange) (st : Statics_1 dimRange) :
    for_loop (calculate_jacobians_jj env PAPERFLUX eigenvalues eigenvectors) l (diag, st) =
      match for_loop (Dune.GDT.calculate_jacobians_jj env eigenvalues) l diag with
      | .error e => .error e
      | .ok diag1 =>
        .ok (diag1,
          if l = [] then st
          else calculate_jacobians_store PAPERFLUX st
            (real eigenvectors * diag1.diag_jacobian_neg_tmp * real (env.inverse eigenvectors))
            (real eigenvectors * diag1.diag_jacobian_pos_tmp
              * real (env.inverse eigenvectors))) := by
  induction l generalizing diag st with
  | nil => simp [for_loop]
  | cons jj rest ih =>
    simp only [for_loop]
    rw [calculate_jacobians_jj_eq]
    cases hstep : Dune.GDT.calculate_jacobians_jj env eigenvalues diag jj with
    | error e => rfl
    | ok diag1 =>
      simp only []
      rw [ih]
      cases hrest : for_loop (Dune.GDT.calculate_jacobians_jj env eigenvalues) rest diag1 with
      | error e => rfl
      | ok diag2 =>
        simp only [if_false, calculate_jacobians_store_store]
        cases rest with
        | nil =>
          simp only [for_loop] at hrest
          injection hrest with hrest
          subst hrest
          simp
        | cons kk rest2 => simp

theorem calculate_jacobians_ok_1 (env : Env dimRange) (PAPERFLUX : Bool)
    (jacobian : RMatrix dimRange) (st : Statics_1 dimRange)
    (h : env.NDEBUG = true ∨ solver_accepts env jacobian) :
    calculate_jacobians env PAPERFLUX jacobian st =
      .ok (calculate_jacobians_store PAPERFLUX
        ⟨st.jacobian_neg_, st.jacobian_pos_, st.jacobian_abs_, st.jacobian_neg_function_,
          st.jacobian_pos_function_, st.jacobian_abs_function_, st.jacobians_constructed_,
          st.jacobian_calls, st.eigen_solver_calls + 1⟩
        (split_neg env jacobian) (split_pos env jacobian)) := by
  have hc : (!env.NDEBUG &&
      !decide ((env.eigen_solver jacobian).info = ComputationInfo.Success)) = false := by
    rcases h with h | h
    · rw [h]; rfl
    · rw [decide_eq_true h.1]; simp
  have hev : env.NDEBUG = true ∨
      ∀ jj, |((env.eigen_solver jacobian).eigenvalues jj).im| < 1 / 10 ^ 15 :=
    h.imp id fun h => h.2
  unfold calculate_jacobians
  simp only [hc, Bool.false_eq_true, if_false]
  rw [for_loop_jj_eq, for_loop_jj_finRange env _ hev]
  simp only []
  by_cases hl : List.finRange dimRange = []
  · have h0 : dimRange = 0 := by
      have := congrArg List.length hl
      simpa using this
    rw [if_pos hl, calculate_jacobians_store_empty _ _ _ _ h0]
  · rw [if_neg hl]
    rfl

theorem calculate_jacobians_fail_1 (env : Env dimRange) (PAPERFLUX : Bool)
    (jacobian : RMatrix dimRange) (st : Statics_1 dimRange)
    (hN : env.NDEBUG = false) (h : ¬ solver_accepts env jacobian) :
    calculate_jacobians env PAPERFLUX jacobian st = .error .AssertionFailed := by
  unfold calculate_jacobians
  by_cases hinfo : (env.eigen_solver jacobian).info = ComputationInfo.Success
  · have hc : (!env.NDEBUG &&
        !decide ((env.eigen_solver jacobian).info = ComputationInfo.Success)) = false := by
      rw [decide_eq_true hinfo]; simp
    have hbad : ∃ jj ∈ List.finRange dimRange,
        ¬ |((env.eigen_solver jacobian).eigenvalues jj).im| < 1 / 10 ^ 15 := by
      by_contra hcon
      push_neg at hcon
      exact h ⟨hinfo, fun jj => hcon jj (List.mem_finRange jj)⟩
    simp only [hc, Bool.false_eq_true, if_false]
    rw [for_loop_jj_eq, for_loop_jj_fail env _ _ hN hbad]
  · have hc : (!env.NDEBUG &&
        !decide ((env.eigen_solver jacobian).info = ComputationInfo.Success)) = true := by
      rw [hN, decide_eq_false hinfo]; rfl
    simp only [hc, if_true]

theorem calculate_jacobians_accepts_1 (env : Env dimRange) (PAPERFLUX : Bool)
    (jacobian : RMatrix dimRange) (st st1 : Statics_1 dimRange)
    (h : calculate_jacobians env PAPERFLUX jacobian st = .ok st1) :
    env.NDEBUG = true ∨ solver_accepts env jacobian := by
  by_contra hcon
  push_neg at hcon
  obtain ⟨hN, hacc⟩ := hcon
  have hN1 : env.NDEBUG = false := by simpa using hN
  rw [calculate_jacobians_fail_1 env PAPERFLUX jacobian st hN1 hacc] at h
  exact Except.noConfusion h

end GodunovNumericalCouplingFlux_1

/-! ### Calls on a linear evaluator -/

theorem initialize_jacobians_ok {dimDomain dimRange : ℕ} (env : Env dimRange)
    (self : GodunovNumericalCouplingFlux dimDomain dimRange)
    (st : Statics dimDomain dimRange)
    (h : env.NDEBUG = true ∨ ∀ ii, solver_accepts env
      (self.analytical_flux_.jacobian (fun _ => 0) ii)) :
    GodunovNumericalCouplingFlux.initialize_jacobians env self st =
      .ok ⟨fun ii => split_neg env (self.analytical_flux_.jacobian (fun _ => 0) ii),
          fun ii => split_pos env (self.analytical_flux_.jacobian (fun _ => 0) ii),
          true, st.jacobian_calls ++ [fun _ => 0], st.eigen_solver_calls + dimDomain⟩ := by
  unfold GodunovNumericalCouplingFlux.initialize_jacobians
  simp only []
  rw [calculate_jacobians_ok env _ _ h]

theorem initialize_jacobians_accepts {dimDomain dimRange : ℕ} (env : Env dimRange)
    (self : GodunovNumericalCouplingFlux dimDomain dimRange)
    (st st1 : Statics dimDomain dimRange)
    (h : GodunovNumericalCouplingFlux.initialize_jacobians env self st = .ok st1) :
    env.NDEBUG = true ∨ ∀ ii, solver_accepts env
      (self.analytical_flux_.jacobian (fun _ => 0) ii) := by
  unfold GodunovNumericalCouplingFlux.initialize_jacobians at h
  simp only [] at h
  cases hc : calculate_jacobians env (self.analytical_flux_.jacobian fun _ => 0)
      ⟨st.jacobian_neg_, st.jacobian_pos_, st.jacobians_constructed_,
        st.jacobian_calls ++ [fun _ => 0], st.eigen_solver_calls⟩ with
  | error e =>
    rw [hc] at h
    exact Except.noConfusion h
  | ok st2 => exact calculate_jacobians_accepts env _ _ _ hc

/-- The constructor with `is_linear = true`, in the two states of the flag. -/
theorem construct_linear_eq {dimDomain dimRange : ℕ} (env : Env dimRange)
    (analytical_flux : AnalyticalFlux dimDomain dimRange) (st : Statics dimDomain dimRange)
    (hacc : st.jacobians_constructed_ = true ∨ env.NDEBUG = true ∨
      ∀ ii, solver_accepts env (analytical_flux.jacobian (fun _ => 0) ii)) :
    GodunovNumericalCouplingFlux.construct env analytical_flux true st =
      .ok (⟨analytical_flux, true⟩,
        if st.jacobians_constructed_ = true then st
        else ⟨fun ii => split_neg env (analytical_flux.jacobian (fun _ => 0) ii),
          fun ii => split_pos env (analytical_flux.jacobian (fun _ => 0) ii),
          true, st.jacobian_calls ++ [fun _ => 0], st.eigen_solver_calls + dimDomain⟩) := by
  unfold GodunovNumericalCouplingFlux.construct
  cases hflag : st.jacobians_constructed_
  · have h : env.NDEBUG = true ∨
        ∀ ii, solver_accepts env (analytical_flux.jacobian (fun _ => 0) ii) := by
      rcases hacc with h | h
      · rw [hflag] at h
        exact absurd h (by simp)
      · exact h
    simp only [Bool.not_false, Bool.and_self, if_true, Bool.false_eq_true, if_false]
    rw [initialize_jacobians_ok env ⟨analytical_flux, true⟩ st h]
  · simp

theorem construct_linear_accepts {dimDomain dimRange : ℕ} (env : Env dimRange)
    (analytical_flux : AnalyticalFlux dimDomain dimRange) (st : Statics dimDomain dimRange)
    (r : GodunovNumericalCouplingFlux dimDomain dimRange × Statics dimDomain dimRange)
    (h : GodunovNumericalCouplingFlux.construct env analytical_flux true st = .ok r) :
    st.jacobians_constructed_ = true ∨ env.NDEBUG = true ∨
      ∀ ii, solver_accepts env (analytical_flux.jacobian (fun _ => 0) ii) := by
  cases hflag : st.jacobians_constructed_
  · right
    unfold GodunovNumericalCouplingFlux.construct at h
    simp only [hflag, Bool.not_false, Bool.and_self, if_true] at h
    cases hi : GodunovNumericalCouplingFlux.initialize_jacobians env ⟨analytical_flux, true⟩ st with
    | error e =>
      rw [hi] at h
      exact Except.noConfusion h
    | ok st1 => exact initialize_jacobians_accepts env ⟨analytical_flux, true⟩ st st1 hi
  · exact Or.inl rfl

theorem evaluate_linear_eq {P : Type} {dimDomain dimRange : ℕ} [NeZero dimDomain]
    (env : Env dimRange) (self : GodunovNumericalCouplingFlux dimDomain dimRange)
    (hlin : self.is_linear_ = true) (st : Statics dimDomain dimRange)
    (local_source_entity local_source_neighbor : P → RangeType dimRange)
    (intersection : Intersection P dimDomain) (x_intersection : P) :
    GodunovNumericalCouplingFlux.evaluate env self st local_source_entity
        local_source_neighbor intersection x_intersection =
      match GodunovNumericalCouplingFlux.evaluate_direction env
          (intersection.unitOuterNormal x_intersection) with
      | .error e => .error e
      | .ok coord =>
        .ok (GodunovNumericalCouplingFlux.evaluate_ret st
          (self.analytical_flux_.evaluate
            (local_source_entity (intersection.geometryInInside_global x_intersection)))
          (local_source_entity (intersection.geometryInInside_global x_intersection)
            - local_source_neighbor (intersection.geometryInOutside_global x_intersection))
          (intersection.unitOuterNormal x_intersection) coord intersection.geometry_volume,
          st) := by
  unfold GodunovNumericalCouplingFlux.evaluate
    GodunovNumericalCouplingFlux.evaluate_jacobians
  simp only [hlin, Bool.not_true, Bool.false_eq_true, if_false]

theorem evaluate_calls_linear {P : Type} {dimDomain dimRange : ℕ} [NeZero dimDomain]
    (env : Env dimRange) (self : GodunovNumericalCouplingFlux dimDomain dimRange)
    (hlin : self.is_linear_ = true) (st : Statics dimDomain dimRange)
    (calls : List (EvaluateArgs P dimDomain dimRange))
    (hdir : ∀ a ∈ calls, ∃ coord, GodunovNumericalCouplingFlux.evaluate_direction env
      (a.intersection.unitOuterNormal a.x_intersection) = .ok coord) :
    ∃ rets, GodunovNumericalCouplingFlux.evaluate_calls env self calls st = .ok (rets, st) ∧
      List.Forall₂ (fun a ret => ∃ coord,
        GodunovNumericalCouplingFlux.evaluate_direction env
          (a.intersection.unitOuterNormal a.x_intersection) = .ok coord ∧
        ret = GodunovNumericalCouplingFlux.evaluate_ret st
          (self.analytical_flux_.evaluate
            (a.local_source_entity (a.intersection.geometryInInside_global a.x_intersection)))
          (a.local_source_entity (a.intersection.geometryInInside_global a.x_intersection)
            - a.local_source_neighbor
                (a.intersection.geometryInOutside_global a.x_intersection))
          (a.intersection.unitOuterNormal a.x_intersection) coord
          a.intersection.geometry_volume) calls rets := by
  induction calls with
  | nil => exact ⟨[], rfl, List.Forall₂.nil⟩
  | cons a rest ih =>
    obtain ⟨coord, hc⟩ := hdir a (List.mem_cons_self _ _)
    obtain ⟨rets, hr, hf⟩ := ih fun b hb => hdir b (List.mem_cons_of_mem _ hb)
    refine ⟨_ :: rets, ?_, List.Forall₂.cons ⟨coord, hc, rfl⟩ hf⟩
    unfold GodunovNumericalCouplingFlux.evaluate_calls at hr ⊢
    simp only [call_sequence]
    rw [evaluate_linear_eq env self hlin, hc]
    simp only []
    rw [hr]

namespace GodunovNumericalCouplingFlux_1

variable {P : Type} {dimRange : ℕ}

theorem initialize_guard_constructed (env : Env dimRange) (PAPERFLUX : Bool)
    (self : GodunovNumericalCouplingFlux_1 dimRange) (st : Statics_1 dimRange)
    (h : st.jacobians_constructed_ = true ∨ self.is_linear_ = false) :
    initialize_guard env PAPERFLUX self st = .ok st := by
  unfold initialize_guard
  rcases h with h | h <;> simp [h]

theorem initialize_jacobians_ok_1 (env : Env dimRange) (PAPERFLUX : Bool)
    (self : GodunovNumericalCouplingFlux_1 dimRange) (st : Statics_1 dimRange)
    (h : env.NDEBUG = true ∨ solver_accepts env (self.analytical_flux_.jacobian fun _ => 0)) :
    ∃ st1, initialize_jacobians env PAPERFLUX self st = .ok st1 ∧
      st1.jacobians_constructed_ = true ∧
      st1.jacobian_calls = st.jacobian_calls ++ [fun _ => 0] ∧
      st1.eigen_solver_calls = st.eigen_solver_calls + 1 ∧
      st1.jacobian_neg_ = split_neg env (self.analytical_flux_.jacobian fun _ => 0) ∧
      st1.jacobian_pos_ = split_pos env (self.analytical_flux_.jacobian fun _ => 0) ∧
      st1.jacobian_abs_ = st1.jacobian_pos_ - st1.jacobian_neg_ ∧
      (PAPERFLUX = false → st1.jacobian_neg_function_ = ⟨st1.jacobian_neg_, 0⟩ ∧
        st1.jacobian_pos_function_ = ⟨st1.jacobian_pos_, 0⟩) ∧
      (PAPERFLUX = true → st1.jacobian_abs_function_ = ⟨st1.jacobian_abs_, 0⟩) := by
  unfold initialize_jacobians
  simp only []
  rw [calculate_jacobians_ok_1 env PAPERFLUX _ _ h]
  refine ⟨_, rfl, rfl, ?_⟩
  cases PAPERFLUX <;>
    simp [calculate_jacobians_store, sub_eq_add_neg, add_comm]

theorem initialize_jacobians_accepts_1 (env : Env dimRange) (PAPERFLUX : Bool)
    (self : GodunovNumericalCouplingFlux_1 dimRange) (st st1 : Statics_1 dimRange)
    (h : initialize_jacobians env PAPERFLUX self st = .ok st1) :
    env.NDEBUG = true ∨ solver_accepts env (self.analytical_flux_.jacobian fun _ => 0) := by
  unfold initialize_jacobians at h
  simp only [] at h
  cases hc : calculate_jacobians env PAPERFLUX (self.analytical_flux_.jacobian fun _ => 0)
      ⟨st.jacobian_neg_, st.jacobian_pos_, st.jacobian_abs_, st.jacobian_neg_function_,
        st.jacobian_pos_function_, st.jacobian_abs_function_, st.jacobians_constructed_,
        st.jacobian_calls ++ [fun _ => 0], st.eigen_solver_calls⟩ with
  | error e =>
    rw [hc] at h
    exact Except.noConfusion h
  | ok st2 => exact calculate_jacobians_accepts_1 env PAPERFLUX _ _ _ hc

/-- What a completed construction with `is_linear = true` leaves. -/
theorem construct_linear_1 (env : Env dimRange) (PAPERFLUX : Bool)
    (analytical_flux : AnalyticalFlux_1 dimRange) (st : Statics_1 dimRange)
    (r : GodunovNumericalCouplingFlux_1 dimRange × Statics_1 dimRange)
    (h : construct env PAPERFLUX analytical_flux true st = .ok r) :
    r.1 = ⟨analytical_flux, true⟩ ∧ r.2.jacobians_constructed_ = true ∧
      (st.jacobians_constructed_ = true → r.2 = st) ∧
      (st.jacobians_constructed_ = false →
        r.2.jacobian_calls = st.jacobian_calls ++ [fun _ => 0] ∧
        r.2.eigen_solver_calls = st.eigen_solver_calls + 1 ∧
        r.2.jacobian_neg_ = split_neg env (analytical_flux.jacobian fun _ => 0) ∧
        r.2.jacobian_pos_ = split_pos env (analytical_flux.jacobian fun _ => 0) ∧
        r.2.jacobian_abs_ = r.2.jacobian_pos_ - r.2.jacobian_neg_ ∧
        (PAPERFLUX = false → r.2.jacobian_neg_function_ = ⟨r.2.jacobian_neg_, 0⟩ ∧
          r.2.jacobian_pos_function_ = ⟨r.2.jacobian_pos_, 0⟩) ∧
        (PAPERFLUX = true → r.2.jacobian_abs_function_ = ⟨r.2.jacobian_abs_, 0⟩)) := by
  unfold construct at h
  cases hflag : st.jacobians_constructed_
  · have hg : initialize_guard env PAPERFLUX ⟨analytical_flux, true⟩ st
        = initialize_jacobians env PAPERFLUX ⟨analytical_flux, true⟩ st := by
      unfold initialize_guard
      simp [hflag]
    simp only [hg] at h
    cases hi : initialize_jacobians env PAPERFLUX ⟨analytical_flux, true⟩ st with
    | error e =>
      rw [hi] at h
      exact Except.noConfusion h
    | ok st1 =>
      obtain ⟨st2, h2, hfacts⟩ := initialize_jacobians_ok_1 env PAPERFLUX
        ⟨analytical_flux, true⟩ st
        (initialize_jacobians_accepts_1 env PAPERFLUX ⟨analytical_flux, true⟩ st st1 hi)
      rw [h2] at h
      injection h with h
      subst h
      exact ⟨rfl, hfacts.1, fun hc => absurd hc (by simp), fun _ => hfacts.2⟩
  · simp only [initialize_guard_constructed env PAPERFLUX _ st (Or.inl hflag)] at h
    injection h with h
    subst h
    exact ⟨rfl, hflag, fun _ => rfl, fun hc => absurd hc (by simp)⟩

theorem evaluate_linear_1 (env : Env dimRange) (PAPERFLUX : Bool)
    (self : GodunovNumericalCouplingFlux_1 dimRange) (hlin : self.is_linear_ = true)
    (st : Statics_1 dimRange) (hflag : st.jacobians_constructed_ = true)
    (local_source_entity local_source_neighbor : P → RangeType dimRange)
    (intersection : Intersection P 1) (x_intersection : P) :
    evaluate env PAPERFLUX self st local_source_entity local_source_neighbor intersection
        x_intersection =
      .ok ⟨evaluate_ret PAPERFLUX self st
        (local_source_entity (intersection.geometryInInside_global x_intersection))
        (local_source_neighbor (intersection.geometryInOutside_global x_intersection))
        (intersection.unitOuterNormal x_intersection 0), st⟩ := by
  unfold evaluate evaluate_flux evaluate_jacobians
  rw [initialize_guard_constructed env PAPERFLUX self st (Or.inl hflag)]
  simp [hlin]

theorem evaluate_calls_linear_1 (env : Env dimRange) (PAPERFLUX : Bool)
    (self : GodunovNumericalCouplingFlux_1 dimRange) (hlin : self.is_linear_ = true)
    (st : Statics_1 dimRange) (hflag : st.jacobians_constructed_ = true)
    (calls : List (EvaluateArgs P 1 dimRange)) :
    evaluate_calls env PAPERFLUX self calls st =
      .ok (calls.map (fun a => evaluate_ret PAPERFLUX self st
        (a.local_source_entity (a.intersection.geometryInInside_global a.x_intersection))
        (a.local_source_neighbor (a.intersection.geometryInOutside_global a.x_intersection))
        (a.intersection.unitOuterNormal a.x_intersection 0)), st) := by
  induction calls with
  | nil => rfl
  | cons a rest ih =>
    unfold evaluate_calls at ih ⊢
    simp only [call_sequence]
    rw [evaluate_linear_1 env PAPERFLUX self hlin st hflag]
    simp only []
    rw [ih]
    rfl

end GodunovNumericalCouplingFlux_1

/-! ## Claims C11 to C14: the cache of the split -/

namespace GodunovNumericalCouplingFlux

variable {P : Type} {dimDomain dimRange : ℕ}

/-- C11, as the code has it. A construction with `is_linear = true` that completes leaves
the cache INITIALIZED (`jacobians_constructed_ = true`). When the cache was UNINITIALIZED
before, it then holds for every axis the split of the Jacobian of the evaluator's own
analytical flux at the zero state, and the provider was called once, at zero. When the cache
was INITIALIZED before (by an earlier evaluator of the same instantiation), the constructor
leaves the static members as they were. -/
theorem construct_linear (env : Env dimRange)
    (analytical_flux : AnalyticalFlux dimDomain dimRange) (st : Statics dimDomain dimRange)
    (hacc : st.jacobians_constructed_ = true ∨ env.NDEBUG = true ∨
      ∀ ii, solver_accepts env (analytical_flux.jacobian (fun _ => 0) ii)) :
    ∃ st1, construct env analytical_flux true st = .ok (⟨analytical_flux, true⟩, st1) ∧
      st1.jacobians_constructed_ = true ∧
      (st.jacobians_constructed_ = false →
        (∀ ii, st1.jacobian_neg_ ii = split_neg env (analytical_flux.jacobian (fun _ => 0) ii) ∧
          st1.jacobian_pos_ ii = split_pos env (analytical_flux.jacobian (fun _ => 0) ii)) ∧
        st1.jacobian_calls = st.jacobian_calls ++ [fun _ => 0]) ∧
      (st.jacobians_constructed_ = true → st1 = st) := by
  refine ⟨_, construct_linear_eq env analytical_flux st hacc, ?_, ?_, ?_⟩
  · cases hflag : st.jacobians_constructed_ <;> simp [hflag]
  · intro hflag
    simp [hflag]
  · intro hflag
    simp [hflag]

/-- Instance of the amended C11 on the sample data: the first linear evaluator of the
instantiation, for `sample_flux`. -/
theorem construct_linear_witness :
    ∃ st1, construct (sample_env false) sample_flux true (Statics.initial 2 1)
        = .ok (⟨sample_flux, true⟩, st1) ∧
      st1.jacobians_constructed_ = true ∧
      ((Statics.initial 2 1).jacobians_constructed_ = false →
        (∀ ii, st1.jacobian_neg_ ii
            = split_neg (sample_env false) (sample_flux.jacobian (fun _ => 0) ii) ∧
          st1.jacobian_pos_ ii
            = split_pos (sample_env false) (sample_flux.jacobian (fun _ => 0) ii)) ∧
        st1.jacobian_calls = (Statics.initial 2 1).jacobian_calls ++ [fun _ => 0]) ∧
      ((Statics.initial 2 1).jacobians_constructed_ = true → st1 = Statics.initial 2 1) :=
  construct_linear (sample_env false) sample_flux (Statics.initial 2 1)
    (Or.inr (Or.inr fun _ => sample_env_accepts false _))

/-- C11 fails as stated. A linear evaluator for `sample_flux` (Jacobian `2` along axis 1) is
constructed first, then a linear evaluator of the same instantiation for `sample_flux_b`
(Jacobian `5` along axis 1). After the second construction the cache still holds
`jacobian_pos_[1] = 2`; the split of the second flux at the zero state has `5` there. -/
theorem construct_linear_counterexample :
    ∃ self_a st_a self_b st_b,
      construct (sample_env false) sample_flux true (Statics.initial 2 1)
        = .ok (self_a, st_a) ∧
      construct (sample_env false) sample_flux_b true st_a = .ok (self_b, st_b) ∧
      self_b.analytical_flux_ = sample_flux_b ∧
      st_b.jacobian_pos_ 1 0 0 = 2 ∧
      split_pos (sample_env false) (sample_flux_b.jacobian (fun _ => 0) 1) 0 0 = 5 := by
  refine ⟨_, _, _, _,
    construct_linear_eq (sample_env false) sample_flux (Statics.initial 2 1)
      (Or.inr (Or.inr fun _ => sample_env_accepts false _)),
    construct_linear_eq (sample_env false) sample_flux_b _ (Or.inl ?_), rfl, ?_, ?_⟩
  · simp [Statics.initial]
  · simp [Statics.initial, sample_split_pos, sample_flux]
  · simp [sample_split_pos, sample_flux_b]

end GodunovNumericalCouplingFlux

theorem construct_linear_ok_1 {dimRange : ℕ} (env : Env dimRange) (PAPERFLUX : Bool)
    (analytical_flux : AnalyticalFlux_1 dimRange) (st : Statics_1 dimRange)
    (hacc : st.jacobians_constructed_ = true ∨ env.NDEBUG = true ∨
      solver_accepts env (analytical_flux.jacobian fun _ => 0)) :
    ∃ st1, GodunovNumericalCouplingFlux_1.construct env PAPERFLUX analytical_flux true st
      = .ok (⟨analytical_flux, true⟩, st1) := by
  unfold GodunovNumericalCouplingFlux_1.construct
  cases hflag : st.jacobians_constructed_
  · have h : env.NDEBUG = true ∨ solver_accepts env (analytical_flux.jacobian fun _ => 0) := by
      rcases hacc with h | h
      · rw [hflag] at h
        exact absurd h (by simp)
      · exact h
    have hg : GodunovNumericalCouplingFlux_1.initialize_guard env PAPERFLUX
          ⟨analytical_flux, true⟩ st
        = GodunovNumericalCouplingFlux_1.initialize_jacobians env PAPERFLUX
          ⟨analytical_flux, true⟩ st := by
      unfold GodunovNumericalCouplingFlux_1.initialize_guard
      simp [hflag]
    obtain ⟨st1, h1, -⟩ := GodunovNumericalCouplingFlux_1.initialize_jacobians_ok_1 env
      PAPERFLUX ⟨analytical_flux, true⟩ st h
    simp only [hg, h1]
    exact ⟨st1, rfl⟩
  · simp only [GodunovNumericalCouplingFlux_1.initialize_guard_constructed env PAPERFLUX _ st
      (Or.inl hflag)]
    exact ⟨st, rfl⟩

theorem sample_direction_aligned (NDEBUG : Bool) (n0 n1 vol : ℚ) (c : Fin 2)
    (h : c = 0 ∧ (n0 = 1 ∨ n0 = -1) ∧ n1 = 0 ∨ c = 1 ∧ (n1 = 1 ∨ n1 = -1) ∧ n0 = 0) :
    GodunovNumericalCouplingFlux.evaluate_direction (sample_env NDEBUG)
      ((sample_intersection n0 n1 vol).unitOuterNormal ()) = .ok c := by
  apply evaluate_direction_exact _ (sample_env_exact NDEBUG) _ c
  · rcases h with ⟨rfl, h, -⟩ | ⟨rfl, h, -⟩ <;> simpa [sample_intersection] using h
  · rcases h with ⟨rfl, -, h⟩ | ⟨rfl, -, h⟩
    · exact sample_normal_zero n0 n1 vol 0 (Or.inl ⟨rfl, h⟩)
    · exact sample_normal_zero n0 n1 vol 1 (Or.inr ⟨rfl, h⟩)

/-- Calls of `evaluate` on a linear evaluator for `dimDomain = 1`, made on a thread whose
static members are `st`: the first call initialises the cache when it finds it UNINITIALIZED
(lines 305-306), every call computes `ret` with the cache as it is after that. -/
theorem evaluate_calls_lazy_1 {P : Type} {dimRange : ℕ} (env : Env dimRange)
    (PAPERFLUX : Bool) (self : GodunovNumericalCouplingFlux_1 dimRange)
    (hlin : self.is_linear_ = true) (st : Statics_1 dimRange)
    (hacc : st.jacobians_constructed_ = true ∨ env.NDEBUG = true ∨
      solver_accepts env (self.analytical_flux_.jacobian fun _ => 0))
    (calls : List (EvaluateArgs P 1 dimRange)) :
    ∃ st1, GodunovNumericalCouplingFlux_1.evaluate_calls env PAPERFLUX self calls st =
        .ok (calls.map (fun a => GodunovNumericalCouplingFlux_1.evaluate_ret PAPERFLUX self st1
          (a.local_source_entity (a.intersection.geometryInInside_global a.x_intersection))
          (a.local_source_neighbor (a.intersection.geometryInOutside_global a.x_intersection))
          (a.intersection.unitOuterNormal a.x_intersection 0)), st1) ∧
      st1.jacobian_calls = st.jacobian_calls ++
        (if st.jacobians_constructed_ = true ∨ calls.isEmpty = true then [] else [fun _ => 0]) ∧
      (st.jacobians_constructed_ = true ∨ calls.isEmpty = true → st1 = st) ∧
      (st.jacobians_constructed_ = false → calls.isEmpty = false →
        GodunovNumericalCouplingFlux_1.initialize_jacobians env PAPERFLUX self st = .ok st1 ∧
        st1.jacobians_constructed_ = true ∧
        st1.jacobian_neg_ = split_neg env (self.analytical_flux_.jacobian fun _ => 0) ∧
        st1.jacobian_pos_ = split_pos env (self.analytical_flux_.jacobian fun _ => 0)) := by
  cases hflag : st.jacobians_constructed_
  · cases calls with
    | nil =>
      refine ⟨st, rfl, by simp, fun _ => rfl, fun _ h => absurd h (by simp)⟩
    | cons a rest =>
      have h : env.NDEBUG = true ∨
          solver_accepts env (self.analytical_flux_.jacobian fun _ => 0) := by
        rcases hacc with h | h
        · rw [hflag] at h
          exact absurd h (by simp)
        · exact h
      obtain ⟨st1, hi, hc, hcalls, -, hneg, hpos, -⟩ :=
        GodunovNumericalCouplingFlux_1.initialize_jacobians_ok_1 env PAPERFLUX self st h
      have hev : GodunovNumericalCouplingFlux_1.evaluate env PAPERFLUX self st
          a.local_source_entity a.local_source_neighbor a.intersection a.x_intersection =
          .ok ⟨GodunovNumericalCouplingFlux_1.evaluate_ret PAPERFLUX self st1
            (a.local_source_entity (a.intersection.geometryInInside_global a.x_intersection))
            (a.local_source_neighbor
              (a.intersection.geometryInOutside_global a.x_intersection))
            (a.intersection.unitOuterNormal a.x_intersection 0), st1⟩ := by
        unfold GodunovNumericalCouplingFlux_1.evaluate
          GodunovNumericalCouplingFlux_1.evaluate_flux
          GodunovNumericalCouplingFlux_1.evaluate_jacobians
          GodunovNumericalCouplingFlux_1.initialize_guard
        simp [hflag, hlin, hi]
      have hrest := GodunovNumericalCouplingFlux_1.evaluate_calls_linear_1 env PAPERFLUX self
        hlin st1 hc rest
      refine ⟨st1, ?_, ?_, ?_, fun _ _ => ⟨hi, hc, hneg, hpos⟩⟩
      · unfold GodunovNumericalCouplingFlux_1.evaluate_calls at hrest ⊢
        simp only [call_sequence]
        rw [hev]
        simp only []
        rw [hrest]
        rfl
      · simp [hcalls]
      · intro h
        rcases h with h | h
        · exact absurd h (by simp)
        · exact absurd h (by simp)
  · refine ⟨st, GodunovNumericalCouplingFlux_1.evaluate_calls_linear_1 env PAPERFLUX self hlin
      st hflag calls, by simp, fun _ => rfl, fun h => absurd h (by simp)⟩

/-- C12, as the code has it. For an evaluator constructed with `is_linear = true` (general
`dimDomain` and `dimDomain = 1`), over the construction followed by any number of `evaluate`
calls on axis-aligned normals, on the static members the construction left: the jacobian
provider is invoked once, at the zero state, when the cache was UNINITIALIZED before the
construction, and not at all when it was INITIALIZED; no `evaluate` call changes the static
members, and every call computes its flux with the split they hold after the construction.
The static members of the class for `dimDomain = 1` are `thread_local`: on a thread with
static members `st_t` of its own, the first `evaluate` call that finds the cache
UNINITIALIZED invokes the provider once more, at the zero state, and fills the cache of that
thread (lines 305-306), the assertions of the splitter passing there or being compiled out;
no `evaluate` call on a thread whose cache is INITIALIZED changes it, and every call
computes its flux with the split its thread holds after that initialisation. -/
theorem linear_caching {P : Type} {dimDomain dimRange : ℕ} [NeZero dimDomain]
    (env : Env dimRange) (PAPERFLUX : Bool)
    (analytical_flux : AnalyticalFlux dimDomain dimRange)
    (st0 st1 : Statics dimDomain dimRange)
    (self : GodunovNumericalCouplingFlux dimDomain dimRange)
    (calls : List (EvaluateArgs P dimDomain dimRange))
    (analytical_flux_1 : AnalyticalFlux_1 dimRange) (st0_1 st1_1 : Statics_1 dimRange)
    (self_1 : GodunovNumericalCouplingFlux_1 dimRange)
    (calls_1 : List (EvaluateArgs P 1 dimRange))
    (hcon : GodunovNumericalCouplingFlux.construct env analytical_flux true st0
      = .ok (self, st1))
    (hdir : ∀ a ∈ calls, ∃ coord, GodunovNumericalCouplingFlux.evaluate_direction env
      (a.intersection.unitOuterNormal a.x_intersection) = .ok coord)
    (hcon_1 : GodunovNumericalCouplingFlux_1.construct env PAPERFLUX analytical_flux_1 true
      st0_1 = .ok (self_1, st1_1)) :
    st1.jacobian_calls = st0.jacobian_calls ++
        (if st0.jacobians_constructed_ = true then [] else [fun _ => 0]) ∧
    (∃ rets, GodunovNumericalCouplingFlux.evaluate_calls env self calls st1
        = .ok (rets, st1) ∧
      List.Forall₂ (fun a ret => ∃ coord,
        GodunovNumericalCouplingFlux.evaluate_direction env
          (a.intersection.unitOuterNormal a.x_intersection) = .ok coord ∧
        ret = GodunovNumericalCouplingFlux.evaluate_ret st1
          (self.analytical_flux_.evaluate
            (a.local_source_entity (a.intersection.geometryInInside_global a.x_intersection)))
          (a.local_source_entity (a.intersection.geometryInInside_global a.x_intersection)
            - a.local_source_neighbor
                (a.intersection.geometryInOutside_global a.x_intersection))
          (a.intersection.unitOuterNormal a.x_intersection) coord
          a.intersection.geometry_volume) calls rets) ∧
    st1_1.jacobian_calls = st0_1.jacobian_calls ++
        (if st0_1.jacobians_constructed_ = true then [] else [fun _ => 0]) ∧
    GodunovNumericalCouplingFlux_1.evaluate_calls env PAPERFLUX self_1 calls_1 st1_1 =
      .ok (calls_1.map (fun a => GodunovNumericalCouplingFlux_1.evaluate_ret PAPERFLUX self_1
        st1_1
        (a.local_source_entity (a.intersection.geometryInInside_global a.x_intersection))
        (a.local_source_neighbor (a.intersection.geometryInOutside_global a.x_intersection))
        (a.intersection.unitOuterNormal a.x_intersection 0)), st1_1) ∧
    (∀ st_t : Statics_1 dimRange,
      (st_t.jacobians_constructed_ = true ∨ env.NDEBUG = true ∨
        solver_accepts env (analytical_flux_1.jacobian fun _ => 0)) →
      ∃ st_t1,
        GodunovNumericalCouplingFlux_1.evaluate_calls env PAPERFLUX self_1 calls_1 st_t =
          .ok (calls_1.map (fun a => GodunovNumericalCouplingFlux_1.evaluate_ret PAPERFLUX
            self_1 st_t1
            (a.local_source_entity (a.intersection.geometryInInside_global a.x_intersection))
            (a.local_source_neighbor
              (a.intersection.geometryInOutside_global a.x_intersection))
            (a.intersection.unitOuterNormal a.x_intersection 0)), st_t1) ∧
        st_t1.jacobian_calls = st_t.jacobian_calls ++
          (if st_t.jacobians_constructed_ = true ∨ calls_1.isEmpty = true then []
            else [fun _ => 0]) ∧
        (st_t.jacobians_constructed_ = true ∨ calls_1.isEmpty = true → st_t1 = st_t) ∧
        (st_t.jacobians_constructed_ = false → calls_1.isEmpty = false →
          GodunovNumericalCouplingFlux_1.initialize_jacobians env PAPERFLUX self_1 st_t
            = .ok st_t1 ∧
          st_t1.jacobians_constructed_ = true ∧
          st_t1.jacobian_neg_ = split_neg env (analytical_flux_1.jacobian fun _ => 0) ∧
          st_t1.jacobian_pos_ = split_pos env (analytical_flux_1.jacobian fun _ => 0))) := by
  have hacc := construct_linear_accepts env analytical_flux st0 _ hcon
  rw [construct_linear_eq env analytical_flux st0 hacc] at hcon
  injection hcon with hcon
  injection hcon with hself hst
  subst hself
  obtain ⟨h1, h2, h3, h4⟩ := GodunovNumericalCouplingFlux_1.construct_linear_1 env PAPERFLUX
    analytical_flux_1 st0_1 _ hcon_1
  simp only at h1 h2 h3 h4
  refine ⟨?_, ?_, ?_, ?_, ?_⟩
  · rw [← hst]
    cases hflag : st0.jacobians_constructed_ <;> simp
  · exact evaluate_calls_linear env _ rfl st1 calls hdir
  · cases hflag : st0_1.jacobians_constructed_
    · simp [(h4 hflag).1]
    · simp [h3 hflag]
  · subst h1
    exact GodunovNumericalCouplingFlux_1.evaluate_calls_linear_1 env PAPERFLUX _ rfl st1_1 h2
      calls_1
  · intro st_t hacc_t
    subst h1
    exact evaluate_calls_lazy_1 env PAPERFLUX ⟨analytical_flux_1, true⟩ rfl st_t hacc_t calls_1

/-- Instance of the amended C12 on the sample data: the first linear evaluators of their
instantiations, two calls each on the constructing thread, and the same two calls of the
evaluator for `dimDomain = 1` on a thread whose static members are still initial. -/
theorem linear_caching_witness :
    ∃ self st1 self_1 st1_1,
      GodunovNumericalCouplingFlux.construct (sample_env false) sample_flux true
        (Statics.initial 2 1) = .ok (self, st1) ∧
      GodunovNumericalCouplingFlux_1.construct (sample_env false) false (advection_flux 1)
        true (Statics_1.initial 1) = .ok (self_1, st1_1) ∧
      st1.jacobian_calls = [fun _ => 0] ∧
      (∃ rets, GodunovNumericalCouplingFlux.evaluate_calls (sample_env false) self
          [sample_args 2 1 1 0, sample_args 1 2 0 (-1)] st1 = .ok (rets, st1)) ∧
      st1_1.jacobian_calls = [fun _ => 0] ∧
      (∃ rets, GodunovNumericalCouplingFlux_1.evaluate_calls (sample_env false) false self_1
          [sample_args_1 2 1 1, sample_args_1 1 2 (-1)] st1_1 = .ok (rets, st1_1)) ∧
      (∃ rets st_t1, GodunovNumericalCouplingFlux_1.evaluate_calls (sample_env false) false
          self_1 [sample_args_1 2 1 1, sample_args_1 1 2 (-1)] (Statics_1.initial 1)
            = .ok (rets, st_t1) ∧
        st_t1.jacobian_calls = [fun _ => 0] ∧ st_t1.jacobians_constructed_ = true) := by
  obtain ⟨st1_1, h1⟩ := construct_linear_ok_1 (sample_env false) false (advection_flux 1)
    (Statics_1.initial 1) (Or.inr (Or.inr (sample_env_accepts false _)))
  have h := linear_caching (sample_env false) false sample_flux (Statics.initial 2 1) _ _
    [sample_args 2 1 1 0, sample_args 1 2 0 (-1)] (advection_flux 1) (Statics_1.initial 1) _ _
    [sample_args_1 2 1 1, sample_args_1 1 2 (-1)]
    (construct_linear_eq (sample_env false) sample_flux (Statics.initial 2 1)
      (Or.inr (Or.inr fun _ => sample_env_accepts false _)))
    (by
      intro a ha
      simp only [List.mem_cons, List.mem_singleton, List.not_mem_nil, or_false] at ha
      rcases ha with rfl | rfl
      · exact ⟨0, sample_direction_aligned false 1 0 1 0 (Or.inl ⟨rfl, Or.inl rfl, rfl⟩)⟩
      · exact ⟨1, sample_direction_aligned false 0 (-1) 1 1 (Or.inr ⟨rfl, Or.inr rfl, rfl⟩)⟩)
    h1
  obtain ⟨st_t1, ht1, ht2, -, ht4⟩ := h.2.2.2.2 (Statics_1.initial 1)
    (Or.inr (Or.inr (sample_env_accepts false _)))
  exact ⟨_, _, _, _,
    construct_linear_eq (sample_env false) sample_flux (Statics.initial 2 1)
      (Or.inr (Or.inr fun _ => sample_env_accepts false _)),
    h1, h.1, ⟨_, h.2.1.choose_spec.1⟩, h.2.2.1, ⟨_, h.2.2.2.1⟩,
    ⟨_, st_t1, ht1, by simpa [Statics_1.initial] using ht2,
      (ht4 rfl rfl).2.1⟩⟩

/-- C12 fails as stated. A linear evaluator for `sample_flux` is constructed first and leaves
`sample_statics_linear`. Over the construction of a second linear evaluator, for
`sample_flux_b`, and one `evaluate` call on it, the record of provider calls does not grow:
the provider of the second evaluator is never invoked. For `dimDomain = 1`: a linear
evaluator is constructed on one thread, where its constructor invokes the provider; one
`evaluate` call on it from a thread whose `thread_local` members are still initial invokes
the provider again and changes the cache of that thread. -/
theorem linear_caching_counterexample :
    (∃ self_a self_b st1 rets st2,
      GodunovNumericalCouplingFlux.construct (sample_env false) sample_flux true
        (Statics.initial 2 1) = .ok (self_a, sample_statics_linear false) ∧
      GodunovNumericalCouplingFlux.construct (sample_env false) sample_flux_b true
        (sample_statics_linear false) = .ok (self_b, st1) ∧
      GodunovNumericalCouplingFlux.evaluate_calls (sample_env false) self_b
        [sample_args 2 1 1 0] st1 = .ok (rets, st2) ∧
      st2.jacobian_calls = (sample_statics_linear false).jacobian_calls) ∧
    (∃ self_1 st1_1 rets st_t1,
      GodunovNumericalCouplingFlux_1.construct (sample_env false) false (advection_flux 1)
        true (Statics_1.initial 1) = .ok (self_1, st1_1) ∧
      st1_1.jacobian_calls = [fun _ => 0] ∧
      GodunovNumericalCouplingFlux_1.evaluate_calls (sample_env false) false self_1
        [sample_args_1 2 1 1] (Statics_1.initial 1) = .ok (rets, st_t1) ∧
      st_t1.jacobian_calls = [fun _ => 0] ∧
      st_t1 ≠ Statics_1.initial 1) := by
  constructor
  · obtain ⟨rets, hr, -⟩ := evaluate_calls_linear (sample_env false) ⟨sample_flux_b, true⟩ rfl
      (sample_statics_linear false) [sample_args 2 1 1 0]
      (by
        intro a ha
        simp only [List.mem_singleton] at ha
        subst ha
        exact ⟨0, sample_direction_aligned false 1 0 1 0 (Or.inl ⟨rfl, Or.inl rfl, rfl⟩)⟩)
    exact ⟨_, _, _, rets, _,
      construct_linear_eq (sample_env false) sample_flux (Statics.initial 2 1)
        (Or.inr (Or.inr fun _ => sample_env_accepts false _)),
      construct_linear_eq (sample_env false) sample_flux_b (sample_statics_linear false)
        (Or.inl rfl), hr, rfl⟩
  · obtain ⟨st1_1, h1⟩ := construct_linear_ok_1 (sample_env false) false (advection_flux 1)
      (Statics_1.initial 1) (Or.inr (Or.inr (sample_env_accepts false _)))
    obtain ⟨-, -, -, h4⟩ := GodunovNumericalCouplingFlux_1.construct_linear_1
      (sample_env false) false (advection_flux 1) (Statics_1.initial 1) _ h1
    obtain ⟨st_t1, ht1, ht2, -, ht4⟩ := evaluate_calls_lazy_1 (sample_env false) false
      ⟨advection_flux 1, true⟩ rfl (Statics_1.initial 1)
      (Or.inr (Or.inr (sample_env_accepts false _))) [sample_args_1 2 1 1]
    refine ⟨_, st1_1, _, st_t1, h1, ?_, ht1, ?_, ?_⟩
    · simpa [Statics_1.initial] using (h4 rfl).1
    · simpa [Statics_1.initial] using ht2
    · intro h
      have hc := (ht4 rfl rfl).2.1
      rw [h] at hc
      simp [Statics_1.initial] at hc

namespace GodunovNumericalCouplingFlux

variable {P : Type} {dimDomain dimRange : ℕ}

/-- C13. Nonlinear-case recomputation: a call of `evaluate` on an evaluator with
`is_linear = false` that passes the assertions and finds the direction `coord` invokes the
jacobian provider exactly once, with the argument `0.5·(u_i + u_j)`, runs the splitter on
every axis (one solver per axis, fresh `jacobian_neg_`, `jacobian_pos_` for every axis) and
computes the returned flux `ret` from that fresh split; `ret` is the same whatever the
static members held before the call. -/
theorem evaluate_nonlinear [NeZero dimDomain] (env : Env dimRange)
    (self : GodunovNumericalCouplingFlux dimDomain dimRange)
    (local_source_entity local_source_neighbor : P → RangeType dimRange)
    (intersection : Intersection P dimDomain) (x_intersection : P)
    (u_i u_j : RangeType dimRange) (coord : Fin dimDomain)
    (hlin : self.is_linear_ = false)
    (hu_i : local_source_entity (intersection.geometryInInside_global x_intersection) = u_i)
    (hu_j : local_source_neighbor (intersection.geometryInOutside_global x_intersection) = u_j)
    (hacc : env.NDEBUG = true ∨ ∀ ii, solver_accepts env
      (self.analytical_flux_.jacobian (fun kk => (u_i kk + u_j kk) * (1 / 2)) ii))
    (hdir : evaluate_direction env (intersection.unitOuterNormal x_intersection) = .ok coord) :
    ∃ ret, ∀ st : Statics dimDomain dimRange,
      evaluate env self st local_source_entity local_source_neighbor intersection
          x_intersection =
        .ok (ret,
          ⟨fun ii => split_neg env
              (self.analytical_flux_.jacobian (fun kk => (u_i kk + u_j kk) * (1 / 2)) ii),
            fun ii => split_pos env
              (self.analytical_flux_.jacobian (fun kk => (u_i kk + u_j kk) * (1 / 2)) ii),
            st.jacobians_constructed_,
            st.jacobian_calls ++ [fun kk => (u_i kk + u_j kk) * (1 / 2)],
            st.eigen_solver_calls + dimDomain⟩) ∧
      ret = evaluate_ret
          ⟨fun ii => split_neg env
              (self.analytical_flux_.jacobian (fun kk => (u_i kk + u_j kk) * (1 / 2)) ii),
            fun ii => split_pos env
              (self.analytical_flux_.jacobian (fun kk => (u_i kk + u_j kk) * (1 / 2)) ii),
            st.jacobians_constructed_,
            st.jacobian_calls ++ [fun kk => (u_i kk + u_j kk) * (1 / 2)],
            st.eigen_solver_calls + dimDomain⟩
          (self.analytical_flux_.evaluate u_i) (u_i - u_j)
          (intersection.unitOuterNormal x_intersection) coord
          intersection.geometry_volume := by
  subst hu_i hu_j
  refine ⟨evaluate_ret
      ⟨fun ii => split_neg env (self.analytical_flux_.jacobian (fun kk =>
          (local_source_entity (intersection.geometryInInside_global x_intersection) kk
            + local_source_neighbor (intersection.geometryInOutside_global x_intersection) kk)
            * (1 / 2)) ii),
        fun ii => split_pos env (self.analytical_flux_.jacobian (fun kk =>
          (local_source_entity (intersection.geometryInInside_global x_intersection) kk
            + local_source_neighbor (intersection.geometryInOutside_global x_intersection) kk)
            * (1 / 2)) ii),
        false, [], 0⟩
      (self.analytical_flux_.evaluate
        (local_source_entity (intersection.geometryInInside_global x_intersection)))
      (local_source_entity (intersection.geometryInInside_global x_intersection)
        - local_source_neighbor (intersection.geometryInOutside_global x_intersection))
      (intersection.unitOuterNormal x_intersection) coord intersection.geometry_volume,
    fun st => ?_⟩
  have hsplit : evaluate_jacobians env self st
      (local_source_entity (intersection.geometryInInside_global x_intersection))
      (local_source_neighbor (intersection.geometryInOutside_global x_intersection))
      = reinitialize_jacobians env self st
        (local_source_entity (intersection.geometryInInside_global x_intersection))
        (local_source_neighbor (intersection.geometryInOutside_global x_intersection)) := by
    unfold evaluate_jacobians
    simp only [hlin, Bool.not_false, if_true]
  rw [reinitialize_jacobians_ok env self st _ _ hacc] at hsplit
  rw [evaluate_eq env self st _ _ _ _ _ coord hsplit hdir]
  exact ⟨rfl, rfl⟩

/-- Instance of C13 on the sample data: states `2` and `0`, normal `(1, 0)`, volume `1`. -/
theorem evaluate_nonlinear_witness :
    ∃ ret, ∀ st : Statics 2 1,
      evaluate (sample_env false) ⟨sample_flux, false⟩ st (sample_source 2) (sample_source 0)
          (sample_intersection 1 0 1) () =
        .ok (ret,
          ⟨fun ii => split_neg (sample_env false)
              (sample_flux.jacobian (fun _ => ((2 : ℚ) + 0) * (1 / 2)) ii),
            fun ii => split_pos (sample_env false)
              (sample_flux.jacobian (fun _ => ((2 : ℚ) + 0) * (1 / 2)) ii),
            st.jacobians_constructed_,
            st.jacobian_calls ++ [fun _ => ((2 : ℚ) + 0) * (1 / 2)],
            st.eigen_solver_calls + 2⟩) ∧
      ret = evaluate_ret
          ⟨fun ii => split_neg (sample_env false)
              (sample_flux.jacobian (fun _ => ((2 : ℚ) + 0) * (1 / 2)) ii),
            fun ii => split_pos (sample_env false)
              (sample_flux.jacobian (fun _ => ((2 : ℚ) + 0) * (1 / 2)) ii),
            st.jacobians_constructed_,
            st.jacobian_calls ++ [fun _ => ((2 : ℚ) + 0) * (1 / 2)],
            st.eigen_solver_calls + 2⟩
          (sample_flux.evaluate fun _ => 2) ((fun _ => 2) - (fun _ => 0))
          ((sample_intersection 1 0 1).unitOuterNormal ()) 0 1 :=
  evaluate_nonlinear (sample_env false) ⟨sample_flux, false⟩ (sample_source 2)
    (sample_source 0) (sample_intersection 1 0 1) () (fun _ => 2) (fun _ => 0) 0 rfl rfl rfl
    (Or.inr fun _ => sample_env_accepts false _)
    (sample_direction_aligned false 1 0 1 0 (Or.inl ⟨rfl, Or.inl rfl, rfl⟩))

end GodunovNumericalCouplingFlux

/-- C14. Idempotent initialisation: for `is_linear = true`, once the cache is INITIALIZED,
the guarded initialisation (`if (!jacobians_constructed_ && is_linear_)
initialize_jacobians();`, in the constructors and at the head of `evaluate` for
`dimDomain = 1`) leaves every static member as it is: the matrices, the flag, and also the
records of provider calls and of solver constructions, so neither is invoked. -/
theorem initialize_guard_idempotent {P : Type} {dimDomain dimRange : ℕ}
    (env : Env dimRange) (PAPERFLUX : Bool)
    (analytical_flux_1 : AnalyticalFlux_1 dimRange) (st_1 : Statics_1 dimRange)
    (analytical_flux : AnalyticalFlux dimDomain dimRange) (st : Statics dimDomain dimRange)
    (hflag_1 : st_1.jacobians_constructed_ = true)
    (hflag : st.jacobians_constructed_ = true) :
    GodunovNumericalCouplingFlux_1.initialize_guard env PAPERFLUX ⟨analytical_flux_1, true⟩
        st_1 = .ok st_1 ∧
    GodunovNumericalCouplingFlux_1.construct env PAPERFLUX analytical_flux_1 true st_1
      = .ok (⟨analytical_flux_1, true⟩, st_1) ∧
    (∀ (local_source_entity local_source_neighbor : P → RangeType dimRange)
        (intersection : Intersection P 1) (x_intersection : P),
      ∃ ret, GodunovNumericalCouplingFlux_1.evaluate env PAPERFLUX ⟨analytical_flux_1, true⟩
        st_1 local_source_entity local_source_neighbor intersection x_intersection
          = .ok ⟨ret, st_1⟩) ∧
    GodunovNumericalCouplingFlux.construct env analytical_flux true st
      = .ok (⟨analytical_flux, true⟩, st) := by
  have hg := GodunovNumericalCouplingFlux_1.initialize_guard_constructed env PAPERFLUX
    ⟨analytical_flux_1, true⟩ st_1 (Or.inl hflag_1)
  refine ⟨hg, ?_, ?_, ?_⟩
  · unfold GodunovNumericalCouplingFlux_1.construct
    simp only [hg]
  · intro lse lsn I x
    exact ⟨_, GodunovNumericalCouplingFlux_1.evaluate_linear_1 env PAPERFLUX _ rfl st_1
      hflag_1 lse lsn I x⟩
  · rw [construct_linear_eq env analytical_flux st (Or.inl hflag), if_pos hflag]

/-- Instance of C14 on the sample data: the caches left by the construction of the first
linear evaluators. -/
theorem initialize_guard_idempotent_witness :
    GodunovNumericalCouplingFlux_1.initialize_guard (sample_env false) false
        ⟨advection_flux 1, true⟩ (sample_statics_1 1) = .ok (sample_statics_1 1) ∧
    GodunovNumericalCouplingFlux_1.construct (sample_env false) false (advection_flux 1) true
        (sample_statics_1 1) = .ok (⟨advection_flux 1, true⟩, sample_statics_1 1) ∧
    (∀ (local_source_entity local_source_neighbor : Unit → RangeType 1)
        (intersection : Intersection Unit 1) (x_intersection : Unit),
      ∃ ret, GodunovNumericalCouplingFlux_1.evaluate (sample_env false) false
        ⟨advection_flux 1, true⟩ (sample_statics_1 1) local_source_entity
        local_source_neighbor intersection x_intersection = .ok ⟨ret, sample_statics_1 1⟩) ∧
    GodunovNumericalCouplingFlux.construct (sample_env false) sample_flux true
        (sample_statics_linear false) = .ok (⟨sample_flux, true⟩, sample_statics_linear false) :=
  initialize_guard_idempotent (sample_env false) false (advection_flux 1) (sample_statics_1 1)
    sample_flux (sample_statics_linear false) rfl rfl

/-! ## Claims C15 to C18: the specialisation for `dimDomain = 1` and the boundary -/

namespace GodunovNumericalCouplingFlux_1

variable {P : Type} {dimRange : ℕ}

theorem reinitialize_jacobians_ok_1 (env : Env dimRange) (PAPERFLUX : Bool)
    (self : GodunovNumericalCouplingFlux_1 dimRange) (st : Statics_1 dimRange)
    (u_i u_j : RangeType dimRange)
    (h : env.NDEBUG = true ∨ solver_accepts env
      (self.analytical_flux_.jacobian fun kk => (u_i kk + u_j kk) * (1 / 2))) :
    reinitialize_jacobians env PAPERFLUX self st u_i u_j =
      .ok (calculate_jacobians_store PAPERFLUX
        ⟨st.jacobian_neg_, st.jacobian_pos_, st.jacobian_abs_, st.jacobian_neg_function_,
          st.jacobian_pos_function_, st.jacobian_abs_function_, st.jacobians_constructed_,
          st.jacobian_calls ++ [fun kk => (u_i kk + u_j kk) * (1 / 2)],
          st.eigen_solver_calls + 1⟩
        (split_neg env (self.analytical_flux_.jacobian fun kk => (u_i kk + u_j kk) * (1 / 2)))
        (split_pos env
          (self.analytical_flux_.jacobian fun kk => (u_i kk + u_j kk) * (1 / 2)))) := by
  unfold reinitialize_jacobians
  simp only []
  rw [calculate_jacobians_ok_1 env PAPERFLUX _ _ h]

theorem evaluate_nonlinear_1 (env : Env dimRange) (PAPERFLUX : Bool)
    (self : GodunovNumericalCouplingFlux_1 dimRange) (hlin : self.is_linear_ = false)
    (st : Statics_1 dimRange) (u_i u_j : RangeType dimRange) (n_ij : ℚ)
    (h : env.NDEBUG = true ∨ solver_accepts env
      (self.analytical_flux_.jacobian fun kk => (u_i kk + u_j kk) * (1 / 2))) :
    evaluate_flux env PAPERFLUX self st u_i u_j n_ij =
      .ok ⟨evaluate_ret PAPERFLUX self
          (calculate_jacobians_store PAPERFLUX
            ⟨st.jacobian_neg_, st.jacobian_pos_, st.jacobian_abs_, st.jacobian_neg_function_,
              st.jacobian_pos_function_, st.jacobian_abs_function_, st.jacobians_constructed_,
              st.jacobian_calls ++ [fun kk => (u_i kk + u_j kk) * (1 / 2)],
              st.eigen_solver_calls + 1⟩
            (split_neg env
              (self.analytical_flux_.jacobian fun kk => (u_i kk + u_j kk) * (1 / 2)))
            (split_pos env
              (self.analytical_flux_.jacobian fun kk => (u_i kk + u_j kk) * (1 / 2))))
          u_i u_j n_ij,
        calculate_jacobians_store PAPERFLUX
          ⟨st.jacobian_neg_, st.jacobian_pos_, st.jacobian_abs_, st.jacobian_neg_function_,
            st.jacobian_pos_function_, st.jacobian_abs_function_, st.jacobians_constructed_,
            st.jacobian_calls ++ [fun kk => (u_i kk + u_j kk) * (1 / 2)],
            st.eigen_solver_calls + 1⟩
          (split_neg env
            (self.analytical_flux_.jacobian fun kk => (u_i kk + u_j kk) * (1 / 2)))
          (split_pos env
            (self.analytical_flux_.jacobian fun kk => (u_i kk + u_j kk) * (1 / 2)))⟩ := by
  unfold evaluate_flux evaluate_jacobians
  rw [initialize_guard_constructed env PAPERFLUX self st (Or.inr hlin)]
  simp only [hlin, Bool.not_false, if_true]
  rw [reinitialize_jacobians_ok_1 env PAPERFLUX self st u_i u_j h]

/-- The default path of lines 330-341 and the return vector of lines 163-176 with
`dimDomain = 1` and face measure one, on caches that hold the same split. -/
theorem evaluate_ret_general (self : GodunovNumericalCouplingFlux_1 dimRange)
    (st : Statics 1 dimRange) (st_1 : Statics_1 dimRange) (hs : same_split st st_1)
    (u_i u_j : RangeType dimRange) (n_ij : Fin 1 → ℚ) (hn : n_ij 0 = 1 ∨ n_ij 0 = -1) :
    evaluate_ret false self st_1 u_i u_j (n_ij 0) =
      GodunovNumericalCouplingFlux.evaluate_ret st
        (self.analytical_flux_.general.evaluate u_i) (u_i - u_j) n_ij 0 1 := by
  have hsw : ∀ M : RMatrix dimRange, M.mulVec (u_j - u_i) = -(M.mulVec (u_i - u_j)) := by
    intro M
    rw [← neg_sub, Matrix.mulVec_neg]
  rcases hn with hn | hn
  · rw [GodunovNumericalCouplingFlux.evaluate_ret_of_pos _ _ _ _ _ _ hn]
    have hpos : n_ij 0 > 0 := by rw [hn]; exact one_pos
    funext kk
    unfold evaluate_ret
    simp only [Bool.false_eq_true, if_false, if_pos hpos, hs.1, AffineFunctionType.evaluate,
      hsw]
    simp [AnalyticalFlux_1.general, sub_eq_add_neg]
  · rw [GodunovNumericalCouplingFlux.evaluate_ret_of_neg _ _ _ _ _ _ hn]
    have hneg : ¬ n_ij 0 > 0 := by rw [hn]; norm_num
    funext kk
    unfold evaluate_ret
    simp only [Bool.false_eq_true, if_false, if_neg hneg, hs.2, AffineFunctionType.evaluate]
    simp [AnalyticalFlux_1.general, sub_eq_add_neg, add_comm]

end GodunovNumericalCouplingFlux_1

theorem same_split_store {dimRange : ℕ} (st : Statics_1 dimRange) (A B : RMatrix dimRange)
    (c : Bool) (l : List (RangeType dimRange)) (k : ℕ) :
    same_split ⟨fun _ => A, fun _ => B, c, l, k⟩
      (GodunovNumericalCouplingFlux_1.calculate_jacobians_store false st A B) :=
  ⟨rfl, rfl⟩

/-- The face measure is a factor of the return vector of lines 163-176. -/
theorem evaluate_ret_volume {dimDomain dimRange : ℕ} (st : Statics dimDomain dimRange)
    (f_u_i : Matrix (Fin dimRange) (Fin dimDomain) ℚ) (delta_u : RangeType dimRange)
    (n_ij : Fin dimDomain → ℚ) (coord : Fin dimDomain) (vol : ℚ) :
    GodunovNumericalCouplingFlux.evaluate_ret st f_u_i delta_u n_ij coord vol =
      fun kk => GodunovNumericalCouplingFlux.evaluate_ret st f_u_i delta_u n_ij coord 1 kk
        * vol := by
  unfold GodunovNumericalCouplingFlux.evaluate_ret
  split
  · funext kk
    simp
  · funext kk
    simp

/-- C15, what the code does. For `dimDomain = 1`, a normal `n ∈ {+1, -1}`, every face
measure, in nonlinear mode and in linear mode (where the cache of the specialisation, after
the guarded initialisation of lines 305-306, holds the same split as the cache of the general
evaluator): let `ret` be the vector that `evaluate` of
`GodunovNumericalCouplingFlux< ..., 1 >` computes on its default path. Then `evaluate` of
general `dimDomain`, run with `dimDomain = 1` on the same inputs, returns
`ret · face_measure`, which is `ret` on a face of measure `1`, and the two caches hold the
same split afterwards. The body of the specialisation ends there (`EndOfBody`): it has no
`return` statement, and its lines 330-341 have no factor `vol_intersection`. -/
theorem evaluate_1_eq_general {P : Type} {dimRange : ℕ} (env : Env dimRange)
    (hcmp : FloatCmp_exact env) (F : AnalyticalFlux_1 dimRange) (is_linear : Bool)
    (st st1 : Statics 1 dimRange) (st_1 : Statics_1 dimRange)
    (local_source_entity local_source_neighbor : P → RangeType dimRange)
    (intersection : Intersection P 1) (x_intersection : P)
    (hn : intersection.unitOuterNormal x_intersection 0 = 1 ∨
      intersection.unitOuterNormal x_intersection 0 = -1)
    (hcache : is_linear = true → ∃ st_1g,
      GodunovNumericalCouplingFlux_1.initialize_guard env false ⟨F, true⟩ st_1 = .ok st_1g ∧
      same_split st st_1g)
    (hsplit : GodunovNumericalCouplingFlux.evaluate_jacobians env ⟨F.general, is_linear⟩ st
      (local_source_entity (intersection.geometryInInside_global x_intersection))
      (local_source_neighbor (intersection.geometryInOutside_global x_intersection))
        = .ok st1) :
    ∃ ret st1_1,
      GodunovNumericalCouplingFlux_1.evaluate env false ⟨F, is_linear⟩ st_1
        local_source_entity local_source_neighbor intersection x_intersection
          = .ok ⟨ret, st1_1⟩ ∧
      GodunovNumericalCouplingFlux.evaluate env ⟨F.general, is_linear⟩ st
        local_source_entity local_source_neighbor intersection x_intersection
          = .ok (fun kk => ret kk * intersection.geometry_volume, st1) ∧
      (intersection.geometry_volume = 1 →
        GodunovNumericalCouplingFlux.evaluate env ⟨F.general, is_linear⟩ st
          local_source_entity local_source_neighbor intersection x_intersection
            = .ok (ret, st1)) ∧
      same_split st1 st1_1 := by
  have hdir := evaluate_direction_exact env hcmp
    (intersection.unitOuterNormal x_intersection) 0 hn
    (fun ii hii => absurd (Subsingleton.elim ii 0) hii)
  have hgen := GodunovNumericalCouplingFlux.evaluate_eq env ⟨F.general, is_linear⟩ st st1
    local_source_entity local_source_neighbor intersection x_intersection 0 hsplit hdir
  rw [evaluate_ret_volume] at hgen
  have hone : ∀ ret : RangeType dimRange, intersection.geometry_volume = 1 →
      (fun kk => ret kk * intersection.geometry_volume) = ret := by
    intro ret hvol
    funext kk
    rw [hvol, mul_one]
  cases is_linear
  · -- nonlinear mode
    unfold GodunovNumericalCouplingFlux.evaluate_jacobians at hsplit
    simp only [Bool.not_false, if_true] at hsplit
    have hacc := calculate_jacobians_accepts env _ _ _ hsplit
    rw [reinitialize_jacobians_ok env _ st _ _ hacc] at hsplit
    injection hsplit with hst
    have hacc1 : env.NDEBUG = true ∨ solver_accepts env (F.jacobian fun kk =>
        (local_source_entity (intersection.geometryInInside_global x_intersection) kk
          + local_source_neighbor (intersection.geometryInOutside_global x_intersection) kk)
          * (1 / 2)) :=
      hacc.imp id fun h => h 0
    have h1 := GodunovNumericalCouplingFlux_1.evaluate_nonlinear_1 env false ⟨F, false⟩ rfl
      st_1 _ _ (intersection.unitOuterNormal x_intersection 0) hacc1
    have hs : same_split st1 (GodunovNumericalCouplingFlux_1.calculate_jacobians_store false
        ⟨st_1.jacobian_neg_, st_1.jacobian_pos_, st_1.jacobian_abs_,
          st_1.jacobian_neg_function_, st_1.jacobian_pos_function_,
          st_1.jacobian_abs_function_, st_1.jacobians_constructed_,
          st_1.jacobian_calls ++ [fun kk =>
            (local_source_entity (intersection.geometryInInside_global x_intersection) kk
              + local_source_neighbor (intersection.geometryInOutside_global x_intersection) kk)
              * (1 / 2)],
          st_1.eigen_solver_calls + 1⟩
        (split_neg env (F.jacobian fun kk =>
          (local_source_entity (intersection.geometryInInside_global x_intersection) kk
            + local_source_neighbor (intersection.geometryInOutside_global x_intersection) kk)
            * (1 / 2)))
        (split_pos env (F.jacobian fun kk =>
          (local_source_entity (intersection.geometryInInside_global x_intersection) kk
            + local_source_neighbor (intersection.geometryInOutside_global x_intersection) kk)
            * (1 / 2)))) := by
      rw [← hst]
      exact same_split_store _ _ _ _ _ _
    have h1g : GodunovNumericalCouplingFlux_1.evaluate env false ⟨F, false⟩ st_1
        local_source_entity local_source_neighbor intersection x_intersection = _ := h1
    rw [GodunovNumericalCouplingFlux_1.evaluate_ret_general ⟨F, false⟩ st1 _ hs _ _ _ hn]
      at h1g
    refine ⟨_, _, h1g, hgen, fun hvol => ?_, hs⟩
    rw [hgen, hone _ hvol]
  · -- linear mode
    obtain ⟨st_1g, hg, hs⟩ := hcache rfl
    have hst : st1 = st := by
      unfold GodunovNumericalCouplingFlux.evaluate_jacobians at hsplit
      simp only [Bool.not_true, Bool.false_eq_true, if_false] at hsplit
      injection hsplit with hst
      exact hst.symm
    subst hst
    have h1 : GodunovNumericalCouplingFlux_1.evaluate env false ⟨F, true⟩ st_1
        local_source_entity local_source_neighbor intersection x_intersection =
        .ok ⟨GodunovNumericalCouplingFlux_1.evaluate_ret false ⟨F, true⟩ st_1g
          (local_source_entity (intersection.geometryInInside_global x_intersection))
          (local_source_neighbor (intersection.geometryInOutside_global x_intersection))
          (intersection.unitOuterNormal x_intersection 0), st_1g⟩ := by
      unfold GodunovNumericalCouplingFlux_1.evaluate
        GodunovNumericalCouplingFlux_1.evaluate_flux
        GodunovNumericalCouplingFlux_1.evaluate_jacobians
      simp [hg]
    rw [GodunovNumericalCouplingFlux_1.evaluate_ret_general ⟨F, true⟩ st1 _ hs _ _ _ hn] at h1
    refine ⟨_, _, h1, hgen, fun hvol => ?_, hs⟩
    rw [hgen, hone _ hvol]

theorem sample_construct_1 (NDEBUG : Bool) (a : ℚ) :
    GodunovNumericalCouplingFlux_1.construct (sample_env NDEBUG) false (advection_flux a) true
      (Statics_1.initial 1) = .ok (⟨advection_flux a, true⟩, sample_statics_1 a) := by
  unfold GodunovNumericalCouplingFlux_1.construct
    GodunovNumericalCouplingFlux_1.initialize_guard
    GodunovNumericalCouplingFlux_1.initialize_jacobians
  simp only [Statics_1.initial, Bool.not_false, Bool.and_self, if_true]
  rw [GodunovNumericalCouplingFlux_1.calculate_jacobians_ok_1 _ _ _ _
    (Or.inr (sample_env_accepts NDEBUG _))]
  simp only [GodunovNumericalCouplingFlux_1.calculate_jacobians_store, sample_split_neg,
    sample_split_pos, Bool.false_eq_true, if_false]
  have hJ : ∀ u, (advection_flux a).jacobian u 0 0 = a := fun _ => rfl
  simp only [hJ]
  have habs : (-1 : ℚ) • (Matrix.of fun (_ _ : Fin 1) => if a < 0 then a else 0)
      + (Matrix.of fun (_ _ : Fin 1) => if 0 ≤ a then a else 0)
      = Matrix.of fun _ _ => |a| := by
    ext i j
    by_cases ha : a < 0
    · simp [ha, not_le.2 ha, abs_of_neg ha]
    · simp [ha, not_lt.1 ha, abs_of_nonneg (not_lt.1 ha)]
  simp only [habs]
  rfl

theorem sample_evaluate_ret_1 (a u_i u_j : ℚ) (is_linear : Bool) (st : Statics_1 1)
    (hneg : st.jacobian_neg_function_ = ⟨Matrix.of fun _ _ => if a < 0 then a else 0, 0⟩) :
    GodunovNumericalCouplingFlux_1.evaluate_ret false ⟨advection_flux a, is_linear⟩ st
      (fun _ => u_i) (fun _ => u_j) 1 = fun _ => if a < 0 then a * u_j else a * u_i := by
  funext kk
  unfold GodunovNumericalCouplingFlux_1.evaluate_ret
  simp only [Bool.false_eq_true, if_false, if_pos (show (1 : ℚ) > 0 from one_pos), hneg,
    AffineFunctionType.evaluate]
  by_cases ha : a < 0
  · simp [advection_flux, ha, Matrix.mulVec, Matrix.dotProduct]
    ring
  · simp [advection_flux, ha, Matrix.mulVec, Matrix.dotProduct]

theorem sample_evaluate_1 (NDEBUG is_linear : Bool) (a u_i u_j : ℚ) :
    ∃ st1 st2,
      GodunovNumericalCouplingFlux_1.construct (sample_env NDEBUG) false (advection_flux a)
        is_linear (Statics_1.initial 1) = .ok (⟨advection_flux a, is_linear⟩, st1) ∧
      GodunovNumericalCouplingFlux_1.evaluate (sample_env NDEBUG) false
        ⟨advection_flux a, is_linear⟩ st1 (sample_source u_i) (sample_source u_j)
        (sample_intersection_1 1 1) ()
          = .ok ⟨fun _ => if a < 0 then a * u_j else a * u_i, st2⟩ := by
  cases is_linear
  · have hcon : GodunovNumericalCouplingFlux_1.construct (sample_env NDEBUG) false
        (advection_flux a) false (Statics_1.initial 1)
        = .ok (⟨advection_flux a, false⟩, Statics_1.initial 1) := by
      unfold GodunovNumericalCouplingFlux_1.construct
      simp only [GodunovNumericalCouplingFlux_1.initialize_guard_constructed
        (sample_env NDEBUG) false ⟨advection_flux a, false⟩ (Statics_1.initial 1) (Or.inr rfl)]
    have h := GodunovNumericalCouplingFlux_1.evaluate_nonlinear_1 (sample_env NDEBUG) false
      ⟨advection_flux a, false⟩ rfl (Statics_1.initial 1) (fun _ => u_i) (fun _ => u_j) 1
      (Or.inr (sample_env_accepts NDEBUG _))
    rw [sample_evaluate_ret_1 a u_i u_j false _ (by
      simp only [GodunovNumericalCouplingFlux_1.calculate_jacobians_store, sample_split_neg,
        Bool.false_eq_true, if_false]
      rfl)] at h
    exact ⟨_, _, hcon, h⟩
  · refine ⟨sample_statics_1 a, sample_statics_1 a, sample_construct_1 NDEBUG a, ?_⟩
    rw [GodunovNumericalCouplingFlux_1.evaluate_linear_1 _ _ _ rfl _ rfl]
    congr 2
    exact sample_evaluate_ret_1 a u_i u_j true _ rfl

/-- C17, what the code computes. One-dimensional evaluator, flux `f(u) = a·u`, exact scalar
eigen-solver, in linear and in nonlinear mode, constructed on the initial static members
and called with normal `+1` and face measure `1`: at the end of the body of `evaluate` the
local vector `ret` holds `a·u_i` when `a > 0` and `a·u_j` when `a < 0`. The body then ends
(`EndOfBody`): there is no `return` statement that hands `ret` to the caller. -/
theorem advection_end_to_end (NDEBUG is_linear : Bool) (a u_i u_j : ℚ) :
    ∃ self st1 end_of_body,
      GodunovNumericalCouplingFlux_1.construct (sample_env NDEBUG) false (advection_flux a)
        is_linear (Statics_1.initial 1) = .ok (self, st1) ∧
      GodunovNumericalCouplingFlux_1.evaluate (sample_env NDEBUG) false self st1
        (sample_source u_i) (sample_source u_j) (sample_intersection_1 1 1) ()
          = .ok end_of_body ∧
      (0 < a → end_of_body.ret = fun _ => a * u_i) ∧
      (a < 0 → end_of_body.ret = fun _ => a * u_j) := by
  obtain ⟨st1, st2, h1, h2⟩ := sample_evaluate_1 NDEBUG is_linear a u_i u_j
  refine ⟨_, _, _, h1, h2, ?_, ?_⟩
  · intro ha
    funext kk
    simp [not_lt.2 ha.le]
  · intro ha
    funext kk
    simp [ha]

theorem sample_general_evaluate_jacobians (NDEBUG : Bool) (a : ℚ) (st : Statics 1 1)
    (u_i u_j : RangeType 1) :
    GodunovNumericalCouplingFlux.evaluate_jacobians (sample_env NDEBUG)
        ⟨(advection_flux a).general, false⟩ st u_i u_j =
      .ok ⟨fun _ => split_neg (sample_env NDEBUG) (Matrix.of fun _ _ => a),
        fun _ => split_pos (sample_env NDEBUG) (Matrix.of fun _ _ => a),
        st.jacobians_constructed_,
        st.jacobian_calls ++ [fun kk => (u_i kk + u_j kk) * (1 / 2)],
        st.eigen_solver_calls + 1⟩ := by
  unfold GodunovNumericalCouplingFlux.evaluate_jacobians
  simp only [Bool.not_false, if_true]
  rw [reinitialize_jacobians_ok _ _ _ _ _ (Or.inr fun ii => sample_env_accepts NDEBUG _)]
  rfl

/-- Instance of C15 on the sample data: advection with speed `1`, nonlinear mode, states
`2` and `1`, normal `+1`, face measure `1`. The general evaluator returns the vector `ret`
with which the body of the specialisation ends. -/
theorem evaluate_1_eq_general_witness :
    ∃ st1 ret st1_1,
      GodunovNumericalCouplingFlux_1.evaluate (sample_env false) false
        ⟨advection_flux 1, false⟩ (Statics_1.initial 1)
        (sample_source 2) (sample_source 1) (sample_intersection_1 1 1) ()
          = .ok ⟨ret, st1_1⟩ ∧
      GodunovNumericalCouplingFlux.evaluate (sample_env false)
        ⟨(advection_flux 1).general, false⟩ (Statics.initial 1 1)
        (sample_source 2) (sample_source 1) (sample_intersection_1 1 1) ()
          = .ok (fun kk => ret kk * (sample_intersection_1 1 1).geometry_volume, st1) ∧
      ((sample_intersection_1 1 1).geometry_volume = 1 →
        GodunovNumericalCouplingFlux.evaluate (sample_env false)
          ⟨(advection_flux 1).general, false⟩ (Statics.initial 1 1)
          (sample_source 2) (sample_source 1) (sample_intersection_1 1 1) ()
            = .ok (ret, st1)) ∧
      same_split st1 st1_1 :=
  ⟨_, evaluate_1_eq_general (sample_env false) (sample_env_exact false) (advection_flux 1)
    false (Statics.initial 1 1) _ (Statics_1.initial 1) (sample_source 2) (sample_source 1)
    (sample_intersection_1 1 1) () (Or.inl rfl) (fun h => absurd h (by simp))
    (sample_general_evaluate_jacobians false 1 _ _ _)⟩

theorem boundary_evaluate_eq {E P : Type} {dimDomain dimRange : ℕ} [NeZero dimDomain]
    (env : Env dimRange) (self : GodunovNumericalBoundaryFlux E P dimDomain dimRange)
    (st st1 : Statics dimDomain dimRange)
    (local_functions_tuple local_source_entity : P → RangeType dimRange)
    (intersection : Intersection P dimDomain) (x_intersection localPoint : P)
    (coord : Fin dimDomain)
    (hsplit : GodunovNumericalBoundaryFlux.evaluate_jacobians env self st
      (local_source_entity (intersection.geometryInInside_global
        (intersection.geometryInInside_global x_intersection)))
      (local_functions_tuple (intersection.geometryInInside_global x_intersection))
        = .ok st1)
    (hdir : GodunovNumericalCouplingFlux.evaluate_direction env
      (intersection.unitOuterNormal localPoint) = .ok coord) :
    GodunovNumericalBoundaryFlux.evaluate env self st local_functions_tuple
        local_source_entity intersection x_intersection localPoint =
      .ok (GodunovNumericalCouplingFlux.evaluate_ret st1
          (self.analytical_flux_.evaluate
            (local_source_entity (intersection.geometryInInside_global
              (intersection.geometryInInside_global x_intersection))))
          (local_source_entity (intersection.geometryInInside_global
              (intersection.geometryInInside_global x_intersection))
            - local_functions_tuple (intersection.geometryInInside_global x_intersection))
          (intersection.unitOuterNormal localPoint) coord intersection.geometry_volume,
        st1) := by
  unfold GodunovNumericalBoundaryFlux.evaluate
  simp only [hsplit, hdir]

theorem boundary_reinitialize_jacobians_ok {E P : Type} {dimDomain dimRange : ℕ}
    (env : Env dimRange) (self : GodunovNumericalBoundaryFlux E P dimDomain dimRange)
    (st : Statics dimDomain dimRange) (u_i u_j : RangeType dimRange)
    (h : env.NDEBUG = true ∨ ∀ ii, solver_accepts env
      (self.analytical_flux_.jacobian (fun kk => (u_i kk + u_j kk) * (1 / 2)) ii)) :
    GodunovNumericalBoundaryFlux.reinitialize_jacobians env self st u_i u_j =
      .ok ⟨fun ii => split_neg env
            (self.analytical_flux_.jacobian (fun kk => (u_i kk + u_j kk) * (1 / 2)) ii),
          fun ii => split_pos env
            (self.analytical_flux_.jacobian (fun kk => (u_i kk + u_j kk) * (1 / 2)) ii),
          st.jacobians_constructed_,
          st.jacobian_calls ++ [fun kk => (u_i kk + u_j kk) * (1 / 2)],
          st.eigen_solver_calls + dimDomain⟩ := by
  unfold GodunovNumericalBoundaryFlux.reinitialize_jacobians
  simp only []
  rw [calculate_jacobians_ok env _ _ h]

/-- C16, what the code computes at a point where the claim fails. Sample flux (`u³` along
axis 0), inside state equal to the point coordinate, boundary value `1`, a face whose map
into the inside entity moves a point by one, face point `0`, normal `(1, 0)`, nonlinear
mode. The boundary evaluator samples the inside state after mapping the point twice
(line 494), `u_i = 2`, and computes `ret = 8`; the interior algorithm on the inside state at
the point mapped once, `u_i = 1`, and on `u_j = 1` returns `1`. -/
theorem boundary_evaluate_maps_twice :
    ∃ ret st1 ret2 st2,
      GodunovNumericalBoundaryFlux.evaluate (sample_env false) sample_boundary_flux_q
        (Statics.initial 2 1) (sample_boundary_flux_q.localFunctions ()) coordinate_source
        shifted_intersection 0 0 = .ok (ret, st1) ∧
      ret 0 = 8 ∧
      GodunovNumericalCouplingFlux.evaluate (sample_env false) ⟨sample_flux, false⟩
        (Statics.initial 2 1) coordinate_source
        (fun _ => sample_boundary_flux_q.localFunctions ()
          (shifted_intersection.geometryInInside_global 0))
        shifted_intersection 0 = .ok (ret2, st2) ∧
      ret2 0 = 1 := by
  have hdir : GodunovNumericalCouplingFlux.evaluate_direction (sample_env false)
      (shifted_intersection.unitOuterNormal 0) = .ok 0 :=
    evaluate_direction_exact _ (sample_env_exact false) _ 0 (Or.inl rfl)
      (by intro ii hii; fin_cases ii <;> simp [shifted_intersection] at hii ⊢)
  have hb : GodunovNumericalBoundaryFlux.evaluate_jacobians (sample_env false)
      sample_boundary_flux_q (Statics.initial 2 1)
      (coordinate_source (shifted_intersection.geometryInInside_global
        (shifted_intersection.geometryInInside_global 0)))
      (sample_boundary_flux_q.localFunctions ()
        (shifted_intersection.geometryInInside_global 0)) = _ :=
    boundary_reinitialize_jacobians_ok (sample_env false) sample_boundary_flux_q _ _ _
      (Or.inr fun ii => sample_env_accepts false _)
  have hc : GodunovNumericalCouplingFlux.evaluate_jacobians (sample_env false)
      ⟨sample_flux, false⟩ (Statics.initial 2 1)
      (coordinate_source (shifted_intersection.geometryInInside_global 0))
      (sample_boundary_flux_q.localFunctions ()
        (shifted_intersection.geometryInInside_global 0)) = _ :=
    reinitialize_jacobians_ok (sample_env false) ⟨sample_flux, false⟩ _ _ _
      (Or.inr fun ii => sample_env_accepts false _)
  refine ⟨_, _, _, _,
    boundary_evaluate_eq (sample_env false) sample_boundary_flux_q _ _ _ _ _ _ _ 0 hb hdir,
    ?_,
    GodunovNumericalCouplingFlux.evaluate_eq (sample_env false) ⟨sample_flux, false⟩ _ _
      coordinate_source _ shifted_intersection 0 0 hc hdir, ?_⟩
  · rw [GodunovNumericalCouplingFlux.evaluate_ret_of_pos _ _ _ _ _ _ rfl]
    simp [sample_split_neg, sample_flux, sample_boundary_flux_q, coordinate_source,
      shifted_intersection, GodunovNumericalBoundaryFlux.localFunctions, Matrix.mulVec,
      Matrix.dotProduct]
    norm_num
  · rw [GodunovNumericalCouplingFlux.evaluate_ret_of_pos _ _ _ _ _ _ rfl]
    simp [sample_split_neg, sample_flux, sample_boundary_flux_q, coordinate_source,
      shifted_intersection, GodunovNumericalBoundaryFlux.localFunctions, Matrix.mulVec,
      Matrix.dotProduct]

namespace GodunovNumericalCouplingFlux_1

variable {P : Type} {dimRange : ℕ}

theorem calculate_jacobians_store_abs (st : Statics_1 dimRange) (A B : RMatrix dimRange) :
    (calculate_jacobians_store true st A B).jacobian_abs_function_ =
      ⟨(calculate_jacobians_store true st A B).jacobian_pos_
        - (calculate_jacobians_store true st A B).jacobian_neg_, 0⟩ := by
  simp [calculate_jacobians_store, sub_eq_add_neg, add_comm]

/-- With `PAPERFLUX` set, the function `jacobian_abs_function_` of the cache a call works
with is the product with `jacobian_pos_ - jacobian_neg_`, provided this held for a cache
that was INITIALIZED before the call. -/
theorem evaluate_jacobians_abs (env : Env dimRange)
    (self : GodunovNumericalCouplingFlux_1 dimRange) (st st1 : Statics_1 dimRange)
    (u_i u_j : RangeType dimRange)
    (hinv : self.is_linear_ = true → st.jacobians_constructed_ = true →
      st.jacobian_abs_function_ = ⟨st.jacobian_pos_ - st.jacobian_neg_, 0⟩)
    (hsplit : evaluate_jacobians env true self st u_i u_j = .ok st1) :
    st1.jacobian_abs_function_ = ⟨st1.jacobian_pos_ - st1.jacobian_neg_, 0⟩ := by
  unfold evaluate_jacobians at hsplit
  cases hlin : self.is_linear_
  · rw [initialize_guard_constructed env true self st (Or.inr hlin)] at hsplit
    simp only [hlin, Bool.not_false, if_true] at hsplit
    have hacc := calculate_jacobians_accepts_1 env true _ _ _ hsplit
    rw [reinitialize_jacobians_ok_1 env true self st u_i u_j hacc] at hsplit
    injection hsplit with hst
    rw [← hst]
    exact calculate_jacobians_store_abs _ _ _
  · cases hflag : st.jacobians_constructed_
    · have hg : initialize_guard env true self st = initialize_jacobians env true self st := by
        unfold initialize_guard
        simp [hflag, hlin]
      rw [hg] at hsplit
      cases hi : initialize_jacobians env true self st with
      | error e =>
        rw [hi] at hsplit
        exact Except.noConfusion hsplit
      | ok st2 =>
        obtain ⟨st3, h3, hfacts⟩ := initialize_jacobians_ok_1 env true self st
          (initialize_jacobians_accepts_1 env true self st st2 hi)
        rw [h3] at hsplit
        simp only [hlin, Bool.not_true, Bool.false_eq_true, if_false] at hsplit
        injection hsplit with hst
        subst hst
        rw [hfacts.2.2.2.2.2.2.2 rfl, hfacts.2.2.2.2.2.1]
    · rw [initialize_guard_constructed env true self st (Or.inl hflag)] at hsplit
      simp only [hlin, Bool.not_true, Bool.false_eq_true, if_false] at hsplit
      injection hsplit with hst
      subst hst
      exact hinv hlin hflag

end GodunovNumericalCouplingFlux_1

namespace GodunovNumericalCouplingFlux_1

theorem evaluate_jacobians_nonlinear_1 {dimRange : ℕ} (env : Env dimRange) (PAPERFLUX : Bool)
    (self : GodunovNumericalCouplingFlux_1 dimRange) (hlin : self.is_linear_ = false)
    (st : Statics_1 dimRange) (u_i u_j : RangeType dimRange)
    (h : env.NDEBUG = true ∨ solver_accepts env
      (self.analytical_flux_.jacobian fun kk => (u_i kk + u_j kk) * (1 / 2))) :
    evaluate_jacobians env PAPERFLUX self st u_i u_j =
      .ok (calculate_jacobians_store PAPERFLUX
        ⟨st.jacobian_neg_, st.jacobian_pos_, st.jacobian_abs_, st.jacobian_neg_function_,
          st.jacobian_pos_function_, st.jacobian_abs_function_, st.jacobians_constructed_,
          st.jacobian_calls ++ [fun kk => (u_i kk + u_j kk) * (1 / 2)],
          st.eigen_solver_calls + 1⟩
        (split_neg env (self.analytical_flux_.jacobian fun kk => (u_i kk + u_j kk) * (1 / 2)))
        (split_pos env
          (self.analytical_flux_.jacobian fun kk => (u_i kk + u_j kk) * (1 / 2)))) := by
  unfold evaluate_jacobians
  rw [initialize_guard_constructed env PAPERFLUX self st (Or.inr hlin)]
  simp only [hlin, Bool.not_false, if_true]
  exact reinitialize_jacobians_ok_1 env PAPERFLUX self st u_i u_j h

end GodunovNumericalCouplingFlux_1

/-! ## Claims C19 and C20: who owns the cache -/

/-- C19, as the code has it. The cache is one set of static members of the class, shared by
every evaluator object of the instantiation. On static members `st`, whichever evaluator
left them: a construction with `is_linear = false` changes nothing; a construction with
`is_linear = true` changes nothing when the cache is INITIALIZED; an `evaluate` of another
evaluator `other` keeps the flag, changes nothing when `other` is linear, and when `other`
is nonlinear replaces `jacobian_neg_`, `jacobian_pos_` on every axis by the split of the
Jacobian of the flux of `other` at `0.5·(u_i + u_j)`; a linear evaluator that evaluates
next computes its flux from the static members `other` left. -/
theorem shared_cache {P : Type} {dimDomain dimRange : ℕ} [NeZero dimDomain]
    (env : Env dimRange) (other : GodunovNumericalCouplingFlux dimDomain dimRange)
    (st : Statics dimDomain dimRange)
    (local_source_entity local_source_neighbor : P → RangeType dimRange)
    (intersection : Intersection P dimDomain) (x_intersection : P)
    (u_i u_j : RangeType dimRange) (coord : Fin dimDomain)
    (hu_i : local_source_entity (intersection.geometryInInside_global x_intersection) = u_i)
    (hu_j : local_source_neighbor (intersection.geometryInOutside_global x_intersection) = u_j)
    (hacc : other.is_linear_ = true ∨ env.NDEBUG = true ∨ ∀ ii, solver_accepts env
      (other.analytical_flux_.jacobian (fun kk => (u_i kk + u_j kk) * (1 / 2)) ii))
    (hdir : GodunovNumericalCouplingFlux.evaluate_direction env
      (intersection.unitOuterNormal x_intersection) = .ok coord) :
    (∀ analytical_flux, GodunovNumericalCouplingFlux.construct env analytical_flux false st
      = .ok (⟨analytical_flux, false⟩, st)) ∧
    (∀ analytical_flux, st.jacobians_constructed_ = true →
      GodunovNumericalCouplingFlux.construct env analytical_flux true st
        = .ok (⟨analytical_flux, true⟩, st)) ∧
    ∃ ret st1,
      GodunovNumericalCouplingFlux.evaluate env other st local_source_entity
        local_source_neighbor intersection x_intersection = .ok (ret, st1) ∧
      st1.jacobians_constructed_ = st.jacobians_constructed_ ∧
      (other.is_linear_ = true → st1 = st) ∧
      (other.is_linear_ = false → ∀ ii,
        st1.jacobian_neg_ ii = split_neg env
          (other.analytical_flux_.jacobian (fun kk => (u_i kk + u_j kk) * (1 / 2)) ii) ∧
        st1.jacobian_pos_ ii = split_pos env
          (other.analytical_flux_.jacobian (fun kk => (u_i kk + u_j kk) * (1 / 2)) ii)) ∧
      ∀ self : GodunovNumericalCouplingFlux dimDomain dimRange, self.is_linear_ = true →
        GodunovNumericalCouplingFlux.evaluate env self st1 local_source_entity
            local_source_neighbor intersection x_intersection =
          .ok (GodunovNumericalCouplingFlux.evaluate_ret st1
            (self.analytical_flux_.evaluate u_i) (u_i - u_j)
            (intersection.unitOuterNormal x_intersection) coord
            intersection.geometry_volume, st1) := by
  subst hu_i hu_j
  have hnext : ∀ (st1 : Statics dimDomain dimRange)
      (self : GodunovNumericalCouplingFlux dimDomain dimRange), self.is_linear_ = true →
      GodunovNumericalCouplingFlux.evaluate env self st1 local_source_entity
          local_source_neighbor intersection x_intersection =
        .ok (GodunovNumericalCouplingFlux.evaluate_ret st1
          (self.analytical_flux_.evaluate
            (local_source_entity (intersection.geometryInInside_global x_intersection)))
          (local_source_entity (intersection.geometryInInside_global x_intersection)
            - local_source_neighbor (intersection.geometryInOutside_global x_intersection))
          (intersection.unitOuterNormal x_intersection) coord
          intersection.geometry_volume, st1) := by
    intro st1 self hlin
    rw [evaluate_linear_eq env self hlin, hdir]
  refine ⟨?_, ?_, ?_⟩
  · intro analytical_flux
    unfold GodunovNumericalCouplingFlux.construct
    simp
  · intro analytical_flux hflag
    rw [construct_linear_eq env analytical_flux st (Or.inl hflag)]
    simp [hflag]
  · cases hlin : other.is_linear_
    · have h : env.NDEBUG = true ∨ ∀ ii, solver_accepts env
          (other.analytical_flux_.jacobian (fun kk =>
            (local_source_entity (intersection.geometryInInside_global x_intersection) kk
              + local_source_neighbor
                  (intersection.geometryInOutside_global x_intersection) kk)
              * (1 / 2)) ii) := by
        rcases hacc with h | h
        · rw [hlin] at h
          exact absurd h (by simp)
        · exact h
      have hsplit : GodunovNumericalCouplingFlux.evaluate_jacobians env other st
          (local_source_entity (intersection.geometryInInside_global x_intersection))
          (local_source_neighbor (intersection.geometryInOutside_global x_intersection))
          = GodunovNumericalCouplingFlux.reinitialize_jacobians env other st
            (local_source_entity (intersection.geometryInInside_global x_intersection))
            (local_source_neighbor
              (intersection.geometryInOutside_global x_intersection)) := by
        unfold GodunovNumericalCouplingFlux.evaluate_jacobians
        simp only [hlin, Bool.not_false, if_true]
      rw [reinitialize_jacobians_ok env other st _ _ h] at hsplit
      exact ⟨_, _, GodunovNumericalCouplingFlux.evaluate_eq env other st _ _ _ _ _ coord
        hsplit hdir, rfl, fun h => absurd h (by simp), fun _ ii => ⟨rfl, rfl⟩, hnext _⟩
    · exact ⟨_, st, hnext st other hlin, rfl, fun _ => rfl, fun h => absurd h (by simp),
        hnext st⟩

/-- Instance of the amended C19 on the sample data: the static members a linear evaluator
for `sample_flux` left, a nonlinear evaluator for the same flux, states `2` and `0`, normal
`(-1, 0)`. -/
theorem shared_cache_witness :
    ∃ ret st1,
      GodunovNumericalCouplingFlux.evaluate (sample_env false) ⟨sample_flux, false⟩
        (sample_statics_linear false) (sample_source 2) (sample_source 0)
        (sample_intersection (-1) 0 1) () = .ok (ret, st1) ∧
      st1.jacobians_constructed_ = true ∧
      st1.jacobian_pos_ 0 = split_pos (sample_env false)
        (sample_flux.jacobian (fun _ => ((2 : ℚ) + 0) * (1 / 2)) 0) := by
  obtain ⟨ret, st1, h, hflag, -, hsplit, -⟩ :=
    (shared_cache (sample_env false) ⟨sample_flux, false⟩ (sample_statics_linear false)
      (sample_source 2) (sample_source 0) (sample_intersection (-1) 0 1) () (fun _ => 2)
      (fun _ => 0) 0 rfl rfl (Or.inr (Or.inr fun _ => sample_env_accepts false _))
      (sample_direction_aligned false (-1) 0 1 0 (Or.inl ⟨rfl, Or.inr rfl, rfl⟩))).2.2
  exact ⟨ret, st1, h, hflag, (hsplit rfl 0).2⟩

/-- C19 fails as stated. A linear evaluator for `sample_flux` is constructed on the initial
static members and evaluates at the states `2`, `0` with normal `(-1, 0)`: it reads
`jacobian_pos_[0] = 0` and computes `-8`. Then another evaluator of the same instantiation,
nonlinear, evaluates once with the same arguments. The first evaluator, on its next
`evaluate` with the same arguments, reads `jacobian_pos_[0] = 3` and computes `-2`. -/
theorem shared_cache_counterexample :
    ∃ self st0 ret1 st1 ret_other st2 ret2 st3,
      GodunovNumericalCouplingFlux.construct (sample_env false) sample_flux true
        (Statics.initial 2 1) = .ok (self, st0) ∧
      GodunovNumericalCouplingFlux.evaluate (sample_env false) self st0 (sample_source 2)
        (sample_source 0) (sample_intersection (-1) 0 1) () = .ok (ret1, st1) ∧
      GodunovNumericalCouplingFlux.evaluate (sample_env false) ⟨sample_flux, false⟩ st1
        (sample_source 2) (sample_source 0) (sample_intersection (-1) 0 1) ()
        = .ok (ret_other, st2) ∧
      GodunovNumericalCouplingFlux.evaluate (sample_env false) self st2 (sample_source 2)
        (sample_source 0) (sample_intersection (-1) 0 1) () = .ok (ret2, st3) ∧
      st1.jacobian_pos_ 0 0 0 = 0 ∧ st2.jacobian_pos_ 0 0 0 = 3 ∧
      ret1 0 = -8 ∧ ret2 0 = -2 := by
  have hdir := sample_direction_aligned false (-1) 0 1 0 (Or.inl ⟨rfl, Or.inr rfl, rfl⟩)
  have hlinear : ∀ st : Statics 2 1,
      GodunovNumericalCouplingFlux.evaluate (sample_env false) ⟨sample_flux, true⟩ st
        (sample_source 2) (sample_source 0) (sample_intersection (-1) 0 1) () = .ok
        (GodunovNumericalCouplingFlux.evaluate_ret st (sample_flux.evaluate (sample_source 2 ()))
          (sample_source 2 () - sample_source 0 ())
          ((sample_intersection (-1) 0 1).unitOuterNormal ()) 0 1, st) := by
    intro st
    rw [evaluate_linear_eq (sample_env false) ⟨sample_flux, true⟩ rfl, hdir]
    rfl
  refine ⟨_, _, _, _, _, _, _, _,
    construct_linear_eq (sample_env false) sample_flux (Statics.initial 2 1)
      (Or.inr (Or.inr fun _ => sample_env_accepts false _)),
    hlinear _,
    GodunovNumericalCouplingFlux.evaluate_eq (sample_env false) ⟨sample_flux, false⟩ _ _
      (sample_source 2) (sample_source 0) (sample_intersection (-1) 0 1) () 0
      (sample_evaluate_jacobians_from false _ 2 0) hdir,
    hlinear _, ?_, ?_, ?_, ?_⟩
  · simp [Statics.initial, sample_split_pos, sample_flux]
  · simp [sample_split_pos, sample_flux]
  · rw [GodunovNumericalCouplingFlux.evaluate_ret_of_neg _ _ _ _ _ _ rfl]
    simp [Statics.initial, sample_split_pos, sample_flux, sample_source, Matrix.mulVec,
      Matrix.dotProduct]
    norm_num
  · rw [GodunovNumericalCouplingFlux.evaluate_ret_of_neg _ _ _ _ _ _ rfl]
    simp [sample_split_pos, sample_flux, sample_source, Matrix.mulVec, Matrix.dotProduct]
    norm_num

theorem evaluate_on_thread_frame {T P : Type} {dimDomain dimRange : ℕ} [DecidableEq T]
    (env : Env dimRange) (PAPERFLUX : Bool) (self : GodunovNumericalCouplingFlux_1 dimRange)
    (s s1 : Storage T dimDomain dimRange) (t t1 : T) (a : EvaluateArgs P 1 dimRange)
    (ret : RangeType dimRange)
    (h : GodunovNumericalCouplingFlux_1.evaluate_on_thread env PAPERFLUX self s t a
      = .ok (ret, s1))
    (ht : t1 ≠ t) :
    s1.coupling_1 t1 = s.coupling_1 t1 ∧ s1.boundary_1 = s.boundary_1 ∧
      s1.coupling = s.coupling ∧ s1.boundary = s.boundary := by
  unfold GodunovNumericalCouplingFlux_1.evaluate_on_thread at h
  split at h
  · exact Except.noConfusion h
  · injection h with h
    injection h with _ hs
    subst hs
    exact ⟨Function.update_noteq ht _ _, rfl, rfl, rfl⟩

theorem boundary_evaluate_on_thread_frame {T E P : Type} {dimDomain dimRange : ℕ}
    [DecidableEq T] (env : Env dimRange) (PAPERFLUX : Bool)
    (self : GodunovNumericalBoundaryFlux_1 E P dimRange)
    (s s1 : Storage T dimDomain dimRange) (t t1 : T)
    (local_functions_tuple local_source_entity : P → RangeType dimRange)
    (intersection : Intersection P 1) (x_intersection localPoint : P)
    (ret : RangeType dimRange)
    (h : GodunovNumericalBoundaryFlux_1.evaluate_on_thread env PAPERFLUX self s t
      local_functions_tuple local_source_entity intersection x_intersection localPoint
      = .ok (ret, s1))
    (ht : t1 ≠ t) :
    s1.boundary_1 t1 = s.boundary_1 t1 ∧ s1.coupling_1 = s.coupling_1 ∧
      s1.coupling = s.coupling ∧ s1.boundary = s.boundary := by
  unfold GodunovNumericalBoundaryFlux_1.evaluate_on_thread at h
  split at h
  · exact Except.noConfusion h
  · injection h with h
    injection h with _ hs
    subst hs
    exact ⟨Function.update_noteq ht _ _, rfl, rfl, rfl⟩

theorem sample_evaluate_on_thread_linear (s : Storage Bool 2 1) (t : Bool) :
    GodunovNumericalCouplingFlux.evaluate_on_thread (sample_env false) ⟨sample_flux, true⟩ s t
        (sample_args 2 0 (-1) 0) =
      .ok (fun _ => -8 + (s.coupling.jacobian_pos_ 0) 0 0 * 2,
        ⟨s.coupling, s.boundary, s.coupling_1, s.boundary_1⟩) := by
  unfold GodunovNumericalCouplingFlux.evaluate_on_thread
  rw [evaluate_linear_eq (sample_env false) ⟨sample_flux, true⟩ rfl]
  simp only [sample_args]
  rw [sample_direction_aligned false (-1) 0 1 0 (Or.inl ⟨rfl, Or.inr rfl, rfl⟩)]
  simp only []
  rw [GodunovNumericalCouplingFlux.evaluate_ret_of_neg _ _ _ _ _ _ rfl]
  congr 2
  funext kk
  obtain rfl : kk = 0 := Subsingleton.elim _ _
  simp [sample_flux, sample_source, sample_intersection, Matrix.mulVec, Matrix.dotProduct]
  norm_num

theorem sample_evaluate_on_thread_nonlinear (s : Storage Bool 2 1) (t : Bool) :
    ∃ ret st1, GodunovNumericalCouplingFlux.evaluate_on_thread (sample_env false)
        ⟨sample_flux, false⟩ s t (sample_args 2 0 (-1) 0) =
      .ok (ret, ⟨st1, s.boundary, s.coupling_1, s.boundary_1⟩) ∧
      st1.jacobian_pos_ 0 0 0 = 3 := by
  unfold GodunovNumericalCouplingFlux.evaluate_on_thread
  simp only [sample_args]
  rw [GodunovNumericalCouplingFlux.evaluate_eq (sample_env false) ⟨sample_flux, false⟩ _ _
    (sample_source 2) (sample_source 0) (sample_intersection (-1) 0 1) () 0
    (sample_evaluate_jacobians_from false _ 2 0)
    (sample_direction_aligned false (-1) 0 1 0 (Or.inl ⟨rfl, Or.inr rfl, rfl⟩))]
  exact ⟨_, _, rfl, by simp [sample_split_pos, sample_flux]⟩

theorem sample_boundary_on_thread_linear (s : Storage Bool 2 1) (t : Bool) :
    GodunovNumericalBoundaryFlux.evaluate_on_thread (sample_env false) (sample_boundary true)
        s t ((sample_boundary true).localFunctions ()) (sample_source 2)
        (sample_intersection (-1) 0 1) () () =
      .ok (fun _ => -8 + (s.boundary.jacobian_pos_ 0) 0 0 * 2,
        ⟨s.coupling, s.boundary, s.coupling_1, s.boundary_1⟩) := by
  have hsplit : GodunovNumericalBoundaryFlux.evaluate_jacobians (sample_env false)
      (sample_boundary true) s.boundary
      (sample_source 2 ((sample_intersection (-1) 0 1).geometryInInside_global
        ((sample_intersection (-1) 0 1).geometryInInside_global ())))
      ((sample_boundary true).localFunctions ()
        ((sample_intersection (-1) 0 1).geometryInInside_global ())) = .ok s.boundary := by
    simp [GodunovNumericalBoundaryFlux.evaluate_jacobians, sample_boundary]
  unfold GodunovNumericalBoundaryFlux.evaluate_on_thread
  rw [boundary_evaluate_eq (sample_env false) (sample_boundary true) _ _ _ _ _ _ _ 0 hsplit
    (sample_direction_aligned false (-1) 0 1 0 (Or.inl ⟨rfl, Or.inr rfl, rfl⟩))]
  simp only []
  rw [GodunovNumericalCouplingFlux.evaluate_ret_of_neg _ _ _ _ _ _ rfl]
  congr 2
  funext kk
  obtain rfl : kk = 0 := Subsingleton.elim _ _
  simp [sample_boundary, sample_flux, sample_source, sample_intersection,
    GodunovNumericalBoundaryFlux.localFunctions, Matrix.mulVec, Matrix.dotProduct]
  norm_num

theorem sample_boundary_on_thread_nonlinear (s : Storage Bool 2 1) (t : Bool) :
    ∃ ret st1, GodunovNumericalBoundaryFlux.evaluate_on_thread (sample_env false)
        (sample_boundary false) s t ((sample_boundary false).localFunctions ())
        (sample_source 2) (sample_intersection (-1) 0 1) () () =
      .ok (ret, ⟨s.coupling, st1, s.coupling_1, s.boundary_1⟩) ∧
      st1.jacobian_pos_ 0 0 0 = 3 := by
  have hsplit : GodunovNumericalBoundaryFlux.evaluate_jacobians (sample_env false)
      (sample_boundary false) s.boundary
      (sample_source 2 ((sample_intersection (-1) 0 1).geometryInInside_global
        ((sample_intersection (-1) 0 1).geometryInInside_global ())))
      ((sample_boundary false).localFunctions ()
        ((sample_intersection (-1) 0 1).geometryInInside_global ())) = _ :=
    boundary_reinitialize_jacobians_ok (sample_env false) (sample_boundary false) _ _ _
      (Or.inr fun ii => sample_env_accepts false _)
  unfold GodunovNumericalBoundaryFlux.evaluate_on_thread
  rw [boundary_evaluate_eq (sample_env false) (sample_boundary false) _ _ _ _ _ _ _ 0 hsplit
    (sample_direction_aligned false (-1) 0 1 0 (Or.inl ⟨rfl, Or.inr rfl, rfl⟩))]
  refine ⟨_, _, rfl, ?_⟩
  simp [sample_split_pos, sample_boundary, sample_flux, sample_source, sample_intersection,
    GodunovNumericalBoundaryFlux.localFunctions]

/-- C20, what the code does. The specialisations for `dimDomain = 1` keep the claim: a call
of `evaluate` made by a thread `t` leaves the static members of every other thread, and
those of the other classes, as they were. The classes for general `dimDomain` do not: their
members are declared `static` without `thread_local`, so all threads name one object. In a
program with two threads, on `sample_storage`: thread `false` evaluates its linear
evaluator at the states `2`, `0` with normal `(-1, 0)` and computes `-8`; thread `true`
evaluates its nonlinear evaluator once; thread `false` repeats its call and computes `-2`.
The same holds of the boundary class. -/
theorem static_members_across_threads :
    (∀ (T P : Type) [DecidableEq T] (dimDomain dimRange : ℕ) (env : Env dimRange)
        (PAPERFLUX : Bool) (self : GodunovNumericalCouplingFlux_1 dimRange)
        (s s1 : Storage T dimDomain dimRange) (t t1 : T) (a : EvaluateArgs P 1 dimRange)
        (ret : RangeType dimRange),
      GodunovNumericalCouplingFlux_1.evaluate_on_thread env PAPERFLUX self s t a
        = .ok (ret, s1) → t1 ≠ t →
      s1.coupling_1 t1 = s.coupling_1 t1 ∧ s1.boundary_1 = s.boundary_1 ∧
        s1.coupling = s.coupling ∧ s1.boundary = s.boundary) ∧
    (∀ (T E P : Type) [DecidableEq T] (dimDomain dimRange : ℕ) (env : Env dimRange)
        (PAPERFLUX : Bool) (self : GodunovNumericalBoundaryFlux_1 E P dimRange)
        (s s1 : Storage T dimDomain dimRange) (t t1 : T)
        (local_functions_tuple local_source_entity : P → RangeType dimRange)
        (intersection : Intersection P 1) (x_intersection localPoint : P)
        (ret : RangeType dimRange),
      GodunovNumericalBoundaryFlux_1.evaluate_on_thread env PAPERFLUX self s t
        local_functions_tuple local_source_entity intersection x_intersection localPoint
        = .ok (ret, s1) → t1 ≠ t →
      s1.boundary_1 t1 = s.boundary_1 t1 ∧ s1.coupling_1 = s.coupling_1 ∧
        s1.coupling = s.coupling ∧ s1.boundary = s.boundary) ∧
    (∃ ret1 s1 ret_other s2 ret2 s3,
      GodunovNumericalCouplingFlux.evaluate_on_thread (sample_env false) ⟨sample_flux, true⟩
        sample_storage false (sample_args 2 0 (-1) 0) = .ok (ret1, s1) ∧
      GodunovNumericalCouplingFlux.evaluate_on_thread (sample_env false) ⟨sample_flux, false⟩
        s1 true (sample_args 2 0 (-1) 0) = .ok (ret_other, s2) ∧
      GodunovNumericalCouplingFlux.evaluate_on_thread (sample_env false) ⟨sample_flux, true⟩
        s2 false (sample_args 2 0 (-1) 0) = .ok (ret2, s3) ∧
      ret1 0 = -8 ∧ ret2 0 = -2) ∧
    ∃ ret1 s1 ret_other s2 ret2 s3,
      GodunovNumericalBoundaryFlux.evaluate_on_thread (sample_env false)
        (sample_boundary true) sample_storage false ((sample_boundary true).localFunctions ())
        (sample_source 2) (sample_intersection (-1) 0 1) () () = .ok (ret1, s1) ∧
      GodunovNumericalBoundaryFlux.evaluate_on_thread (sample_env false)
        (sample_boundary false) s1 true ((sample_boundary false).localFunctions ())
        (sample_source 2) (sample_intersection (-1) 0 1) () () = .ok (ret_other, s2) ∧
      GodunovNumericalBoundaryFlux.evaluate_on_thread (sample_env false)
        (sample_boundary true) s2 false ((sample_boundary true).localFunctions ())
        (sample_source 2) (sample_intersection (-1) 0 1) () () = .ok (ret2, s3) ∧
      ret1 0 = -8 ∧ ret2 0 = -2 := by
  refine ⟨?_, ?_, ?_, ?_⟩
  · intro T P _ dimDomain dimRange env PAPERFLUX self s s1 t t1 a ret h ht
    exact evaluate_on_thread_frame env PAPERFLUX self s s1 t t1 a ret h ht
  · intro T E P _ dimDomain dimRange env PAPERFLUX self s s1 t t1 local_functions_tuple
      local_source_entity intersection x_intersection localPoint ret h ht
    exact boundary_evaluate_on_thread_frame env PAPERFLUX self s s1 t t1
      local_functions_tuple local_source_entity intersection x_intersection localPoint ret h
      ht
  · obtain ⟨ret_other, st1, h, hpos⟩ := sample_evaluate_on_thread_nonlinear
      ⟨sample_storage.coupling, sample_storage.boundary, sample_storage.coupling_1,
        sample_storage.boundary_1⟩ true
    refine ⟨_, _, ret_other, _, _, _, sample_evaluate_on_thread_linear sample_storage false,
      h, sample_evaluate_on_thread_linear _ false, ?_, ?_⟩
    · simp [sample_storage, sample_statics_linear, sample_split_pos, sample_flux]
    · simp only [hpos]
      norm_num
  · obtain ⟨ret_other, st1, h, hpos⟩ := sample_boundary_on_thread_nonlinear
      ⟨sample_storage.coupling, sample_storage.boundary, sample_storage.coupling_1,
        sample_storage.boundary_1⟩ true
    refine ⟨_, _, ret_other, _, _, _, sample_boundary_on_thread_linear sample_storage false,
      h, sample_boundary_on_thread_linear _ false, ?_, ?_⟩
    · simp [sample_storage, sample_statics_linear, sample_split_pos, sample_flux]
    · simp only [hpos]
      norm_num

/-! ## Claims C21 and C22: the splitter axis by axis, and the flag -/

theorem calculate_jacobians_ii_diag {dimDomain dimRange : ℕ} (env : Env dimRange)
    (jacobian : Fin dimDomain → RMatrix dimRange) (diag diag1 : DiagTmp dimRange)
    (st : Statics dimDomain dimRange) (ii : Fin dimDomain) :
    calculate_jacobians_ii env jacobian (diag, st) ii
      = calculate_jacobians_ii env jacobian (diag1, st) ii := by
  unfold calculate_jacobians_ii
  simp only [zero_smul]

/-- C21. Per-axis independence of the splitter: when the solver's output passes the
assertions for every axis (or they are compiled out), `calculate_jacobians` stores for every
axis `ii` the pair that `calculate_jacobians` run on the single matrix `jacobian[ii]` stores
for its one axis; a run on a list that differs at some `k ≠ ii` only stores the same
`jacobian_neg_[ii]`, `jacobian_pos_[ii]`; and a pass of the loop over the axes does not
depend on the values the two diagonal temporaries hold when it starts. -/
theorem calculate_jacobians_per_axis {dimDomain dimRange : ℕ} (env : Env dimRange)
    (jacobian : Fin dimDomain → RMatrix dimRange) (st : Statics dimDomain dimRange)
    (h : env.NDEBUG = true ∨ ∀ ii, solver_accepts env (jacobian ii)) :
    ∃ st1, calculate_jacobians env jacobian st = .ok st1 ∧
      (∀ (ii : Fin dimDomain) (st_single : Statics 1 dimRange),
        ∃ st2, calculate_jacobians env (fun _ : Fin 1 => jacobian ii) st_single = .ok st2 ∧
          st1.jacobian_neg_ ii = st2.jacobian_neg_ 0 ∧
          st1.jacobian_pos_ ii = st2.jacobian_pos_ 0) ∧
      (∀ (ii k : Fin dimDomain) (M : RMatrix dimRange) (st3 st4 : Statics dimDomain dimRange),
        k ≠ ii → calculate_jacobians env (Function.update jacobian k M) st3 = .ok st4 →
        st4.jacobian_neg_ ii = st1.jacobian_neg_ ii ∧
          st4.jacobian_pos_ ii = st1.jacobian_pos_ ii) ∧
      ∀ (diag diag1 : DiagTmp dimRange) (st3 : Statics dimDomain dimRange)
        (ii : Fin dimDomain),
        calculate_jacobians_ii env jacobian (diag, st3) ii
          = calculate_jacobians_ii env jacobian (diag1, st3) ii := by
  refine ⟨_, calculate_jacobians_ok env jacobian st h, ?_, ?_, ?_⟩
  · intro ii st_single
    exact ⟨_, calculate_jacobians_ok env (fun _ : Fin 1 => jacobian ii) st_single
      (h.imp id fun h _ => h ii), rfl, rfl⟩
  · intro ii k M st3 st4 hk h4
    have hacc := calculate_jacobians_accepts env _ _ _ h4
    rw [calculate_jacobians_ok env _ st3 hacc] at h4
    injection h4 with h4
    subst h4
    exact ⟨by simp [Function.update_noteq hk.symm], by simp [Function.update_noteq hk.symm]⟩
  · intro diag diag1 st3 ii
    exact calculate_jacobians_ii_diag env jacobian diag diag1 st3 ii

/-- Instance of C21 on the sample data: the Jacobians `3` and `2` of the sample flux at the
state `1`. -/
theorem calculate_jacobians_per_axis_witness :
    ∃ st1, calculate_jacobians (sample_env false) (sample_flux.jacobian fun _ => 1)
        (Statics.initial 2 1) = .ok st1 ∧
      (∀ (ii : Fin 2) (st_single : Statics 1 1),
        ∃ st2, calculate_jacobians (sample_env false)
            (fun _ : Fin 1 => sample_flux.jacobian (fun _ => 1) ii) st_single = .ok st2 ∧
          st1.jacobian_neg_ ii = st2.jacobian_neg_ 0 ∧
          st1.jacobian_pos_ ii = st2.jacobian_pos_ 0) ∧
      (∀ (ii k : Fin 2) (M : RMatrix 1) (st3 st4 : Statics 2 1),
        k ≠ ii → calculate_jacobians (sample_env false)
          (Function.update (sample_flux.jacobian fun _ => 1) k M) st3 = .ok st4 →
        st4.jacobian_neg_ ii = st1.jacobian_neg_ ii ∧
          st4.jacobian_pos_ ii = st1.jacobian_pos_ ii) ∧
      ∀ (diag diag1 : DiagTmp 1) (st3 : Statics 2 1) (ii : Fin 2),
        calculate_jacobians_ii (sample_env false) (sample_flux.jacobian fun _ => 1)
            (diag, st3) ii
          = calculate_jacobians_ii (sample_env false) (sample_flux.jacobian fun _ => 1)
            (diag1, st3) ii :=
  calculate_jacobians_per_axis (sample_env false) (sample_flux.jacobian fun _ => 1)
    (Statics.initial 2 1) (Or.inr fun _ => sample_env_accepts false _)

theorem evaluate_jacobians_flag {dimDomain dimRange : ℕ} (env : Env dimRange)
    (self : GodunovNumericalCouplingFlux dimDomain dimRange)
    (st st1 : Statics dimDomain dimRange) (u_i u_j : RangeType dimRange)
    (h : GodunovNumericalCouplingFlux.evaluate_jacobians env self st u_i u_j = .ok st1) :
    st1.jacobians_constructed_ = st.jacobians_constructed_ ∧
      (self.is_linear_ = true → st1 = st) := by
  unfold GodunovNumericalCouplingFlux.evaluate_jacobians at h
  cases hlin : self.is_linear_
  · rw [hlin] at h
    simp only [Bool.not_false, if_true] at h
    have hacc := calculate_jacobians_accepts env _ _ _ h
    rw [reinitialize_jacobians_ok env self st u_i u_j hacc] at h
    injection h with h
    subst h
    exact ⟨rfl, fun h => absurd h (by simp)⟩
  · rw [hlin] at h
    simp only [Bool.not_true, Bool.false_eq_true, if_false] at h
    injection h with h
    subst h
    exact ⟨rfl, fun _ => rfl⟩

theorem evaluate_flag {P : Type} {dimDomain dimRange : ℕ} [NeZero dimDomain]
    (env : Env dimRange) (self : GodunovNumericalCouplingFlux dimDomain dimRange)
    (st st1 : Statics dimDomain dimRange)
    (local_source_entity local_source_neighbor : P → RangeType dimRange)
    (intersection : Intersection P dimDomain) (x_intersection : P) (ret : RangeType dimRange)
    (h : GodunovNumericalCouplingFlux.evaluate env self st local_source_entity
      local_source_neighbor intersection x_intersection = .ok (ret, st1)) :
    st1.jacobians_constructed_ = st.jacobians_constructed_ := by
  unfold GodunovNumericalCouplingFlux.evaluate at h
  simp only [] at h
  split at h
  · exact Except.noConfusion h
  · rename_i st2 hsplit
    split at h
    · exact Except.noConfusion h
    · injection h with h
      injection h with _ hst
      subst hst
      exact (evaluate_jacobians_flag env self st _ _ _ hsplit).1

theorem evaluate_calls_flag {P : Type} {dimDomain dimRange : ℕ} [NeZero dimDomain]
    (env : Env dimRange) (self : GodunovNumericalCouplingFlux dimDomain dimRange)
    (calls : List (EvaluateArgs P dimDomain dimRange)) (st st1 : Statics dimDomain dimRange)
    (rets : List (RangeType dimRange))
    (h : GodunovNumericalCouplingFlux.evaluate_calls env self calls st = .ok (rets, st1)) :
    st1.jacobians_constructed_ = st.jacobians_constructed_ := by
  induction calls generalizing st rets with
  | nil =>
    unfold GodunovNumericalCouplingFlux.evaluate_calls at h
    simp only [call_sequence] at h
    injection h with h
    injection h with _ hst
    rw [← hst]
  | cons a rest ih =>
    unfold GodunovNumericalCouplingFlux.evaluate_calls at h ih
    simp only [call_sequence] at h
    split at h
    · exact Except.noConfusion h
    · rename_i r st2 hcall
      split at h
      · exact Except.noConfusion h
      · rename_i rs st3 hrest
        injection h with h
        injection h with _ hst
        subst hst
        rw [ih st2 rs hrest]
        exact evaluate_flag env self st st2 _ _ _ _ r hcall

namespace GodunovNumericalCouplingFlux_1

variable {P : Type} {dimRange : ℕ}

theorem calculate_jacobians_facts_1 (env : Env dimRange) (PAPERFLUX : Bool)
    (jacobian : RMatrix dimRange) (st st1 : Statics_1 dimRange)
    (h : calculate_jacobians env PAPERFLUX jacobian st = .ok st1) :
    st1.jacobians_constructed_ = st.jacobians_constructed_ ∧
      st1.eigen_solver_calls = st.eigen_solver_calls + 1 := by
  rw [calculate_jacobians_ok_1 env PAPERFLUX jacobian st
    (calculate_jacobians_accepts_1 env PAPERFLUX jacobian st st1 h)] at h
  injection h with h
  subst h
  cases PAPERFLUX <;> exact ⟨rfl, rfl⟩

theorem initialize_guard_facts (env : Env dimRange) (PAPERFLUX : Bool)
    (self : GodunovNumericalCouplingFlux_1 dimRange) (st st1 : Statics_1 dimRange)
    (h : initialize_guard env PAPERFLUX self st = .ok st1) :
    (st.jacobians_constructed_ = true ∨ self.is_linear_ = false → st1 = st) ∧
      (st.jacobians_constructed_ = false → self.is_linear_ = true →
        st1.jacobians_constructed_ = true ∧
          st1.eigen_solver_calls = st.eigen_solver_calls + 1) := by
  constructor
  · intro hc
    rw [initialize_guard_constructed env PAPERFLUX self st hc] at h
    injection h with h
    exact h.symm
  · intro hflag hlin
    have hg : initialize_guard env PAPERFLUX self st
        = initialize_jacobians env PAPERFLUX self st := by
      unfold initialize_guard
      simp [hflag, hlin]
    rw [hg] at h
    obtain ⟨st2, h2, hfacts⟩ := initialize_jacobians_ok_1 env PAPERFLUX self st
      (initialize_jacobians_accepts_1 env PAPERFLUX self st st1 h)
    rw [h2] at h
    injection h with h
    subst h
    exact ⟨hfacts.1, hfacts.2.2.1⟩

theorem evaluate_jacobians_facts_1 (env : Env dimRange) (PAPERFLUX : Bool)
    (self : GodunovNumericalCouplingFlux_1 dimRange) (st st1 : Statics_1 dimRange)
    (u_i u_j : RangeType dimRange)
    (h : evaluate_jacobians env PAPERFLUX self st u_i u_j = .ok st1) :
    (st.jacobians_constructed_ = true → st1.jacobians_constructed_ = true) ∧
      (self.is_linear_ = false →
        st1.jacobians_constructed_ = st.jacobians_constructed_ ∧
          st1.eigen_solver_calls = st.eigen_solver_calls + 1) ∧
      (self.is_linear_ = true → st1.jacobians_constructed_ = true ∧
        (st.jacobians_constructed_ = true → st1 = st) ∧
        (st.jacobians_constructed_ = false →
          st1.eigen_solver_calls = st.eigen_solver_calls + 1)) := by
  unfold evaluate_jacobians at h
  cases hg : initialize_guard env PAPERFLUX self st with
  | error e =>
    rw [hg] at h
    exact Except.noConfusion h
  | ok st2 =>
    rw [hg] at h
    simp only [] at h
    obtain ⟨hsame, hinit⟩ := initialize_guard_facts env PAPERFLUX self st st2 hg
    cases hlin : self.is_linear_
    · rw [hlin] at h
      simp only [Bool.not_false, if_true] at h
      have h2 := hsame (Or.inr hlin)
      subst h2
      unfold reinitialize_jacobians at h
      obtain ⟨hf, hc⟩ := calculate_jacobians_facts_1 env PAPERFLUX _ _ _ h
      exact ⟨fun hflag => by rw [hf]; exact hflag, fun _ => ⟨hf, hc⟩,
        fun hc => absurd hc (by simp)⟩
    · rw [hlin] at h
      simp only [Bool.not_true, Bool.false_eq_true, if_false] at h
      injection h with h
      subst h
      refine ⟨fun hflag => ?_, fun hc => absurd hc (by simp), fun _ => ⟨?_, ?_, ?_⟩⟩
      · rw [hsame (Or.inl hflag)]
        exact hflag
      · cases hflag : st.jacobians_constructed_
        · exact (hinit hflag hlin).1
        · rw [hsame (Or.inl hflag)]
          exact hflag
      · intro hflag
        exact hsame (Or.inl hflag)
      · intro hflag
        exact (hinit hflag hlin).2

theorem evaluate_facts_1 (env : Env dimRange) (PAPERFLUX : Bool)
    (self : GodunovNumericalCouplingFlux_1 dimRange) (st : Statics_1 dimRange)
    (local_source_entity local_source_neighbor : P → RangeType dimRange)
    (intersection : Intersection P 1) (x_intersection : P)
    (r : EndOfBody (Statics_1 dimRange) dimRange)
    (h : evaluate env PAPERFLUX self st local_source_entity local_source_neighbor intersection
      x_intersection = .ok r) :
    evaluate_jacobians env PAPERFLUX self st
      (local_source_entity (intersection.geometryInInside_global x_intersection))
      (local_source_neighbor (intersection.geometryInOutside_global x_intersection))
      = .ok r.statics := by
  unfold evaluate evaluate_flux at h
  simp only [] at h
  split at h
  · exact Except.noConfusion h
  · rename_i st1 hsplit
    injection h with h
    subst h
    exact hsplit

theorem evaluate_calls_flag_1 (env : Env dimRange) (PAPERFLUX : Bool)
    (self : GodunovNumericalCouplingFlux_1 dimRange)
    (calls : List (EvaluateArgs P 1 dimRange)) (st st1 : Statics_1 dimRange)
    (rets : List (RangeType dimRange))
    (h : evaluate_calls env PAPERFLUX self calls st = .ok (rets, st1)) :
    (st.jacobians_constructed_ = true → st1.jacobians_constructed_ = true) ∧
      (self.is_linear_ = false →
        st1.jacobians_constructed_ = st.jacobians_constructed_) := by
  induction calls generalizing st rets with
  | nil =>
    unfold evaluate_calls at h
    simp only [call_sequence] at h
    injection h with h
    injection h with _ hst
    subst hst
    exact ⟨id, fun _ => rfl⟩
  | cons a rest ih =>
    unfold evaluate_calls at h ih
    simp only [call_sequence] at h
    split at h
    · exact Except.noConfusion h
    · rename_i r st2 hcall
      split at h
      · exact Except.noConfusion h
      · rename_i rs st3 hrest
        injection h with h
        injection h with _ hst
        subst hst
        obtain ⟨ih1, ih2⟩ := ih st2 rs hrest
        split at hcall
        · exact Except.noConfusion hcall
        · rename_i r1 hev
          injection hcall with hcall
          injection hcall with _ hst2
          subst hst2
          obtain ⟨f1, f2, -⟩ := evaluate_jacobians_facts_1 env PAPERFLUX self st _ _ _
            (evaluate_facts_1 env PAPERFLUX self st _ _ _ _ r1 hev)
          exact ⟨fun hflag => ih1 (f1 hflag), fun hlin => (ih2 hlin).trans (f2 hlin).1⟩

end GodunovNumericalCouplingFlux_1

/-- C22. The flag `jacobians_constructed_` is monotone, in the class for general
`dimDomain` and in the specialisation for `dimDomain = 1`: over a construction followed by
any sequence of `evaluate` calls of the constructed evaluator, a flag that was `true` stays
`true`; `initialize_jacobians` leaves it `true` and `reinitialize_jacobians` leaves it as it
was; and an evaluator constructed with `is_linear = false` leaves, after the construction
and after its `evaluate` calls, the value the flag had before the construction. -/
theorem jacobians_constructed_monotone {P : Type} {dimDomain dimRange : ℕ}
    [NeZero dimDomain] (env : Env dimRange) (is_linear PAPERFLUX : Bool)
    (analytical_flux : AnalyticalFlux dimDomain dimRange)
    (st0 st1 st2 : Statics dimDomain dimRange)
    (self : GodunovNumericalCouplingFlux dimDomain dimRange)
    (calls : List (EvaluateArgs P dimDomain dimRange)) (rets : List (RangeType dimRange))
    (analytical_flux_1 : AnalyticalFlux_1 dimRange) (st0_1 st1_1 st2_1 : Statics_1 dimRange)
    (self_1 : GodunovNumericalCouplingFlux_1 dimRange)
    (calls_1 : List (EvaluateArgs P 1 dimRange)) (rets_1 : List (RangeType dimRange))
    (hcon : GodunovNumericalCouplingFlux.construct env analytical_flux is_linear st0
      = .ok (self, st1))
    (hcalls : GodunovNumericalCouplingFlux.evaluate_calls env self calls st1
      = .ok (rets, st2))
    (hcon_1 : GodunovNumericalCouplingFlux_1.construct env PAPERFLUX analytical_flux_1
      is_linear st0_1 = .ok (self_1, st1_1))
    (hcalls_1 : GodunovNumericalCouplingFlux_1.evaluate_calls env PAPERFLUX self_1 calls_1
      st1_1 = .ok (rets_1, st2_1)) :
    (st0.jacobians_constructed_ = true →
      st1.jacobians_constructed_ = true ∧ st2.jacobians_constructed_ = true) ∧
    (is_linear = false →
      st1 = st0 ∧ st2.jacobians_constructed_ = st0.jacobians_constructed_) ∧
    (∀ st st3 : Statics dimDomain dimRange,
      GodunovNumericalCouplingFlux.initialize_jacobians env self st = .ok st3 →
      st3.jacobians_constructed_ = true) ∧
    (∀ (st st3 : Statics dimDomain dimRange) (u_i u_j : RangeType dimRange),
      GodunovNumericalCouplingFlux.reinitialize_jacobians env self st u_i u_j = .ok st3 →
      st3.jacobians_constructed_ = st.jacobians_constructed_) ∧
    (st0_1.jacobians_constructed_ = true →
      st1_1.jacobians_constructed_ = true ∧ st2_1.jacobians_constructed_ = true) ∧
    (is_linear = false →
      st1_1 = st0_1 ∧ st2_1.jacobians_constructed_ = st0_1.jacobians_constructed_) ∧
    (∀ st st3 : Statics_1 dimRange,
      GodunovNumericalCouplingFlux_1.initialize_jacobians env PAPERFLUX self_1 st = .ok st3 →
      st3.jacobians_constructed_ = true) ∧
    (∀ (st st3 : Statics_1 dimRange) (u_i u_j : RangeType dimRange),
      GodunovNumericalCouplingFlux_1.reinitialize_jacobians env PAPERFLUX self_1 st u_i u_j
        = .ok st3 →
      st3.jacobians_constructed_ = st.jacobians_constructed_) := by
  have hst2 := evaluate_calls_flag env self calls st1 st2 rets hcalls
  obtain ⟨hmono_1, hnon_1⟩ := GodunovNumericalCouplingFlux_1.evaluate_calls_flag_1 env
    PAPERFLUX self_1 calls_1 st1_1 st2_1 rets_1 hcalls_1
  have hc : (is_linear = false ∨ st0.jacobians_constructed_ = true) → st1 = st0 := by
    intro hh
    unfold GodunovNumericalCouplingFlux.construct at hcon
    have hg : (!st0.jacobians_constructed_ && is_linear) = false := by
      rcases hh with hh | hh <;> simp [hh]
    simp only [hg, Bool.false_eq_true, if_false] at hcon
    injection hcon with hcon
    injection hcon with _ hst
    exact hst.symm
  have hself_1 : self_1.is_linear_ = is_linear ∧
      GodunovNumericalCouplingFlux_1.initialize_guard env PAPERFLUX
        ⟨analytical_flux_1, is_linear⟩ st0_1 = .ok st1_1 := by
    unfold GodunovNumericalCouplingFlux_1.construct at hcon_1
    simp only [] at hcon_1
    split at hcon_1
    · exact Except.noConfusion hcon_1
    · rename_i st3 hg
      injection hcon_1 with hcon_1
      injection hcon_1 with hs hst
      subst hs hst
      exact ⟨rfl, hg⟩
  obtain ⟨hlin_1, hg_1⟩ := hself_1
  have hsame_1 := (GodunovNumericalCouplingFlux_1.initialize_guard_facts env PAPERFLUX
    ⟨analytical_flux_1, is_linear⟩ st0_1 st1_1 hg_1).1
  refine ⟨?_, ?_, ?_, ?_, ?_, ?_, ?_, ?_⟩
  · intro hflag
    have h1 := hc (Or.inr hflag)
    subst h1
    exact ⟨hflag, hst2.trans hflag⟩
  · intro hlin
    have h1 := hc (Or.inl hlin)
    subst h1
    exact ⟨rfl, hst2⟩
  · intro st st3 h
    rw [initialize_jacobians_ok env self st (initialize_jacobians_accepts env self st st3 h)]
      at h
    injection h with h
    subst h
    rfl
  · intro st st3 u_i u_j h
    have hacc : env.NDEBUG = true ∨ ∀ ii, solver_accepts env
        (self.analytical_flux_.jacobian (fun kk => (u_i kk + u_j kk) * (1 / 2)) ii) := by
      unfold GodunovNumericalCouplingFlux.reinitialize_jacobians at h
      exact calculate_jacobians_accepts env _ _ _ h
    rw [reinitialize_jacobians_ok env self st u_i u_j hacc] at h
    injection h with h
    subst h
    rfl
  · intro hflag
    have h1 := hsame_1 (Or.inl hflag)
    subst h1
    exact ⟨hflag, hmono_1 hflag⟩
  · intro hlin
    have h1 := hsame_1 (Or.inr hlin)
    subst h1
    exact ⟨rfl, hnon_1 (hlin_1.trans hlin)⟩
  · intro st st3 h
    obtain ⟨st4, h4, hfacts⟩ := GodunovNumericalCouplingFlux_1.initialize_jacobians_ok_1 env
      PAPERFLUX self_1 st
      (GodunovNumericalCouplingFlux_1.initialize_jacobians_accepts_1 env PAPERFLUX self_1 st
        st3 h)
    rw [h4] at h
    injection h with h
    subst h
    exact hfacts.1
  · intro st st3 u_i u_j h
    unfold GodunovNumericalCouplingFlux_1.reinitialize_jacobians at h
    exact (GodunovNumericalCouplingFlux_1.calculate_jacobians_facts_1 env PAPERFLUX _ _ _
      h).1

theorem sample_evaluate_calls_nonlinear (st : Statics 2 1) :
    ∃ rets st2, GodunovNumericalCouplingFlux.evaluate_calls (sample_env false)
      ⟨sample_flux, false⟩ [sample_args 2 0 1 0] st = .ok (rets, st2) := by
  unfold GodunovNumericalCouplingFlux.evaluate_calls
  simp only [call_sequence, sample_args]
  rw [GodunovNumericalCouplingFlux.evaluate_eq (sample_env false) ⟨sample_flux, false⟩ _ _
    (sample_source 2) (sample_source 0) (sample_intersection 1 0 1) () 0
    (sample_evaluate_jacobians_from false _ 2 0)
    (sample_direction_aligned false 1 0 1 0 (Or.inl ⟨rfl, Or.inl rfl, rfl⟩))]
  exact ⟨_, _, rfl⟩

theorem sample_evaluate_calls_nonlinear_1 (st : Statics_1 1) :
    ∃ rets st2, GodunovNumericalCouplingFlux_1.evaluate_calls (sample_env false) false
      ⟨advection_flux 1, false⟩ [sample_args_1 2 1 1] st = .ok (rets, st2) := by
  unfold GodunovNumericalCouplingFlux_1.evaluate_calls
  simp only [call_sequence, sample_args_1]
  unfold GodunovNumericalCouplingFlux_1.evaluate
  rw [GodunovNumericalCouplingFlux_1.evaluate_nonlinear_1 (sample_env false) false
    ⟨advection_flux 1, false⟩ rfl st _ _ _ (Or.inr (sample_env_accepts false _))]
  exact ⟨_, _, rfl⟩

/-- Instance of C22 on the sample data: nonlinear evaluators constructed on the initial
static members, one `evaluate` call each; the flag is still `false` afterwards. -/
theorem jacobians_constructed_monotone_witness :
    ∃ rets st2 rets_1 st2_1,
      GodunovNumericalCouplingFlux.evaluate_calls (sample_env false) ⟨sample_flux, false⟩
        [sample_args 2 0 1 0] (Statics.initial 2 1) = .ok (rets, st2) ∧
      GodunovNumericalCouplingFlux_1.evaluate_calls (sample_env false) false
        ⟨advection_flux 1, false⟩ [sample_args_1 2 1 1] (Statics_1.initial 1)
        = .ok (rets_1, st2_1) ∧
      st2.jacobians_constructed_ = false ∧ st2_1.jacobians_constructed_ = false := by
  obtain ⟨rets, st2, h⟩ := sample_evaluate_calls_nonlinear (Statics.initial 2 1)
  obtain ⟨rets_1, st2_1, h_1⟩ := sample_evaluate_calls_nonlinear_1 (Statics_1.initial 1)
  have hall := jacobians_constructed_monotone (sample_env false) false false sample_flux
    (Statics.initial 2 1) (Statics.initial 2 1) st2 ⟨sample_flux, false⟩
    [sample_args 2 0 1 0] rets (advection_flux 1) (Statics_1.initial 1) (Statics_1.initial 1)
    st2_1 ⟨advection_flux 1, false⟩ [sample_args_1 2 1 1] rets_1 rfl h rfl h_1
  exact ⟨rets, st2, rets_1, st2_1, h, h_1, (hall.2.1 rfl).2, (hall.2.2.2.2.2.1 rfl).2⟩

/-! ## Claims C23 and C24: conservation and the upwind form for a linear flux -/

namespace GodunovNumericalCouplingFlux

variable {P : Type} {dimDomain dimRange : ℕ}

/-- C23. Conditional conservation: take an axis-aligned normal `n` with aligned index
`coord` and evaluate `evaluate(u_i, u_j, n)` and `evaluate(u_j, u_i, -n)` on the same face
measure. If the two calls work with the same split along `coord` and
`f(u_i)[kk][coord] - f(u_j)[kk][coord]
  = ((jacobian_neg_[coord] + jacobian_pos_[coord]) · (u_i - u_j))[kk]` for every `kk`, then
the two results are opposite. The condition on `f` holds for a flux that is linear along
`coord`, `f(u)[kk][coord] = (A·u)[kk]`, when `jacobian_neg_[coord] + jacobian_pos_[coord]
= A`. -/
theorem evaluate_conservation [NeZero dimDomain] (env : Env dimRange)
    (hcmp : FloatCmp_exact env) (self : GodunovNumericalCouplingFlux dimDomain dimRange)
    (st st1 st_rev st2 : Statics dimDomain dimRange)
    (local_source_entity local_source_neighbor : P → RangeType dimRange)
    (intersection : Intersection P dimDomain) (x_intersection : P)
    (local_source_entity2 local_source_neighbor2 : P → RangeType dimRange)
    (intersection2 : Intersection P dimDomain) (x_intersection2 : P)
    (u_i u_j : RangeType dimRange) (coord : Fin dimDomain)
    (hu_i : local_source_entity (intersection.geometryInInside_global x_intersection) = u_i)
    (hu_j : local_source_neighbor (intersection.geometryInOutside_global x_intersection) = u_j)
    (hu_i2 : local_source_entity2 (intersection2.geometryInInside_global x_intersection2)
      = u_j)
    (hu_j2 : local_source_neighbor2 (intersection2.geometryInOutside_global x_intersection2)
      = u_i)
    (hsplit : evaluate_jacobians env self st u_i u_j = .ok st1)
    (hsplit2 : evaluate_jacobians env self st_rev u_j u_i = .ok st2)
    (hsame : st2.jacobian_neg_ coord = st1.jacobian_neg_ coord ∧
      st2.jacobian_pos_ coord = st1.jacobian_pos_ coord)
    (hn : intersection.unitOuterNormal x_intersection coord = 1 ∨
      intersection.unitOuterNormal x_intersection coord = -1)
    (h0 : ∀ ii, ii ≠ coord → intersection.unitOuterNormal x_intersection ii = 0)
    (hn2 : ∀ ii, intersection2.unitOuterNormal x_intersection2 ii
      = -intersection.unitOuterNormal x_intersection ii)
    (hvol : intersection2.geometry_volume = intersection.geometry_volume)
    (hroe : (∀ kk, self.analytical_flux_.evaluate u_i kk coord
          - self.analytical_flux_.evaluate u_j kk coord
        = (st1.jacobian_neg_ coord + st1.jacobian_pos_ coord).mulVec (u_i - u_j) kk) ∨
      ∃ A : RMatrix dimRange, (∀ u kk, self.analytical_flux_.evaluate u kk coord
          = A.mulVec u kk) ∧ st1.jacobian_neg_ coord + st1.jacobian_pos_ coord = A) :
    ∃ ret ret2,
      evaluate env self st local_source_entity local_source_neighbor intersection
        x_intersection = .ok (ret, st1) ∧
      evaluate env self st_rev local_source_entity2 local_source_neighbor2 intersection2
        x_intersection2 = .ok (ret2, st2) ∧
      ∀ kk, ret kk = -ret2 kk := by
  subst hu_i hu_j
  have hroe1 : ∀ kk, self.analytical_flux_.evaluate
        (local_source_entity (intersection.geometryInInside_global x_intersection)) kk coord
      - self.analytical_flux_.evaluate
        (local_source_neighbor (intersection.geometryInOutside_global x_intersection)) kk
        coord
      = (st1.jacobian_neg_ coord + st1.jacobian_pos_ coord).mulVec
        (local_source_entity (intersection.geometryInInside_global x_intersection)
          - local_source_neighbor (intersection.geometryInOutside_global x_intersection))
        kk := by
    rcases hroe with h | ⟨A, hA, hsum⟩
    · exact h
    · intro kk
      rw [hsum, hA, hA, Matrix.mulVec_sub]
      rfl
  have h02 : ∀ ii, ii ≠ coord → intersection2.unitOuterNormal x_intersection2 ii = 0 := by
    intro ii hii
    rw [hn2 ii, h0 ii hii, neg_zero]
  have hmv : ∀ (M : RMatrix dimRange) (kk : Fin dimRange),
      M.mulVec (local_source_neighbor (intersection.geometryInOutside_global x_intersection)
        - local_source_entity (intersection.geometryInInside_global x_intersection)) kk
      = -(M.mulVec (local_source_entity (intersection.geometryInInside_global x_intersection)
        - local_source_neighbor (intersection.geometryInOutside_global x_intersection)) kk) := by
    intro M kk
    rw [← neg_sub, Matrix.mulVec_neg]
    rfl
  rw [← hu_i2, ← hu_j2] at hsplit2
  rcases hn with hn | hn
  · have hn2c : intersection2.unitOuterNormal x_intersection2 coord = -1 := by
      rw [hn2 coord, hn]
    refine ⟨_, _,
      evaluate_eq env self st st1 _ _ _ _ coord hsplit
        (evaluate_direction_exact env hcmp _ coord (Or.inl hn) h0),
      evaluate_eq env self st_rev st2 _ _ _ _ coord hsplit2
        (evaluate_direction_exact env hcmp _ coord (Or.inr hn2c) h02), ?_⟩
    rw [evaluate_ret_of_pos _ _ _ _ _ _ hn, evaluate_ret_of_neg _ _ _ _ _ _ hn2c,
      hu_i2, hu_j2, hsame.2, hvol]
    intro kk
    have h := hroe1 kk
    simp only [hmv, Matrix.add_mulVec, Pi.add_apply] at h ⊢
    rw [← neg_mul]
    congr 1
    linarith
  · have hn2c : intersection2.unitOuterNormal x_intersection2 coord = 1 := by
      rw [hn2 coord, hn, neg_neg]
    refine ⟨_, _,
      evaluate_eq env self st st1 _ _ _ _ coord hsplit
        (evaluate_direction_exact env hcmp _ coord (Or.inr hn) h0),
      evaluate_eq env self st_rev st2 _ _ _ _ coord hsplit2
        (evaluate_direction_exact env hcmp _ coord (Or.inl hn2c) h02), ?_⟩
    rw [evaluate_ret_of_neg _ _ _ _ _ _ hn, evaluate_ret_of_pos _ _ _ _ _ _ hn2c,
      hu_i2, hu_j2, hsame.1, hvol]
    intro kk
    have h := hroe1 kk
    simp only [hmv, Matrix.add_mulVec, Pi.add_apply] at h ⊢
    rw [← neg_mul]
    congr 1
    linarith

/-- Instance of C23 on the sample data: flux `2·u` along axis 1, nonlinear mode, states `2`
and `1`, normal `(0, 1)` and then `(0, -1)`, face measure `3`, each call started on the
initial static members. -/
theorem evaluate_conservation_witness :
    ∃ ret ret2,
      evaluate (sample_env false) ⟨sample_flux, false⟩ (Statics.initial 2 1)
        (sample_source 2) (sample_source 1) (sample_intersection 0 1 3) ()
          = .ok (ret, sample_statics false 2 1) ∧
      evaluate (sample_env false) ⟨sample_flux, false⟩ (Statics.initial 2 1)
        (sample_source 1) (sample_source 2) (sample_intersection 0 (-1) 3) ()
          = .ok (ret2, sample_statics false 1 2) ∧
      ∀ kk, ret kk = -ret2 kk :=
  evaluate_conservation (sample_env false) (sample_env_exact false)
    ⟨sample_flux, false⟩ (Statics.initial 2 1) (sample_statics false 2 1)
    (Statics.initial 2 1) (sample_statics false 1 2)
    (sample_source 2) (sample_source 1) (sample_intersection 0 1 3) ()
    (sample_source 1) (sample_source 2) (sample_intersection 0 (-1) 3) ()
    (fun _ => 2) (fun _ => 1) 1 rfl rfl rfl rfl (sample_evaluate_jacobians false 2 1)
    (sample_evaluate_jacobians false 1 2)
    (by simp [sample_statics, sample_flux])
    (Or.inl rfl) (sample_normal_zero 0 1 3 1 (Or.inr ⟨rfl, rfl⟩))
    (by intro ii; fin_cases ii <;> simp [sample_intersection])
    rfl
    (Or.inr ⟨Matrix.of fun _ _ => 2,
      by intro u kk; simp [sample_flux, Matrix.mulVec, Matrix.dotProduct],
      by
        ext i j
        simp [sample_statics, sample_split_neg, sample_split_pos, sample_flux]⟩)

end GodunovNumericalCouplingFlux

namespace GodunovNumericalCouplingFlux_1

variable {P : Type} {dimRange : ℕ}

/-- With `PAPERFLUX` not set, the functions `jacobian_neg_function_`,
`jacobian_pos_function_` of the cache a call works with are the products with
`jacobian_neg_`, `jacobian_pos_`, provided this held for a cache that was INITIALIZED before
the call. -/
theorem evaluate_jacobians_functions (env : Env dimRange)
    (self : GodunovNumericalCouplingFlux_1 dimRange) (st st1 : Statics_1 dimRange)
    (u_i u_j : RangeType dimRange)
    (hinv : self.is_linear_ = true → st.jacobians_constructed_ = true →
      st.jacobian_neg_function_ = ⟨st.jacobian_neg_, 0⟩ ∧
        st.jacobian_pos_function_ = ⟨st.jacobian_pos_, 0⟩)
    (hsplit : evaluate_jacobians env false self st u_i u_j = .ok st1) :
    st1.jacobian_neg_function_ = ⟨st1.jacobian_neg_, 0⟩ ∧
      st1.jacobian_pos_function_ = ⟨st1.jacobian_pos_, 0⟩ := by
  unfold evaluate_jacobians at hsplit
  cases hlin : self.is_linear_
  · rw [initialize_guard_constructed env false self st (Or.inr hlin)] at hsplit
    simp only [hlin, Bool.not_false, if_true] at hsplit
    have hacc := calculate_jacobians_accepts_1 env false _ _ _ hsplit
    rw [reinitialize_jacobians_ok_1 env false self st u_i u_j hacc] at hsplit
    injection hsplit with hst
    rw [← hst]
    exact ⟨rfl, rfl⟩
  · cases hflag : st.jacobians_constructed_
    · have hg : initialize_guard env false self st
          = initialize_jacobians env false self st := by
        unfold initialize_guard
        simp [hflag, hlin]
      rw [hg] at hsplit
      cases hi : initialize_jacobians env false self st with
      | error e =>
        rw [hi] at hsplit
        exact Except.noConfusion hsplit
      | ok st2 =>
        obtain ⟨st3, h3, hfacts⟩ := initialize_jacobians_ok_1 env false self st
          (initialize_jacobians_accepts_1 env false self st st2 hi)
        rw [h3] at hsplit
        simp only [hlin, Bool.not_true, Bool.false_eq_true, if_false] at hsplit
        injection hsplit with hst
        subst hst
        exact hfacts.2.2.2.2.2.2.1 rfl
    · rw [initialize_guard_constructed env false self st (Or.inl hflag)] at hsplit
      simp only [hlin, Bool.not_true, Bool.false_eq_true, if_false] at hsplit
      injection hsplit with hst
      subst hst
      exact hinv hlin hflag

/-- The default path of lines 330-341 for a linear flux `f(u) = A·u` on a cache whose two
functions are the products with a split of `A`. -/
theorem evaluate_ret_upwind (self : GodunovNumericalCouplingFlux_1 dimRange)
    (st : Statics_1 dimRange) (A : RMatrix dimRange) (u_i u_j : RangeType dimRange) (n_ij : ℚ)
    (hf : ∀ u, self.analytical_flux_.evaluate u = A.mulVec u)
    (hfun : st.jacobian_neg_function_ = ⟨st.jacobian_neg_, 0⟩ ∧
      st.jacobian_pos_function_ = ⟨st.jacobian_pos_, 0⟩)
    (hA : st.jacobian_neg_ + st.jacobian_pos_ = A) :
    evaluate_ret false self st u_i u_j n_ij =
      if n_ij > 0 then st.jacobian_pos_.mulVec u_i + st.jacobian_neg_.mulVec u_j
      else -(st.jacobian_neg_.mulVec u_i + st.jacobian_pos_.mulVec u_j) := by
  unfold evaluate_ret
  simp only [Bool.false_eq_true, if_false, hf, hfun.1, hfun.2, AffineFunctionType.evaluate,
    ← hA, Matrix.add_mulVec, Matrix.mulVec_sub, add_zero]
  split
  · abel
  · abel

end GodunovNumericalCouplingFlux_1

/-- C24, what the code does. Linear flux `f(u) = A·u` along the aligned axis and a split in
use with `jacobian_neg_ + jacobian_pos_ = A`. The evaluator of general `dimDomain` returns
`(pos[coord]·u_i + neg[coord]·u_j)·face_measure` when `normal[coord] = +1` and
`-(neg[coord]·u_i + pos[coord]·u_j)·face_measure` when `normal[coord] = -1`. The evaluator
for `dimDomain = 1` computes on its default path `ret = pos·u_i + neg·u_j` when the normal
is `+1` and `ret = -(neg·u_i + pos·u_j)` when it is `-1`, the claimed value on a face of
measure `1`, and its body ends there (`EndOfBody`): it has no `return` statement, and its
lines 330-341 have no factor `vol_intersection`. -/
theorem evaluate_upwind_linear {P : Type} {dimDomain dimRange : ℕ} [NeZero dimDomain]
    (env : Env dimRange) (hcmp : FloatCmp_exact env)
    (self : GodunovNumericalCouplingFlux dimDomain dimRange)
    (st st1 : Statics dimDomain dimRange)
    (local_source_entity local_source_neighbor : P → RangeType dimRange)
    (intersection : Intersection P dimDomain) (x_intersection : P)
    (A : RMatrix dimRange) (coord : Fin dimDomain)
    (self_1 : GodunovNumericalCouplingFlux_1 dimRange) (st_1 st1_1 : Statics_1 dimRange)
    (intersection_1 : Intersection P 1) (x_intersection_1 : P) (A_1 : RMatrix dimRange)
    (u_i u_j : RangeType dimRange)
    (hu_i : local_source_entity (intersection.geometryInInside_global x_intersection) = u_i)
    (hu_j : local_source_neighbor (intersection.geometryInOutside_global x_intersection) = u_j)
    (hsplit : GodunovNumericalCouplingFlux.evaluate_jacobians env self st u_i u_j = .ok st1)
    (hn : intersection.unitOuterNormal x_intersection coord = 1 ∨
      intersection.unitOuterNormal x_intersection coord = -1)
    (h0 : ∀ ii, ii ≠ coord → intersection.unitOuterNormal x_intersection ii = 0)
    (hf : ∀ u kk, self.analytical_flux_.evaluate u kk coord = A.mulVec u kk)
    (hA : st1.jacobian_neg_ coord + st1.jacobian_pos_ coord = A)
    (hu_i_1 : local_source_entity
      (intersection_1.geometryInInside_global x_intersection_1) = u_i)
    (hu_j_1 : local_source_neighbor
      (intersection_1.geometryInOutside_global x_intersection_1) = u_j)
    (hsplit_1 : GodunovNumericalCouplingFlux_1.evaluate_jacobians env false self_1 st_1
      u_i u_j = .ok st1_1)
    (hinv_1 : self_1.is_linear_ = true → st_1.jacobians_constructed_ = true →
      st_1.jacobian_neg_function_ = ⟨st_1.jacobian_neg_, 0⟩ ∧
        st_1.jacobian_pos_function_ = ⟨st_1.jacobian_pos_, 0⟩)
    (hn_1 : intersection_1.unitOuterNormal x_intersection_1 0 = 1 ∨
      intersection_1.unitOuterNormal x_intersection_1 0 = -1)
    (hf_1 : ∀ u, self_1.analytical_flux_.evaluate u = A_1.mulVec u)
    (hA_1 : st1_1.jacobian_neg_ + st1_1.jacobian_pos_ = A_1) :
    GodunovNumericalCouplingFlux.evaluate env self st local_source_entity
        local_source_neighbor intersection x_intersection =
      .ok (if intersection.unitOuterNormal x_intersection coord = 1 then
          fun kk => ((st1.jacobian_pos_ coord).mulVec u_i
            + (st1.jacobian_neg_ coord).mulVec u_j) kk * intersection.geometry_volume
        else
          fun kk => -((st1.jacobian_neg_ coord).mulVec u_i
            + (st1.jacobian_pos_ coord).mulVec u_j) kk * intersection.geometry_volume,
        st1) ∧
    GodunovNumericalCouplingFlux_1.evaluate env false self_1 st_1 local_source_entity
        local_source_neighbor intersection_1 x_intersection_1 =
      .ok ⟨if intersection_1.unitOuterNormal x_intersection_1 0 = 1 then
          st1_1.jacobian_pos_.mulVec u_i + st1_1.jacobian_neg_.mulVec u_j
        else -(st1_1.jacobian_neg_.mulVec u_i + st1_1.jacobian_pos_.mulVec u_j), st1_1⟩ := by
  constructor
  · subst hu_i hu_j
    rw [GodunovNumericalCouplingFlux.evaluate_eq env self st st1 _ _ _ _ coord hsplit
      (evaluate_direction_exact env hcmp _ coord hn h0)]
    congr 2
    rcases hn with hn | hn
    · rw [if_pos hn, GodunovNumericalCouplingFlux.evaluate_ret_of_pos _ _ _ _ _ _ hn]
      funext kk
      congr 1
      simp only [hf, ← hA, Matrix.add_mulVec, Matrix.mulVec_sub, Pi.add_apply, Pi.sub_apply]
      ring
    · rw [if_neg (by rw [hn]; norm_num),
        GodunovNumericalCouplingFlux.evaluate_ret_of_neg _ _ _ _ _ _ hn]
      funext kk
      congr 1
      simp only [hf, ← hA, Matrix.add_mulVec, Matrix.mulVec_sub, Pi.add_apply, Pi.sub_apply,
        Pi.neg_apply]
      ring
  · subst hu_i_1
    rw [← hu_j_1] at hsplit_1 ⊢
    unfold GodunovNumericalCouplingFlux_1.evaluate
      GodunovNumericalCouplingFlux_1.evaluate_flux
    simp only [hsplit_1]
    rw [GodunovNumericalCouplingFlux_1.evaluate_ret_upwind self_1 st1_1 A_1 _ _ _ hf_1
      (GodunovNumericalCouplingFlux_1.evaluate_jacobians_functions env self_1 st_1 st1_1 _ _
        hinv_1 hsplit_1) hA_1]
    rcases hn_1 with hn | hn
    · rw [if_pos (by rw [hn]; norm_num), if_pos hn]
    · rw [if_neg (by rw [hn]; norm_num), if_neg (by rw [hn]; norm_num)]

/-- Instance of C24 on the sample data. General evaluator: flux `2·u` along axis 1, states
`2` and `1`, normal `(0, 1)`, face measure `3`. Evaluator for `dimDomain = 1`: advection
with speed `1`, the same states, normal `+1`, face measure `1`. Both in nonlinear mode,
started on the initial static members. -/
theorem evaluate_upwind_linear_witness :
    ∃ st1_1,
      GodunovNumericalCouplingFlux.evaluate (sample_env false) ⟨sample_flux, false⟩
          (Statics.initial 2 1) (sample_source 2) (sample_source 1)
          (sample_intersection 0 1 3) () =
        .ok (if (sample_intersection 0 1 3).unitOuterNormal () 1 = 1 then
            fun kk => (((sample_statics false 2 1).jacobian_pos_ 1).mulVec (fun _ => 2)
              + ((sample_statics false 2 1).jacobian_neg_ 1).mulVec (fun _ => 1)) kk
                * (sample_intersection 0 1 3).geometry_volume
          else
            fun kk => -(((sample_statics false 2 1).jacobian_neg_ 1).mulVec (fun _ => 2)
              + ((sample_statics false 2 1).jacobian_pos_ 1).mulVec (fun _ => 1)) kk
                * (sample_intersection 0 1 3).geometry_volume,
          sample_statics false 2 1) ∧
      GodunovNumericalCouplingFlux_1.evaluate (sample_env false) false
          ⟨advection_flux 1, false⟩ (Statics_1.initial 1) (sample_source 2) (sample_source 1)
          (sample_intersection_1 1 1) () =
        .ok ⟨if (sample_intersection_1 1 1).unitOuterNormal () 0 = 1 then
            st1_1.jacobian_pos_.mulVec (fun _ => 2) + st1_1.jacobian_neg_.mulVec (fun _ => 1)
          else -(st1_1.jacobian_neg_.mulVec (fun _ => 2)
            + st1_1.jacobian_pos_.mulVec (fun _ => 1)), st1_1⟩ :=
  ⟨_, evaluate_upwind_linear (sample_env false) (sample_env_exact false)
    ⟨sample_flux, false⟩ (Statics.initial 2 1) (sample_statics false 2 1)
    (sample_source 2) (sample_source 1) (sample_intersection 0 1 3) ()
    (Matrix.of fun _ _ => 2) 1 ⟨advection_flux 1, false⟩ (Statics_1.initial 1) _
    (sample_intersection_1 1 1) () (Matrix.of fun _ _ => 1) (fun _ => 2) (fun _ => 1)
    rfl rfl (sample_evaluate_jacobians false 2 1) (Or.inl rfl)
    (sample_normal_zero 0 1 3 1 (Or.inr ⟨rfl, rfl⟩))
    (by intro u kk; simp [sample_flux, Matrix.mulVec, Matrix.dotProduct])
    (by
      ext i j
      simp [sample_statics, sample_split_neg, sample_split_pos, sample_flux])
    rfl rfl
    (GodunovNumericalCouplingFlux_1.evaluate_jacobians_nonlinear_1 (sample_env false) false
      ⟨advection_flux 1, false⟩ rfl (Statics_1.initial 1) _ _
      (Or.inr (sample_env_accepts false _)))
    (fun h => absurd h (by simp)) (Or.inl rfl)
    (by
      intro u
      funext kk
      obtain rfl : kk = 0 := Subsingleton.elim _ _
      simp [advection_flux, Matrix.mulVec, Matrix.dotProduct])
    (by
      ext i j
      simp [GodunovNumericalCouplingFlux_1.calculate_jacobians_store, sample_split_neg,
        sample_split_pos, advection_flux])⟩

/-! ## Claims C25 and C26: the two formulations and the two splitters -/

namespace GodunovNumericalCouplingFlux_1

variable {P : Type} {dimRange : ℕ}

theorem calculate_jacobians_store_split (PAPERFLUX : Bool) (st : Statics_1 dimRange)
    (A B : RMatrix dimRange) :
    (calculate_jacobians_store PAPERFLUX st A B).jacobian_neg_ = A ∧
      (calculate_jacobians_store PAPERFLUX st A B).jacobian_pos_ = B ∧
      (calculate_jacobians_store PAPERFLUX st A B).jacobians_constructed_
        = st.jacobians_constructed_ := by
  cases PAPERFLUX <;> exact ⟨rfl, rfl, rfl⟩

/-- The matrices and the flag a call of `evaluate` works with, in either build. -/
theorem evaluate_jacobians_split_1 (env : Env dimRange) (PAPERFLUX : Bool)
    (self : GodunovNumericalCouplingFlux_1 dimRange) (st st1 : Statics_1 dimRange)
    (u_i u_j : RangeType dimRange)
    (h : evaluate_jacobians env PAPERFLUX self st u_i u_j = .ok st1) :
    (self.is_linear_ = true → st.jacobians_constructed_ = true → st1 = st) ∧
    (self.is_linear_ = true → st.jacobians_constructed_ = false →
      st1.jacobians_constructed_ = true ∧
      st1.jacobian_neg_ = split_neg env (self.analytical_flux_.jacobian fun _ => 0) ∧
      st1.jacobian_pos_ = split_pos env (self.analytical_flux_.jacobian fun _ => 0)) ∧
    (self.is_linear_ = false →
      st1.jacobians_constructed_ = st.jacobians_constructed_ ∧
      st1.jacobian_neg_ = split_neg env
        (self.analytical_flux_.jacobian fun kk => (u_i kk + u_j kk) * (1 / 2)) ∧
      st1.jacobian_pos_ = split_pos env
        (self.analytical_flux_.jacobian fun kk => (u_i kk + u_j kk) * (1 / 2))) := by
  unfold evaluate_jacobians at h
  cases hlin : self.is_linear_
  · rw [initialize_guard_constructed env PAPERFLUX self st (Or.inr hlin)] at h
    simp only [hlin, Bool.not_false, if_true] at h
    have hacc := calculate_jacobians_accepts_1 env PAPERFLUX _ _ _ h
    rw [reinitialize_jacobians_ok_1 env PAPERFLUX self st u_i u_j hacc] at h
    injection h with hst
    subst hst
    refine ⟨fun hc => absurd hc (by simp), fun hc => absurd hc (by simp), fun _ => ?_⟩
    obtain ⟨h1, h2, h3⟩ := calculate_jacobians_store_split PAPERFLUX
      ⟨st.jacobian_neg_, st.jacobian_pos_, st.jacobian_abs_, st.jacobian_neg_function_,
        st.jacobian_pos_function_, st.jacobian_abs_function_, st.jacobians_constructed_,
        st.jacobian_calls ++ [fun kk => (u_i kk + u_j kk) * (1 / 2)],
        st.eigen_solver_calls + 1⟩
      (split_neg env (self.analytical_flux_.jacobian fun kk => (u_i kk + u_j kk) * (1 / 2)))
      (split_pos env (self.analytical_flux_.jacobian fun kk => (u_i kk + u_j kk) * (1 / 2)))
    exact ⟨h3, h1, h2⟩
  · cases hflag : st.jacobians_constructed_
    · have hg : initialize_guard env PAPERFLUX self st
          = initialize_jacobians env PAPERFLUX self st := by
        unfold initialize_guard
        simp [hflag, hlin]
      rw [hg] at h
      cases hi : initialize_jacobians env PAPERFLUX self st with
      | error e =>
        rw [hi] at h
        exact Except.noConfusion h
      | ok st2 =>
        obtain ⟨st3, h3, hfacts⟩ := initialize_jacobians_ok_1 env PAPERFLUX self st
          (initialize_jacobians_accepts_1 env PAPERFLUX self st st2 hi)
        rw [h3] at h
        simp only [hlin, Bool.not_true, Bool.false_eq_true, if_false] at h
        injection h with hst
        subst hst
        exact ⟨fun _ hc => absurd hc (by simp),
          fun _ _ => ⟨hfacts.1, hfacts.2.2.2.1, hfacts.2.2.2.2.1⟩,
          fun hc => absurd hc (by simp)⟩
    · rw [initialize_guard_constructed env PAPERFLUX self st (Or.inl hflag)] at h
      simp only [hlin, Bool.not_true, Bool.false_eq_true, if_false] at h
      injection h with hst
      subst hst
      exact ⟨fun _ _ => rfl, fun _ hc => absurd hc (by simp), fun hc => absurd hc (by simp)⟩

/-- The path of lines 315-329 for a linear flux `f(u) = A·u` on a cache whose function
`jacobian_abs_function_` is the product with `jacobian_pos_ - jacobian_neg_` of a split of
`A`. -/
theorem evaluate_ret_paper_linear (self : GodunovNumericalCouplingFlux_1 dimRange)
    (st : Statics_1 dimRange) (A : RMatrix dimRange) (u_i u_j : RangeType dimRange) (n_ij : ℚ)
    (hf : ∀ u, self.analytical_flux_.evaluate u = A.mulVec u)
    (habs : st.jacobian_abs_function_ = ⟨st.jacobian_pos_ - st.jacobian_neg_, 0⟩)
    (hA : st.jacobian_neg_ + st.jacobian_pos_ = A) :
    evaluate_ret true self st u_i u_j n_ij =
      if n_ij > 0 then st.jacobian_pos_.mulVec u_i + st.jacobian_neg_.mulVec u_j
      else -(st.jacobian_neg_.mulVec u_i + st.jacobian_pos_.mulVec u_j) := by
  have hF : (if self.is_linear_ = true then self.analytical_flux_.evaluate (u_i + u_j)
      else self.analytical_flux_.evaluate u_i + self.analytical_flux_.evaluate u_j)
      = A.mulVec u_i + A.mulVec u_j := by
    split
    · rw [hf, Matrix.mulVec_add]
    · rw [hf, hf]
  unfold evaluate_ret
  simp only [if_true, hF, habs, AffineFunctionType.evaluate, ← hA]
  split
  · funext kk
    simp [Matrix.add_mulVec, Matrix.sub_mulVec, Matrix.mulVec_sub]
    ring
  · funext kk
    simp [Matrix.add_mulVec, Matrix.sub_mulVec, Matrix.mulVec_sub]
    ring

end GodunovNumericalCouplingFlux_1

/-- C25. Paper and default formulations coincide for linear fluxes. Take the evaluator for
`dimDomain = 1` in the build with `PAPERFLUX` set and in the build without, on static
members that correspond (same flag, same `jacobian_neg_`, `jacobian_pos_`, and on an
INITIALIZED cache the stored functions are the products with the stored matrices). For a
linear flux `f(u) = A·u`, a split in use with `jacobian_neg_ + jacobian_pos_ = A` and a
normal `n ∈ {+1, -1}`, the two builds compute the same vector `ret`, in linear and in
nonlinear mode, and leave static members that correspond again. -/
theorem paperflux_eq_default {P : Type} {dimRange : ℕ} (env : Env dimRange)
    (self : GodunovNumericalCouplingFlux_1 dimRange) (A : RMatrix dimRange)
    (st_p st_p1 st_d st_d1 : Statics_1 dimRange)
    (local_source_entity local_source_neighbor : P → RangeType dimRange)
    (intersection : Intersection P 1) (x_intersection : P) (u_i u_j : RangeType dimRange)
    (hu_i : local_source_entity (intersection.geometryInInside_global x_intersection) = u_i)
    (hu_j : local_source_neighbor (intersection.geometryInOutside_global x_intersection) = u_j)
    (hcorr : st_p.jacobians_constructed_ = st_d.jacobians_constructed_ ∧
      st_p.jacobian_neg_ = st_d.jacobian_neg_ ∧ st_p.jacobian_pos_ = st_d.jacobian_pos_)
    (hinv_p : self.is_linear_ = true → st_p.jacobians_constructed_ = true →
      st_p.jacobian_abs_function_ = ⟨st_p.jacobian_pos_ - st_p.jacobian_neg_, 0⟩)
    (hinv_d : self.is_linear_ = true → st_d.jacobians_constructed_ = true →
      st_d.jacobian_neg_function_ = ⟨st_d.jacobian_neg_, 0⟩ ∧
        st_d.jacobian_pos_function_ = ⟨st_d.jacobian_pos_, 0⟩)
    (hsplit_p : GodunovNumericalCouplingFlux_1.evaluate_jacobians env true self st_p u_i u_j
      = .ok st_p1)
    (hsplit_d : GodunovNumericalCouplingFlux_1.evaluate_jacobians env false self st_d u_i u_j
      = .ok st_d1)
    (hn : intersection.unitOuterNormal x_intersection 0 = 1 ∨
      intersection.unitOuterNormal x_intersection 0 = -1)
    (hf : ∀ u, self.analytical_flux_.evaluate u = A.mulVec u)
    (hA : st_d1.jacobian_neg_ + st_d1.jacobian_pos_ = A) :
    ∃ ret,
      GodunovNumericalCouplingFlux_1.evaluate env true self st_p local_source_entity
        local_source_neighbor intersection x_intersection = .ok ⟨ret, st_p1⟩ ∧
      GodunovNumericalCouplingFlux_1.evaluate env false self st_d local_source_entity
        local_source_neighbor intersection x_intersection = .ok ⟨ret, st_d1⟩ ∧
      ret = (if intersection.unitOuterNormal x_intersection 0 = 1 then
          st_d1.jacobian_pos_.mulVec u_i + st_d1.jacobian_neg_.mulVec u_j
        else -(st_d1.jacobian_neg_.mulVec u_i + st_d1.jacobian_pos_.mulVec u_j)) ∧
      st_p1.jacobians_constructed_ = st_d1.jacobians_constructed_ ∧
      st_p1.jacobian_neg_ = st_d1.jacobian_neg_ ∧ st_p1.jacobian_pos_ = st_d1.jacobian_pos_ ∧
      st_p1.jacobian_abs_function_ = ⟨st_p1.jacobian_pos_ - st_p1.jacobian_neg_, 0⟩ ∧
      st_d1.jacobian_neg_function_ = ⟨st_d1.jacobian_neg_, 0⟩ ∧
      st_d1.jacobian_pos_function_ = ⟨st_d1.jacobian_pos_, 0⟩ := by
  subst hu_i hu_j
  obtain ⟨p1, p2, p3⟩ := GodunovNumericalCouplingFlux_1.evaluate_jacobians_split_1 env true
    self st_p st_p1 _ _ hsplit_p
  obtain ⟨d1, d2, d3⟩ := GodunovNumericalCouplingFlux_1.evaluate_jacobians_split_1 env false
    self st_d st_d1 _ _ hsplit_d
  have hsame : st_p1.jacobians_constructed_ = st_d1.jacobians_constructed_ ∧
      st_p1.jacobian_neg_ = st_d1.jacobian_neg_ ∧
      st_p1.jacobian_pos_ = st_d1.jacobian_pos_ := by
    cases hlin : self.is_linear_
    · obtain ⟨a1, a2, a3⟩ := p3 hlin
      obtain ⟨b1, b2, b3⟩ := d3 hlin
      exact ⟨by rw [a1, b1, hcorr.1], by rw [a2, b2], by rw [a3, b3]⟩
    · cases hflag : st_d.jacobians_constructed_
      · obtain ⟨a1, a2, a3⟩ := p2 hlin (hcorr.1.trans hflag)
        obtain ⟨b1, b2, b3⟩ := d2 hlin hflag
        exact ⟨by rw [a1, b1], by rw [a2, b2], by rw [a3, b3]⟩
      · rw [p1 hlin (hcorr.1.trans hflag), d1 hlin hflag]
        exact hcorr
  have habs := GodunovNumericalCouplingFlux_1.evaluate_jacobians_abs env self st_p st_p1 _ _
    hinv_p hsplit_p
  have hfun := GodunovNumericalCouplingFlux_1.evaluate_jacobians_functions env self st_d
    st_d1 _ _ hinv_d hsplit_d
  have hA_p : st_p1.jacobian_neg_ + st_p1.jacobian_pos_ = A := by
    rw [hsame.2.1, hsame.2.2, hA]
  have hif : ∀ x y : RangeType dimRange,
      (if intersection.unitOuterNormal x_intersection 0 > 0 then x else y)
        = if intersection.unitOuterNormal x_intersection 0 = 1 then x else y := by
    intro x y
    rcases hn with hn | hn
    · rw [if_pos (by rw [hn]; norm_num), if_pos hn]
    · rw [if_neg (by rw [hn]; norm_num), if_neg (by rw [hn]; norm_num)]
  refine ⟨_, ?_, ?_, rfl, hsame.1, hsame.2.1, hsame.2.2, habs, hfun.1, hfun.2⟩
  · unfold GodunovNumericalCouplingFlux_1.evaluate
      GodunovNumericalCouplingFlux_1.evaluate_flux
    simp only [hsplit_p]
    rw [GodunovNumericalCouplingFlux_1.evaluate_ret_paper_linear self st_p1 A _ _ _ hf habs
      hA_p, hif, hsame.2.1, hsame.2.2]
  · unfold GodunovNumericalCouplingFlux_1.evaluate
      GodunovNumericalCouplingFlux_1.evaluate_flux
    simp only [hsplit_d]
    rw [GodunovNumericalCouplingFlux_1.evaluate_ret_upwind self st_d1 A _ _ _ hf hfun hA, hif]

/-- Instance of C25 on the sample data: advection with speed `1`, nonlinear mode, states
`2` and `1`, normal `-1`, both builds started on the initial static members. -/
theorem paperflux_eq_default_witness :
    ∃ ret st_p1 st_d1,
      GodunovNumericalCouplingFlux_1.evaluate (sample_env false) true
        ⟨advection_flux 1, false⟩ (Statics_1.initial 1) (sample_source 2) (sample_source 1)
        (sample_intersection_1 (-1) 1) () = .ok ⟨ret, st_p1⟩ ∧
      GodunovNumericalCouplingFlux_1.evaluate (sample_env false) false
        ⟨advection_flux 1, false⟩ (Statics_1.initial 1) (sample_source 2) (sample_source 1)
        (sample_intersection_1 (-1) 1) () = .ok ⟨ret, st_d1⟩ := by
  obtain ⟨ret, h1, h2, -⟩ := paperflux_eq_default (sample_env false)
    ⟨advection_flux 1, false⟩ (Matrix.of fun _ _ => 1) (Statics_1.initial 1) _
    (Statics_1.initial 1) _ (sample_source 2) (sample_source 1)
    (sample_intersection_1 (-1) 1) () (fun _ => 2) (fun _ => 1) rfl rfl ⟨rfl, rfl, rfl⟩
    (fun h => absurd h (by simp)) (fun h => absurd h (by simp))
    (GodunovNumericalCouplingFlux_1.evaluate_jacobians_nonlinear_1 (sample_env false) true
      ⟨advection_flux 1, false⟩ rfl (Statics_1.initial 1) _ _
      (Or.inr (sample_env_accepts false _)))
    (GodunovNumericalCouplingFlux_1.evaluate_jacobians_nonlinear_1 (sample_env false) false
      ⟨advection_flux 1, false⟩ rfl (Statics_1.initial 1) _ _
      (Or.inr (sample_env_accepts false _)))
    (Or.inr rfl)
    (by
      intro u
      funext kk
      obtain rfl : kk = 0 := Subsingleton.elim _ _
      simp [advection_flux, Matrix.mulVec, Matrix.dotProduct])
    (by
      ext i j
      simp [GodunovNumericalCouplingFlux_1.calculate_jacobians_store, sample_split_neg,
        sample_split_pos, advection_flux])
  exact ⟨ret, _, _, h1, h2⟩

/-- C26. The splitter of the specialisation for `dimDomain = 1`, which rebuilds and stores
the split in every pass of the loop over the eigenvalues, ends, for a Jacobian the solver's
output for which passes the assertions (or with the assertions compiled out), with the
matrices `jacobian_neg_`, `jacobian_pos_` that the splitter of general `dimDomain` stores for
axis 0 when run on the same matrix, in both settings of `PAPERFLUX`; `jacobian_abs_` is their
difference, and the functions the build uses are the products with these matrices. -/
theorem calculate_jacobians_1_eq_general {dimRange : ℕ} (env : Env dimRange)
    (PAPERFLUX : Bool) (jacobian : RMatrix dimRange) (st : Statics 1 dimRange)
    (st_1 : Statics_1 dimRange)
    (hacc : env.NDEBUG = true ∨ solver_accepts env jacobian) :
    ∃ st1 st1_1,
      calculate_jacobians env (fun _ : Fin 1 => jacobian) st = .ok st1 ∧
      GodunovNumericalCouplingFlux_1.calculate_jacobians env PAPERFLUX jacobian st_1
        = .ok st1_1 ∧
      st1_1.jacobian_neg_ = st1.jacobian_neg_ 0 ∧
      st1_1.jacobian_pos_ = st1.jacobian_pos_ 0 ∧
      st1_1.jacobian_abs_ = st1.jacobian_pos_ 0 - st1.jacobian_neg_ 0 ∧
      (PAPERFLUX = false → st1_1.jacobian_neg_function_ = ⟨st1.jacobian_neg_ 0, 0⟩ ∧
        st1_1.jacobian_pos_function_ = ⟨st1.jacobian_pos_ 0, 0⟩) ∧
      (PAPERFLUX = true →
        st1_1.jacobian_abs_function_ = ⟨st1.jacobian_pos_ 0 - st1.jacobian_neg_ 0, 0⟩) := by
  refine ⟨_, _, calculate_jacobians_ok env (fun _ : Fin 1 => jacobian) st
      (hacc.imp id fun h _ => h),
    GodunovNumericalCouplingFlux_1.calculate_jacobians_ok_1 env PAPERFLUX jacobian st_1 hacc,
    ?_⟩
  cases PAPERFLUX <;>
    simp [GodunovNumericalCouplingFlux_1.calculate_jacobians_store, sub_eq_add_neg, add_comm]

theorem sample_env_n_accepts (n : ℕ) (NDEBUG : Bool) (J : RMatrix n) :
    solver_accepts (sample_env_n n NDEBUG) J := by
  refine ⟨rfl, fun jj => ?_⟩
  simp [sample_env_n, diagonal_eigen_solver, Cplx.ofReal]

/-- Instance of C26 on the sample data: the diagonal Jacobian with entries `-1` and `2`
(`dimRange = 2`, two passes of the loop), both caches at their initial values, `PAPERFLUX`
not set. -/
theorem calculate_jacobians_1_eq_general_witness :
    ∃ st1 st1_1,
      calculate_jacobians (sample_env_n 2 false) (fun _ : Fin 1 => Matrix.diagonal ![-1, 2])
        (Statics.initial 1 2) = .ok st1 ∧
      GodunovNumericalCouplingFlux_1.calculate_jacobians (sample_env_n 2 false) false
        (Matrix.diagonal ![-1, 2]) (Statics_1.initial 2) = .ok st1_1 ∧
      st1_1.jacobian_neg_ = st1.jacobian_neg_ 0 ∧
      st1_1.jacobian_pos_ = st1.jacobian_pos_ 0 ∧
      st1_1.jacobian_abs_ = st1.jacobian_pos_ 0 - st1.jacobian_neg_ 0 ∧
      (false = false → st1_1.jacobian_neg_function_ = ⟨st1.jacobian_neg_ 0, 0⟩ ∧
        st1_1.jacobian_pos_function_ = ⟨st1.jacobian_pos_ 0, 0⟩) ∧
      (false = true →
        st1_1.jacobian_abs_function_ = ⟨st1.jacobian_pos_ 0 - st1.jacobian_neg_ 0, 0⟩) :=
  calculate_jacobians_1_eq_general (sample_env_n 2 false) false (Matrix.diagonal ![-1, 2])
    (Statics.initial 1 2) (Statics_1.initial 2) (Or.inr (sample_env_n_accepts 2 false _))

/-! ## Claims C27 to C29: algebra of the split -/

/-- The real part of an exact inverse of a real matrix is the inverse of its real part. -/
theorem real_inverse {n : ℕ} (V Vinv : CMatrix n) (hvec : ∀ i j, (V i j).im = 0)
    (hinv : V * Vinv = 1) :
    real V * real Vinv = 1 ∧ real Vinv * real V = 1 := by
  have h : real V * real Vinv = 1 := by
    rw [← real_mul_of_real V Vinv hvec, hinv, real_one]
  exact ⟨h, Matrix.mul_eq_one_comm.1 h⟩

theorem D_neg_mul_D_pos {n : ℕ} (eigenvalues : Fin n → Cplx) :
    D_neg eigenvalues * D_pos eigenvalues = 0 ∧ D_pos eigenvalues * D_neg eigenvalues = 0 := by
  have h1 : (fun j => (if (eigenvalues j).re < 0 then (eigenvalues j).re else 0)
      * (if 0 ≤ (eigenvalues j).re then (eigenvalues j).re else 0)) = fun _ => (0 : ℚ) := by
    funext j
    by_cases h : (eigenvalues j).re < 0
    · simp [h, not_le.2 h]
    · simp [h]
  have h2 : (fun j => (if 0 ≤ (eigenvalues j).re then (eigenvalues j).re else 0)
      * (if (eigenvalues j).re < 0 then (eigenvalues j).re else 0)) = fun _ => (0 : ℚ) := by
    funext j
    by_cases h : (eigenvalues j).re < 0
    · simp [h, not_le.2 h]
    · simp [h]
  unfold D_neg D_pos
  rw [Matrix.diagonal_mul_diagonal, Matrix.diagonal_mul_diagonal, h1, h2]
  exact ⟨Matrix.diagonal_zero, Matrix.diagonal_zero⟩

/-- The two parts of the split of a matrix annihilate each other when the eigenvector
matrix is real and `inverse` returns its exact inverse. -/
theorem split_neg_mul_split_pos {n : ℕ} (env : Env n) (J : RMatrix n)
    (hvec : ∀ i j, ((env.eigen_solver J).eigenvectors i j).im = 0)
    (hinv : (env.eigen_solver J).eigenvectors
      * env.inverse (env.eigen_solver J).eigenvectors = 1) :
    split_neg env J * split_pos env J = 0 ∧ split_pos env J * split_neg env J = 0 := by
  obtain ⟨-, hRW⟩ := real_inverse _ _ hvec hinv
  obtain ⟨h1, h2⟩ := D_neg_mul_D_pos (env.eigen_solver J).eigenvalues
  unfold split_neg split_pos
  constructor
  · calc real (env.eigen_solver J).eigenvectors * D_neg (env.eigen_solver J).eigenvalues
          * real (env.inverse (env.eigen_solver J).eigenvectors)
          * (real (env.eigen_solver J).eigenvectors * D_pos (env.eigen_solver J).eigenvalues
            * real (env.inverse (env.eigen_solver J).eigenvectors))
        = real (env.eigen_solver J).eigenvectors * (D_neg (env.eigen_solver J).eigenvalues
          * (real (env.inverse (env.eigen_solver J).eigenvectors)
            * real (env.eigen_solver J).eigenvectors)
          * D_pos (env.eigen_solver J).eigenvalues)
          * real (env.inverse (env.eigen_solver J).eigenvectors) := by
            simp only [Matrix.mul_assoc]
      _ = 0 := by rw [hRW, Matrix.mul_one, h1, Matrix.mul_zero, Matrix.zero_mul]
  · calc real (env.eigen_solver J).eigenvectors * D_pos (env.eigen_solver J).eigenvalues
          * real (env.inverse (env.eigen_solver J).eigenvectors)
          * (real (env.eigen_solver J).eigenvectors * D_neg (env.eigen_solver J).eigenvalues
            * real (env.inverse (env.eigen_solver J).eigenvectors))
        = real (env.eigen_solver J).eigenvectors * (D_pos (env.eigen_solver J).eigenvalues
          * (real (env.inverse (env.eigen_solver J).eigenvectors)
            * real (env.eigen_solver J).eigenvectors)
          * D_neg (env.eigen_solver J).eigenvalues)
          * real (env.inverse (env.eigen_solver J).eigenvectors) := by
            simp only [Matrix.mul_assoc]
      _ = 0 := by rw [hRW, Matrix.mul_one, h2, Matrix.mul_zero, Matrix.zero_mul]

/-- A product `W · D · W⁻¹` with a diagonal `D` does not change when the columns of `W` are
permuted and rescaled and the diagonal is permuted with them. -/
theorem conjugate_diagonal_permuted {n : ℕ} (W R W2 R2 : RMatrix n)
    (σ : Equiv.Perm (Fin n)) (s d : Fin n → ℚ)
    (hRW : R * W = 1) (hW2 : ∀ i j, W2 i j = W i (σ j) * s j) (hWR2 : W2 * R2 = 1) :
    W2 * Matrix.diagonal (fun j => d (σ j)) * R2 = W * Matrix.diagonal d * R := by
  have hRW2 : ∀ k j, (R * W2) k j = if k = σ j then s j else 0 := by
    intro k j
    have h1 : (R * W2) k j = (R * W) k (σ j) * s j := by
      simp only [Matrix.mul_apply, hW2, Finset.sum_mul, mul_assoc]
    rw [h1, hRW, Matrix.one_apply]
    split <;> simp
  have key : W2 * Matrix.diagonal (fun j => d (σ j)) = W * Matrix.diagonal d * R * W2 := by
    rw [Matrix.mul_assoc (W * Matrix.diagonal d)]
    ext i j
    rw [Matrix.mul_diagonal, Matrix.mul_apply]
    simp only [hRW2, Matrix.mul_diagonal, mul_ite, mul_zero, Finset.sum_ite_eq',
      Finset.mem_univ, if_true, hW2]
    ring
  rw [key, Matrix.mul_assoc, hWR2, Matrix.mul_one]

theorem adjugate_inverse_mul {n : ℕ} (M : CMatrix n) (h : M.det * (M.det)⁻¹ = 1) :
    M * adjugate_inverse M = 1 := by
  unfold adjugate_inverse
  rw [Matrix.mul_smul, Matrix.mul_adjugate, smul_smul, mul_comm, h, one_smul]

/-- C27. The split does not depend on which eigen-decomposition the solver returns. Let one
solver return, for every axis, real eigenvectors `V` with real eigenvalues `λ`, and another
the eigenpairs permuted by `σ` and the eigenvectors rescaled by real factors `s`
(`V₂[i][j] = V[i][σ j] · s j`, `λ₂[j] = λ[σ j]`), with `inverse` exact on both eigenvector
matrices. Then `calculate_jacobians` stores the same `jacobian_neg_` and `jacobian_pos_`
with either solver. -/
theorem calculate_jacobians_decomposition {dimDomain dimRange : ℕ}
    (env env2 : Env dimRange) (jacobian : Fin dimDomain → RMatrix dimRange)
    (st st_2 : Statics dimDomain dimRange)
    (σ : Fin dimDomain → Equiv.Perm (Fin dimRange)) (s : Fin dimDomain → Fin dimRange → ℚ)
    (hinfo : ∀ ii, (env.eigen_solver (jacobian ii)).info = ComputationInfo.Success)
    (hinfo2 : ∀ ii, (env2.eigen_solver (jacobian ii)).info = ComputationInfo.Success)
    (hreal : ∀ ii jj, ((env.eigen_solver (jacobian ii)).eigenvalues jj).im = 0)
    (hvec : ∀ ii i j, ((env.eigen_solver (jacobian ii)).eigenvectors i j).im = 0)
    (hinv : ∀ ii, (env.eigen_solver (jacobian ii)).eigenvectors
      * env.inverse (env.eigen_solver (jacobian ii)).eigenvectors = 1)
    (hV2 : ∀ ii i j, (env2.eigen_solver (jacobian ii)).eigenvectors i j
      = (env.eigen_solver (jacobian ii)).eigenvectors i (σ ii j) * Cplx.ofReal (s ii j))
    (hev2 : ∀ ii j, (env2.eigen_solver (jacobian ii)).eigenvalues j
      = (env.eigen_solver (jacobian ii)).eigenvalues (σ ii j))
    (hinv2 : ∀ ii, (env2.eigen_solver (jacobian ii)).eigenvectors
      * env2.inverse (env2.eigen_solver (jacobian ii)).eigenvectors = 1) :
    ∃ st1 st2,
      calculate_jacobians env jacobian st = .ok st1 ∧
      calculate_jacobians env2 jacobian st_2 = .ok st2 ∧
      st2.jacobian_neg_ = st1.jacobian_neg_ ∧ st2.jacobian_pos_ = st1.jacobian_pos_ := by
  have hacc : ∀ ii, solver_accepts env (jacobian ii) := by
    intro ii
    refine ⟨hinfo ii, fun jj => ?_⟩
    rw [hreal ii jj]
    norm_num
  have hacc2 : ∀ ii, solver_accepts env2 (jacobian ii) := by
    intro ii
    refine ⟨hinfo2 ii, fun jj => ?_⟩
    rw [hev2 ii jj, hreal ii (σ ii jj)]
    norm_num
  have hsplit : ∀ ii, split_neg env2 (jacobian ii) = split_neg env (jacobian ii) ∧
      split_pos env2 (jacobian ii) = split_pos env (jacobian ii) := by
    intro ii
    have hvec2 : ∀ i j, ((env2.eigen_solver (jacobian ii)).eigenvectors i j).im = 0 := by
      intro i j
      simp [hV2, hvec]
    have hW2 : ∀ i j, real (env2.eigen_solver (jacobian ii)).eigenvectors i j
        = real (env.eigen_solver (jacobian ii)).eigenvectors i (σ ii j) * s ii j := by
      intro i j
      simp [real, hV2, hvec]
    obtain ⟨-, hRW⟩ := real_inverse _ _ (hvec ii) (hinv ii)
    obtain ⟨hWR2, -⟩ := real_inverse _ _ hvec2 (hinv2 ii)
    have hD : ∀ d : ℚ → ℚ,
        (Matrix.diagonal fun j => d ((env2.eigen_solver (jacobian ii)).eigenvalues j).re)
        = Matrix.diagonal fun j =>
          d ((env.eigen_solver (jacobian ii)).eigenvalues (σ ii j)).re := by
      intro d
      simp only [hev2]
    unfold split_neg split_pos D_neg D_pos
    constructor
    · rw [hD fun x => if x < 0 then x else 0]
      exact conjugate_diagonal_permuted _ _ _ _ (σ ii) (s ii)
        (fun j => if ((env.eigen_solver (jacobian ii)).eigenvalues j).re < 0
          then ((env.eigen_solver (jacobian ii)).eigenvalues j).re else 0) hRW hW2 hWR2
    · rw [hD fun x => if 0 ≤ x then x else 0]
      exact conjugate_diagonal_permuted _ _ _ _ (σ ii) (s ii)
        (fun j => if 0 ≤ ((env.eigen_solver (jacobian ii)).eigenvalues j).re
          then ((env.eigen_solver (jacobian ii)).eigenvalues j).re else 0) hRW hW2 hWR2
  refine ⟨_, _, calculate_jacobians_ok env jacobian st (Or.inr hacc),
    calculate_jacobians_ok env2 jacobian st_2 (Or.inr hacc2), ?_, ?_⟩
  · funext ii
    exact (hsplit ii).1
  · funext ii
    exact (hsplit ii).2

theorem swapped_eigenvectors_det :
    (swapped_eigen_solver (Matrix.diagonal ![-1, 2])).eigenvectors.det
      * ((swapped_eigen_solver (Matrix.diagonal ![-1, 2])).eigenvectors.det)⁻¹ = 1 := by
  have hdet : (swapped_eigen_solver (Matrix.diagonal ![-1, 2])).eigenvectors.det
      = ⟨-6, 0⟩ := by
    rw [Matrix.det_fin_two]
    apply Cplx.ext
    · simp [swapped_eigen_solver, Matrix.one_apply, Equiv.swap_apply_def]
      norm_num
    · simp [swapped_eigen_solver, Matrix.one_apply, Equiv.swap_apply_def]
  rw [hdet]
  apply Cplx.ext
  · show (-6 : ℚ) * (-6 / (-6 * -6 + 0 * 0)) - 0 * (-0 / (-6 * -6 + 0 * 0)) = 1
    norm_num
  · show (-6 : ℚ) * (-0 / (-6 * -6 + 0 * 0)) + 0 * (-6 / (-6 * -6 + 0 * 0)) = 0
    norm_num

/-- Instance of C27 on the sample data: the diagonal Jacobian with entries `-1` and `2`,
split with the solver that returns the unit vectors and with the solver that returns them
in the other order, with lengths `2` and `3`. -/
theorem calculate_jacobians_decomposition_witness :
    ∃ st1 st2,
      calculate_jacobians (sample_env_n 2 false) (fun _ : Fin 1 => Matrix.diagonal ![-1, 2])
        (Statics.initial 1 2) = .ok st1 ∧
      calculate_jacobians sample_env_swapped (fun _ : Fin 1 => Matrix.diagonal ![-1, 2])
        (Statics.initial 1 2) = .ok st2 ∧
      st2.jacobian_neg_ = st1.jacobian_neg_ ∧ st2.jacobian_pos_ = st1.jacobian_pos_ :=
  calculate_jacobians_decomposition (sample_env_n 2 false) sample_env_swapped
    (fun _ : Fin 1 => Matrix.diagonal ![-1, 2]) (Statics.initial 1 2) (Statics.initial 1 2)
    (fun _ => Equiv.swap 0 1) (fun _ => ![2, 3]) (fun _ => rfl) (fun _ => rfl)
    (fun _ _ => rfl)
    (by
      intro ii i j
      simp [sample_env_n, diagonal_eigen_solver, Matrix.one_apply]
      split <;> rfl)
    (by
      intro ii
      simp [sample_env_n, diagonal_eigen_solver, adjugate_inverse_one])
    (fun _ _ _ => rfl) (fun _ _ => rfl)
    (fun _ => adjugate_inverse_mul _ swapped_eigenvectors_det)

/-- C28. The two parts of the split annihilate each other: when, for every axis, the solver
reports success with real eigenvalues and a real eigenvector matrix of which `inverse`
returns the exact inverse, the matrices stored by `calculate_jacobians` satisfy
`jacobian_neg_[ii] · jacobian_pos_[ii] = 0` and `jacobian_pos_[ii] · jacobian_neg_[ii] = 0`. -/
theorem calculate_jacobians_annihilate {dimDomain dimRange : ℕ} (env : Env dimRange)
    (jacobian : Fin dimDomain → RMatrix dimRange) (st : Statics dimDomain dimRange)
    (hinfo : ∀ ii, (env.eigen_solver (jacobian ii)).info = ComputationInfo.Success)
    (hreal : ∀ ii jj, ((env.eigen_solver (jacobian ii)).eigenvalues jj).im = 0)
    (hvec : ∀ ii i j, ((env.eigen_solver (jacobian ii)).eigenvectors i j).im = 0)
    (hinv : ∀ ii, (env.eigen_solver (jacobian ii)).eigenvectors
      * env.inverse (env.eigen_solver (jacobian ii)).eigenvectors = 1) :
    ∃ st1, calculate_jacobians env jacobian st = .ok st1 ∧
      ∀ ii, st1.jacobian_neg_ ii * st1.jacobian_pos_ ii = 0 ∧
        st1.jacobian_pos_ ii * st1.jacobian_neg_ ii = 0 := by
  have hacc : ∀ ii, solver_accepts env (jacobian ii) := by
    intro ii
    refine ⟨hinfo ii, fun jj => ?_⟩
    rw [hreal ii jj]
    norm_num
  exact ⟨_, calculate_jacobians_ok env jacobian st (Or.inr hacc),
    fun ii => split_neg_mul_split_pos env (jacobian ii) (hvec ii) (hinv ii)⟩

/-- Instance of C28 on the sample data: the diagonal Jacobian with entries `-1` and `2`,
split with the solver that returns the eigenpairs in the other order, with eigenvectors of
lengths `2` and `3`. -/
theorem calculate_jacobians_annihilate_witness :
    ∃ st1, calculate_jacobians sample_env_swapped
        (fun _ : Fin 1 => Matrix.diagonal ![-1, 2]) (Statics.initial 1 2) = .ok st1 ∧
      ∀ ii, st1.jacobian_neg_ ii * st1.jacobian_pos_ ii = 0 ∧
        st1.jacobian_pos_ ii * st1.jacobian_neg_ ii = 0 :=
  calculate_jacobians_annihilate sample_env_swapped
    (fun _ : Fin 1 => Matrix.diagonal ![-1, 2]) (Statics.initial 1 2) (fun _ => rfl)
    (fun _ _ => rfl)
    (by
      intro ii i j
      simp [sample_env_swapped, swapped_eigen_solver, Matrix.one_apply]
      split <;> simp)
    (fun _ => adjugate_inverse_mul _ swapped_eigenvectors_det)

theorem split_neg_eq_zero {n : ℕ} (env : Env n) (J : RMatrix n)
    (h : ∀ jj, 0 ≤ ((env.eigen_solver J).eigenvalues jj).re) : split_neg env J = 0 := by
  have hD : D_neg (env.eigen_solver J).eigenvalues = 0 := by
    unfold D_neg
    simp only [if_neg (not_lt.2 (h _))]
    exact Matrix.diagonal_zero
  unfold split_neg
  rw [hD, Matrix.mul_zero, Matrix.zero_mul]

theorem split_pos_eq_zero {n : ℕ} (env : Env n) (J : RMatrix n)
    (h : ∀ jj, ((env.eigen_solver J).eigenvalues jj).re < 0) : split_pos env J = 0 := by
  have hD : D_pos (env.eigen_solver J).eigenvalues = 0 := by
    unfold D_pos
    simp only [if_neg (not_le.2 (h _))]
    exact Matrix.diagonal_zero
  unfold split_pos
  rw [hD, Matrix.mul_zero, Matrix.zero_mul]

namespace GodunovNumericalCouplingFlux

variable {P : Type} {dimDomain dimRange : ℕ}

/-- C29. Pure upwinding. Let `J` be the Jacobian whose split the call works with along the
aligned axis `coord`. If every eigenvalue the solver returns for `J` is `≥ 0`, then
`jacobian_neg_[coord]` is the zero matrix and for `normal[coord] = +1` `evaluate` returns
`f(u_i)[·][coord] · face_measure`; if every eigenvalue is `< 0`, then `jacobian_pos_[coord]`
is zero and for `normal[coord] = -1` it returns `-f(u_i)[·][coord] · face_measure`. In
linear mode the call returns the same vector for every other neighbour function. -/
theorem evaluate_pure_upwinding [NeZero dimDomain] (env : Env dimRange)
    (hcmp : FloatCmp_exact env) (self : GodunovNumericalCouplingFlux dimDomain dimRange)
    (st st1 : Statics dimDomain dimRange)
    (local_source_entity local_source_neighbor : P → RangeType dimRange)
    (intersection : Intersection P dimDomain) (x_intersection : P)
    (u_i u_j : RangeType dimRange) (coord : Fin dimDomain) (J : RMatrix dimRange)
    (hu_i : local_source_entity (intersection.geometryInInside_global x_intersection) = u_i)
    (hu_j : local_source_neighbor (intersection.geometryInOutside_global x_intersection) = u_j)
    (hsplit : evaluate_jacobians env self st u_i u_j = .ok st1)
    (h0 : ∀ ii, ii ≠ coord → intersection.unitOuterNormal x_intersection ii = 0)
    (hJ : st1.jacobian_neg_ coord = split_neg env J ∧
      st1.jacobian_pos_ coord = split_pos env J) :
    ((∀ jj, 0 ≤ ((env.eigen_solver J).eigenvalues jj).re) →
      intersection.unitOuterNormal x_intersection coord = 1 →
      st1.jacobian_neg_ coord = 0 ∧
      evaluate env self st local_source_entity local_source_neighbor intersection
          x_intersection =
        .ok (fun kk => self.analytical_flux_.evaluate u_i kk coord
          * intersection.geometry_volume, st1) ∧
      (self.is_linear_ = true → ∀ local_source_neighbor2 : P → RangeType dimRange,
        evaluate env self st local_source_entity local_source_neighbor2 intersection
            x_intersection =
          .ok (fun kk => self.analytical_flux_.evaluate u_i kk coord
            * intersection.geometry_volume, st1))) ∧
    ((∀ jj, ((env.eigen_solver J).eigenvalues jj).re < 0) →
      intersection.unitOuterNormal x_intersection coord = -1 →
      st1.jacobian_pos_ coord = 0 ∧
      evaluate env self st local_source_entity local_source_neighbor intersection
          x_intersection =
        .ok (fun kk => -self.analytical_flux_.evaluate u_i kk coord
          * intersection.geometry_volume, st1) ∧
      (self.is_linear_ = true → ∀ local_source_neighbor2 : P → RangeType dimRange,
        evaluate env self st local_source_entity local_source_neighbor2 intersection
            x_intersection =
          .ok (fun kk => -self.analytical_flux_.evaluate u_i kk coord
            * intersection.geometry_volume, st1))) := by
  subst hu_i hu_j
  have hlinear : self.is_linear_ = true → ∀ u : RangeType dimRange,
      evaluate_jacobians env self st
        (local_source_entity (intersection.geometryInInside_global x_intersection)) u
        = .ok st1 := by
    intro hlin u
    unfold evaluate_jacobians at hsplit ⊢
    simp only [hlin, Bool.not_true, Bool.false_eq_true, if_false] at hsplit ⊢
    exact hsplit
  constructor
  · intro hev hn
    have hneg : st1.jacobian_neg_ coord = 0 := by
      rw [hJ.1, split_neg_eq_zero env J hev]
    have hret : ∀ delta_u : RangeType dimRange,
        evaluate_ret st1 (self.analytical_flux_.evaluate
            (local_source_entity (intersection.geometryInInside_global x_intersection)))
          delta_u (intersection.unitOuterNormal x_intersection) coord
          intersection.geometry_volume
        = fun kk => self.analytical_flux_.evaluate
            (local_source_entity (intersection.geometryInInside_global x_intersection)) kk
            coord * intersection.geometry_volume := by
      intro delta_u
      rw [evaluate_ret_of_pos _ _ _ _ _ _ hn, hneg]
      funext kk
      simp
    refine ⟨hneg, ?_, fun hlin lsn2 => ?_⟩
    · rw [evaluate_eq env self st st1 _ _ _ _ coord hsplit
        (evaluate_direction_exact env hcmp _ coord (Or.inl hn) h0), hret]
    · rw [evaluate_eq env self st st1 _ _ _ _ coord (hlinear hlin _)
        (evaluate_direction_exact env hcmp _ coord (Or.inl hn) h0), hret]
  · intro hev hn
    have hpos : st1.jacobian_pos_ coord = 0 := by
      rw [hJ.2, split_pos_eq_zero env J hev]
    have hret : ∀ delta_u : RangeType dimRange,
        evaluate_ret st1 (self.analytical_flux_.evaluate
            (local_source_entity (intersection.geometryInInside_global x_intersection)))
          delta_u (intersection.unitOuterNormal x_intersection) coord
          intersection.geometry_volume
        = fun kk => -self.analytical_flux_.evaluate
            (local_source_entity (intersection.geometryInInside_global x_intersection)) kk
            coord * intersection.geometry_volume := by
      intro delta_u
      rw [evaluate_ret_of_neg _ _ _ _ _ _ hn, hpos]
      funext kk
      simp
    refine ⟨hpos, ?_, fun hlin lsn2 => ?_⟩
    · rw [evaluate_eq env self st st1 _ _ _ _ coord hsplit
        (evaluate_direction_exact env hcmp _ coord (Or.inr hn) h0), hret]
    · rw [evaluate_eq env self st st1 _ _ _ _ coord (hlinear hlin _)
        (evaluate_direction_exact env hcmp _ coord (Or.inr hn) h0), hret]

/-- Instance of C29 on the sample data: a linear evaluator for the flux `2·u` along axis 1
on the static members its construction left, inside state `2`, normal `(0, 1)`, face measure
`3`: the call returns `f(u_i)[·][1] · 3` with the neighbour state `1` and with the
neighbour state `7`. -/
theorem evaluate_pure_upwinding_witness :
    evaluate (sample_env false) ⟨sample_flux, true⟩ (sample_statics_linear false)
        (sample_source 2) (sample_source 1) (sample_intersection 0 1 3) () =
      .ok (fun kk => sample_flux.evaluate (fun _ => 2) kk 1
        * (sample_intersection 0 1 3).geometry_volume, sample_statics_linear false) ∧
    evaluate (sample_env false) ⟨sample_flux, true⟩ (sample_statics_linear false)
        (sample_source 2) (sample_source 7) (sample_intersection 0 1 3) () =
      .ok (fun kk => sample_flux.evaluate (fun _ => 2) kk 1
        * (sample_intersection 0 1 3).geometry_volume, sample_statics_linear false) := by
  have h := (evaluate_pure_upwinding (sample_env false) (sample_env_exact false)
    ⟨sample_flux, true⟩ (sample_statics_linear false) (sample_statics_linear false)
    (sample_source 2) (sample_source 1) (sample_intersection 0 1 3) () (fun _ => 2)
    (fun _ => 1) 1 (sample_flux.jacobian (fun _ => 0) 1) rfl rfl rfl
    (sample_normal_zero 0 1 3 1 (Or.inr ⟨rfl, rfl⟩)) ⟨rfl, rfl⟩).1
      (by
        intro jj
        simp [sample_env, diagonal_eigen_solver, sample_flux])
      rfl
  exact ⟨h.2.1, h.2.2 rfl (sample_source 7)⟩

end GodunovNumericalCouplingFlux

/-! ## Claim C30: the split an evaluation reads -/

theorem evaluate_jacobians_populated {dimDomain dimRange : ℕ} [NeZero dimDomain]
    (env : Env dimRange) (self : GodunovNumericalCouplingFlux dimDomain dimRange)
    (st st1 : Statics dimDomain dimRange) (u_i u_j : RangeType dimRange)
    (hinv : self.is_linear_ = true → populated env st)
    (h : GodunovNumericalCouplingFlux.evaluate_jacobians env self st u_i u_j = .ok st1) :
    populated env st1 ∧ st1.jacobians_constructed_ = st.jacobians_constructed_ := by
  unfold GodunovNumericalCouplingFlux.evaluate_jacobians at h
  cases hlin : self.is_linear_
  · rw [hlin] at h
    simp only [Bool.not_false, if_true] at h
    have hacc := calculate_jacobians_accepts env _ _ _ h
    rw [reinitialize_jacobians_ok env self st u_i u_j hacc] at h
    injection h with h
    subst h
    exact ⟨⟨Nat.lt_of_lt_of_le (Nat.pos_of_ne_zero (NeZero.ne dimDomain))
      (Nat.le_add_left _ _), _, rfl, rfl⟩, rfl⟩
  · rw [hlin] at h
    simp only [Bool.not_true, Bool.false_eq_true, if_false] at h
    injection h with h
    subst h
    exact ⟨hinv hlin, rfl⟩

/-- What holds of the static members and the evaluators after every call of a program:
every linear evaluator finds the flag set, and a set flag means a populated cache. -/
theorem run_call_invariant {P : Type} {dimDomain dimRange : ℕ} [NeZero dimDomain]
    (env : Env dimRange) (s s1 : ProgramState dimDomain dimRange)
    (c : Call P dimDomain dimRange)
    (hinv : (∀ self ∈ s.objects, self.is_linear_ = true →
        s.statics.jacobians_constructed_ = true) ∧
      (s.statics.jacobians_constructed_ = true → populated env s.statics))
    (h : run_call env s c = .ok s1) :
    (∀ self ∈ s1.objects, self.is_linear_ = true →
        s1.statics.jacobians_constructed_ = true) ∧
      (s1.statics.jacobians_constructed_ = true → populated env s1.statics) := by
  obtain ⟨hobj, hpop⟩ := hinv
  cases c with
  | construct analytical_flux is_linear =>
    simp only [run_call] at h
    split at h
    · exact Except.noConfusion h
    · rename_i self st1 hcon
      injection h with h
      subst h
      cases is_linear
      · have hc : GodunovNumericalCouplingFlux.construct env analytical_flux false s.statics
            = .ok (⟨analytical_flux, false⟩, s.statics) := by
          unfold GodunovNumericalCouplingFlux.construct
          simp
        rw [hc] at hcon
        injection hcon with hcon
        injection hcon with hself hst
        subst hself hst
        refine ⟨fun self hself hlin => ?_, hpop⟩
        rcases List.mem_append.1 hself with hm | hm
        · exact hobj self hm hlin
        · rw [List.mem_singleton] at hm
          subst hm
          exact absurd hlin (by simp)
      · rw [construct_linear_eq env analytical_flux s.statics
          (construct_linear_accepts env analytical_flux s.statics _ hcon)] at hcon
        injection hcon with hcon
        injection hcon with hself hst
        subst hself hst
        cases hflag : s.statics.jacobians_constructed_
        · simp only [Bool.false_eq_true, if_false]
          exact ⟨fun _ _ _ => trivial, fun _ =>
            ⟨Nat.lt_of_lt_of_le (Nat.pos_of_ne_zero (NeZero.ne dimDomain))
              (Nat.le_add_left _ _), _, rfl, rfl⟩⟩
        · simp only [if_true]
          exact ⟨fun _ _ _ => hflag, fun _ => hpop hflag⟩
  | evaluate k a =>
    simp only [run_call] at h
    split at h
    · injection h with h
      subst h
      exact ⟨hobj, hpop⟩
    · rename_i self hget
      split at h
      · exact Except.noConfusion h
      · rename_i r hev
        injection h with h
        subst h
        have hmem : self ∈ s.objects := List.get?_mem hget
        have hsplit : GodunovNumericalCouplingFlux.evaluate_jacobians env self s.statics
            (a.local_source_entity (a.intersection.geometryInInside_global a.x_intersection))
            (a.local_source_neighbor
              (a.intersection.geometryInOutside_global a.x_intersection)) = .ok r.2 := by
          unfold GodunovNumericalCouplingFlux.evaluate at hev
          simp only [] at hev
          split at hev
          · exact Except.noConfusion hev
          · rename_i st2 hs
            split at hev
            · exact Except.noConfusion hev
            · injection hev with hev
              subst hev
              exact hs
        obtain ⟨hp, hf⟩ := evaluate_jacobians_populated env self s.statics r.2 _ _
          (fun hlin => hpop (hobj self hmem hlin)) hsplit
        exact ⟨fun self2 hself2 hlin => by
          show r.2.jacobians_constructed_ = true
          rw [hf]
          exact hobj self2 hself2 hlin, fun _ => hp⟩

theorem for_loop_invariant {ι σ : Type} (body : σ → ι → Except Abort σ) (inv : σ → Prop)
    (hstep : ∀ s s1 c, inv s → body s c = .ok s1 → inv s1) (l : List ι) (s s1 : σ)
    (hs : inv s) (h : for_loop body l s = .ok s1) : inv s1 := by
  induction l generalizing s with
  | nil =>
    simp only [for_loop] at h
    injection h with h
    subst h
    exact hs
  | cons c rest ih =>
    simp only [for_loop] at h
    split at h
    · exact Except.noConfusion h
    · rename_i s2 hc
      exact ih s2 (hstep s s2 c hs hc) h

namespace GodunovNumericalCouplingFlux_1

variable {P : Type} {dimRange : ℕ}

theorem calculate_jacobians_store_populated (env : Env dimRange) (PAPERFLUX : Bool)
    (st : Statics_1 dimRange) (J : RMatrix dimRange) (h : 0 < st.eigen_solver_calls) :
    populated_1 env PAPERFLUX
      (calculate_jacobians_store PAPERFLUX st (split_neg env J) (split_pos env J)) := by
  cases PAPERFLUX
  · exact ⟨h, ⟨J, rfl, rfl⟩, fun hc => absurd hc (by simp), fun _ => ⟨rfl, rfl⟩⟩
  · refine ⟨h, ⟨J, rfl, rfl⟩, fun _ => ?_, fun hc => absurd hc (by simp)⟩
    simp [calculate_jacobians_store, sub_eq_add_neg, add_comm]

theorem initialize_jacobians_populated (env : Env dimRange) (PAPERFLUX : Bool)
    (self : GodunovNumericalCouplingFlux_1 dimRange) (st st1 : Statics_1 dimRange)
    (h : initialize_jacobians env PAPERFLUX self st = .ok st1) :
    populated_1 env PAPERFLUX st1 ∧ st1.jacobians_constructed_ = true := by
  obtain ⟨st2, h2, hflag, -, hcalls, hneg, hpos, habs, hfun, habsf⟩ :=
    initialize_jacobians_ok_1 env PAPERFLUX self st
      (initialize_jacobians_accepts_1 env PAPERFLUX self st st1 h)
  rw [h2] at h
  injection h with h
  subst h
  refine ⟨⟨?_, ⟨_, hneg, hpos⟩, fun hp => ?_, hfun⟩, hflag⟩
  · rw [hcalls]
    exact Nat.succ_pos _
  · rw [habsf hp, habs]

theorem initialize_guard_populated (env : Env dimRange) (PAPERFLUX : Bool)
    (self : GodunovNumericalCouplingFlux_1 dimRange) (st st1 : Statics_1 dimRange)
    (hinv : st.jacobians_constructed_ = true → populated_1 env PAPERFLUX st)
    (h : initialize_guard env PAPERFLUX self st = .ok st1) :
    (st1.jacobians_constructed_ = true → populated_1 env PAPERFLUX st1) ∧
      (self.is_linear_ = true → st1.jacobians_constructed_ = true) ∧
      (self.is_linear_ = false → st1 = st) := by
  cases hlin : self.is_linear_
  · rw [initialize_guard_constructed env PAPERFLUX self st (Or.inr hlin)] at h
    injection h with h
    subst h
    exact ⟨hinv, fun hc => absurd hc (by simp), fun _ => rfl⟩
  · cases hflag : st.jacobians_constructed_
    · have hg : initialize_guard env PAPERFLUX self st
          = initialize_jacobians env PAPERFLUX self st := by
        unfold initialize_guard
        simp [hflag, hlin]
      rw [hg] at h
      obtain ⟨hp, hf⟩ := initialize_jacobians_populated env PAPERFLUX self st st1 h
      exact ⟨fun _ => hp, fun _ => hf, fun hc => absurd hc (by simp)⟩
    · rw [initialize_guard_constructed env PAPERFLUX self st (Or.inl hflag)] at h
      injection h with h
      subst h
      exact ⟨hinv, fun _ => hflag, fun hc => absurd hc (by simp)⟩

theorem evaluate_jacobians_populated_1 (env : Env dimRange) (PAPERFLUX : Bool)
    (self : GodunovNumericalCouplingFlux_1 dimRange) (st st1 : Statics_1 dimRange)
    (u_i u_j : RangeType dimRange)
    (hinv : st.jacobians_constructed_ = true → populated_1 env PAPERFLUX st)
    (h : evaluate_jacobians env PAPERFLUX self st u_i u_j = .ok st1) :
    populated_1 env PAPERFLUX st1 := by
  unfold evaluate_jacobians at h
  cases hg : initialize_guard env PAPERFLUX self st with
  | error e =>
    rw [hg] at h
    exact Except.noConfusion h
  | ok st2 =>
    rw [hg] at h
    simp only [] at h
    obtain ⟨hp, hflag, hsame⟩ := initialize_guard_populated env PAPERFLUX self st st2 hinv hg
    cases hlin : self.is_linear_
    · rw [hlin] at h
      simp only [Bool.not_false, if_true] at h
      have hacc := calculate_jacobians_accepts_1 env PAPERFLUX _ _ _ h
      rw [reinitialize_jacobians_ok_1 env PAPERFLUX self st2 u_i u_j hacc] at h
      injection h with h
      subst h
      exact calculate_jacobians_store_populated env PAPERFLUX _ _ (Nat.succ_pos _)
    · rw [hlin] at h
      simp only [Bool.not_true, Bool.false_eq_true, if_false] at h
      injection h with h
      subst h
      exact hp (hflag hlin)

theorem run_call_invariant_1 (env : Env dimRange) (PAPERFLUX : Bool)
    (st st1 : Statics_1 dimRange) (c : Call_1 P dimRange)
    (hinv : st.jacobians_constructed_ = true → populated_1 env PAPERFLUX st)
    (h : run_call_1 env PAPERFLUX st c = .ok st1) :
    st1.jacobians_constructed_ = true → populated_1 env PAPERFLUX st1 := by
  cases c with
  | construct analytical_flux is_linear =>
    simp only [run_call_1] at h
    split at h
    · exact Except.noConfusion h
    · rename_i r hcon
      injection h with h
      subst h
      unfold construct at hcon
      simp only [] at hcon
      split at hcon
      · exact Except.noConfusion hcon
      · rename_i st2 hg
        injection hcon with hcon
        subst hcon
        exact (initialize_guard_populated env PAPERFLUX _ st st2 hinv hg).1
  | evaluate self a =>
    simp only [run_call_1] at h
    split at h
    · exact Except.noConfusion h
    · rename_i r hev
      injection h with h
      subst h
      exact fun _ => evaluate_jacobians_populated_1 env PAPERFLUX self st _ _ _ hinv
        (evaluate_facts_1 env PAPERFLUX self st _ _ _ _ r hev)

end GodunovNumericalCouplingFlux_1

/-- C30. No evaluation reads an unpopulated split. General `dimDomain`: after any sequence of
constructor and `evaluate` calls made from the start of the program, for every evaluator
constructed so far, in both modes, the static members that `evaluate` multiplies with (those
left by lines 138-140) hold a split stored by `calculate_jacobians`. Specialisation for
`dimDomain = 1`: after any sequence of calls a thread made from its start, for every
evaluator, constructed by this thread or not, in both modes and both builds, the static
members `evaluate` applies (those left by lines 305-310) hold a split stored by
`calculate_jacobians`, and the functions applied are the products with its matrices. -/
theorem evaluate_reads_populated_split {P : Type} {dimDomain dimRange : ℕ}
    [NeZero dimDomain] (env : Env dimRange) (PAPERFLUX : Bool)
    (calls : List (Call P dimDomain dimRange)) (s : ProgramState dimDomain dimRange)
    (calls_1 : List (Call_1 P dimRange)) (st_1 : Statics_1 dimRange)
    (hrun : run_calls env calls = .ok s)
    (hrun_1 : run_calls_1 env PAPERFLUX calls_1 = .ok st_1) :
    (∀ self ∈ s.objects, ∀ (u_i u_j : RangeType dimRange) (st1 : Statics dimDomain dimRange),
      GodunovNumericalCouplingFlux.evaluate_jacobians env self s.statics u_i u_j = .ok st1 →
      populated env st1) ∧
    (∀ (self_1 : GodunovNumericalCouplingFlux_1 dimRange) (u_i u_j : RangeType dimRange)
        (st1_1 : Statics_1 dimRange),
      GodunovNumericalCouplingFlux_1.evaluate_jacobians env PAPERFLUX self_1 st_1 u_i u_j
        = .ok st1_1 →
      populated_1 env PAPERFLUX st1_1) := by
  have hinv := for_loop_invariant (run_call env)
    (fun s : ProgramState dimDomain dimRange =>
      (∀ self ∈ s.objects, self.is_linear_ = true →
        s.statics.jacobians_constructed_ = true) ∧
      (s.statics.jacobians_constructed_ = true → populated env s.statics))
    (fun s s1 c hs h => run_call_invariant env s s1 c hs h) calls
    ⟨Statics.initial dimDomain dimRange, []⟩ s
    ⟨fun _ h => absurd h (List.not_mem_nil _), fun h => absurd h (by simp [Statics.initial])⟩
    hrun
  have hinv_1 := for_loop_invariant (run_call_1 env PAPERFLUX)
    (fun st : Statics_1 dimRange =>
      st.jacobians_constructed_ = true → populated_1 env PAPERFLUX st)
    (fun st st1 c hs h =>
      GodunovNumericalCouplingFlux_1.run_call_invariant_1 env PAPERFLUX st st1 c hs h)
    calls_1 (Statics_1.initial dimRange) st_1
    (fun h => absurd h (by simp [Statics_1.initial])) hrun_1
  constructor
  · intro self hself u_i u_j st1 h
    exact (evaluate_jacobians_populated env self s.statics st1 u_i u_j
      (fun hlin => hinv.2 (hinv.1 self hself hlin)) h).1
  · intro self_1 u_i u_j st1_1 h
    exact GodunovNumericalCouplingFlux_1.evaluate_jacobians_populated_1 env PAPERFLUX self_1
      st_1 st1_1 u_i u_j hinv_1 h

theorem sample_run_calls :
    run_calls (sample_env false)
        [Call.construct sample_flux true, Call.evaluate 0 (sample_args 2 0 1 0)]
      = .ok ⟨sample_statics_linear false, [⟨sample_flux, true⟩]⟩ := by
  have hcon : GodunovNumericalCouplingFlux.construct (sample_env false) sample_flux true
      (Statics.initial 2 1) = .ok (⟨sample_flux, true⟩, sample_statics_linear false) :=
    construct_linear_eq (sample_env false) sample_flux (Statics.initial 2 1)
      (Or.inr (Or.inr fun _ => sample_env_accepts false _))
  have hev := evaluate_linear_eq (sample_env false) ⟨sample_flux, true⟩ rfl
    (sample_statics_linear false) (sample_source 2) (sample_source 0)
    (sample_intersection 1 0 1) ()
  rw [sample_direction_aligned false 1 0 1 0 (Or.inl ⟨rfl, Or.inl rfl, rfl⟩)] at hev
  unfold run_calls
  simp only [for_loop, run_call, hcon, List.nil_append, List.get?, sample_args, hev]

theorem sample_run_calls_1 :
    run_calls_1 (sample_env false) false
        [Call_1.construct (advection_flux 1) true,
          Call_1.evaluate ⟨advection_flux 1, true⟩ (sample_args_1 2 1 1)]
      = .ok (sample_statics_1 1) := by
  unfold run_calls_1
  simp only [for_loop, run_call_1, sample_construct_1, sample_args_1,
    GodunovNumericalCouplingFlux_1.evaluate_linear_1 (sample_env false) false
      ⟨advection_flux 1, true⟩ rfl (sample_statics_1 1) rfl]

/-- Instance of C30 on the sample data: a program that constructs a linear evaluator for
`sample_flux` and evaluates it once, and a thread that constructs a linear evaluator for the
advection flux and evaluates it once. -/
theorem evaluate_reads_populated_split_witness :
    ∃ (s : ProgramState 2 1) (st_1 : Statics_1 1),
      run_calls (sample_env false)
        [Call.construct sample_flux true, Call.evaluate 0 (sample_args 2 0 1 0)] = .ok s ∧
      run_calls_1 (sample_env false) false
        [Call_1.construct (advection_flux 1) true,
          Call_1.evaluate ⟨advection_flux 1, true⟩ (sample_args_1 2 1 1)] = .ok st_1 ∧
      (∀ self ∈ s.objects, ∀ (u_i u_j : RangeType 1) (st1 : Statics 2 1),
        GodunovNumericalCouplingFlux.evaluate_jacobians (sample_env false) self s.statics
          u_i u_j = .ok st1 →
        populated (sample_env false) st1) ∧
      (∀ (self_1 : GodunovNumericalCouplingFlux_1 1) (u_i u_j : RangeType 1)
          (st1_1 : Statics_1 1),
        GodunovNumericalCouplingFlux_1.evaluate_jacobians (sample_env false) false self_1
          st_1 u_i u_j = .ok st1_1 →
        populated_1 (sample_env false) false st1_1) :=
  ⟨_, _, sample_run_calls, sample_run_calls_1,
    evaluate_reads_populated_split (sample_env false) false _ _ _ _ sample_run_calls
      sample_run_calls_1⟩

/-! ## Oblique normals and failed assertions -/

/-- C6 fails as stated. Interior evaluator, nonlinear mode, assertions enabled, a solver that
reports `NoConvergence`, normal `(1/2, 0)`: the component `1/2` is none of `0`, `+1`, `-1`,
and `evaluate` ends on the failed assertion of line 215, before the direction search that
throws `Dune::NotImplemented` is reached. -/
theorem evaluate_oblique_normal_counterexample :
    oblique (faulty_env false ComputationInfo.NoConvergence 0)
      ((sample_intersection (1 / 2) 0 1).unitOuterNormal ()) ∧
    GodunovNumericalCouplingFlux.evaluate (faulty_env false ComputationInfo.NoConvergence 0)
        ⟨sample_flux, false⟩ (Statics.initial 2 1) (sample_source 2) (sample_source 1)
        (sample_intersection (1 / 2) 0 1) () = .error .AssertionFailed ∧
    GodunovNumericalCouplingFlux.evaluate (faulty_env false ComputationInfo.NoConvergence 0)
        ⟨sample_flux, false⟩ (Statics.initial 2 1) (sample_source 2) (sample_source 1)
        (sample_intersection (1 / 2) 0 1) () ≠ .error .NotImplemented := by
  have hev : GodunovNumericalCouplingFlux.evaluate
      (faulty_env false ComputationInfo.NoConvergence 0)
      ⟨sample_flux, false⟩ (Statics.initial 2 1) (sample_source 2) (sample_source 1)
      (sample_intersection (1 / 2) 0 1) () = .error .AssertionFailed := by
    apply GodunovNumericalCouplingFlux.evaluate_jacobians_error
    unfold GodunovNumericalCouplingFlux.evaluate_jacobians
      GodunovNumericalCouplingFlux.reinitialize_jacobians
    simp only [Bool.not_false, if_true]
    exact calculate_jacobians_fail _ _ _ rfl ⟨0, fun h => absurd h.1 (by simp [faulty_env])⟩
  refine ⟨⟨0, ?_, ?_, ?_⟩, hev, ?_⟩
  · simp [faulty_env, FloatCmp_numpy, sample_intersection]
    norm_num [abs_of_nonneg, abs_of_neg]
  · simp [faulty_env, FloatCmp_numpy, sample_intersection]
    norm_num [abs_of_nonneg, abs_of_neg]
  · simp [faulty_env, FloatCmp_numpy, sample_intersection]
    norm_num [abs_of_nonneg, abs_of_neg]
  · rw [hev]
    intro h
    injection h with h
    exact Abort.noConfusion h

end Dune.GDT
